import Mathlib

/-!
Verification of the RustJSONNLP schema codec (`src/lib.rs`, crate `jsonnlp`).

The crate defines the JSON-NLP document model (Meta, Token, Sentence, ...,
JSONNLP) as serde `Serialize`/`Deserialize` structs and exposes
`from_string` (parse) and `get_json` (render).  This file gives a shallow
embedding of that code:

* `Json` is the JSON value tree produced by `serde_json` (numbers keep the
  integer / decimal-literal distinction that `serde_json` uses to decide
  whether a number may deserialize into an unsigned-integer field);
* each Rust struct becomes a Lean structure with the same fields
  (`u64`/`u8` become `Nat`, range-checked where the code range-checks,
  `f64` becomes the parsed numeral `JNum`, `Vec` becomes `List`);
* each derived `Deserialize` impl becomes a `fromJson` function with the
  exact per-field serde attributes of the source: `rename`, `default`
  (absent field takes the type's zero value), required fields (no
  `default`) fail on absence, duplicate known fields fail, unknown fields
  are ignored;
* each derived `Serialize` impl becomes a `jsonMembers`/`toJson` function
  emitting fields in declaration order, skipping exactly the fields
  marked `skip_serializing_if = "String::is_empty"` when empty;
* `from_string` and `get_json` are modeled on top, together with a small
  JSON text scanner standing in for `serde_json`'s reader/writer.
  `from_string` calls `.unwrap()` on the decode result in the source, so
  a decode failure is a panic, modeled as `none`.
-/

namespace jsonnlp

/-- A JSON numeral as classified by `serde_json`: `int n` is a literal with
neither fraction nor exponent (which may deserialize into `u64`/`u8`
fields), `dec m e` is a fractional/exponent literal denoting `m / 10 ^ e`
(only valid for `f64` fields). -/
inductive JNum where
  | int (n : Int)
  | dec (m : Int) (e : Nat)
deriving DecidableEq, Repr

/-- The zero value of an `f64` field (`0.0`, printed with a fraction). -/
def f64zero : JNum := .dec 0 1

/-- JSON values, the interface type between the codec and `serde_json`. -/
inductive Json where
  | null
  | bool (b : Bool)
  | num (v : JNum)
  | str (s : String)
  | arr (elems : List Json)
  | obj (members : List (String × Json))

/-- Look up the first member of a JSON object with the given key. -/
def findVal (k : String) : List (String × Json) → Option Json
  | [] => none
  | (k', v) :: ms => if k' = k then some v else findVal k ms

/-- Member-list fragment for a string field carrying serde's
`skip_serializing_if = "String::is_empty"`: present iff non-empty. -/
def strOpt (k s : String) : List (String × Json) :=
  if s = "" then [] else [(k, Json.str s)]

/-- The rendered value of an optional (skip-if-empty) string field. -/
def strVal (s : String) : Option Json :=
  if s = "" then none else some (Json.str s)

/-- Fetch the value of a known field from an object's member list the way
a derived serde `Deserialize` impl does: absent gives `none`, a unique
occurrence gives its value, a duplicate occurrence is an error. -/
def getOpt : List (String × Json) → String → Except String (Option Json)
  | [], _ => .ok none
  | (k', v) :: ms, k =>
    if k' = k then
      match getOpt ms k with
      | .ok none => .ok (some v)
      | .ok (some _) => .error ("duplicate field " ++ k)
      | .error e => .error e
    else getOpt ms k

/-- A required struct field (no `#[serde(default)]`): absence is an error. -/
def reqF (ms : List (String × Json)) (k : String)
    (p : Json → Except String α) : Except String α :=
  match getOpt ms k with
  | .ok (some v) => p v
  | .ok none => .error ("missing field " ++ k)
  | .error e => .error e

/-- A defaulted struct field (`#[serde(default)]`): absence yields the
type's zero value `d`. -/
def optF (ms : List (String × Json)) (k : String)
    (p : Json → Except String α) (d : α) : Except String α :=
  match getOpt ms k with
  | .ok (some v) => p v
  | .ok none => .ok d
  | .error e => .error e

/-- Deserialize a `u64`: only an integer literal in `[0, 2^64)`. -/
def parseU64 : Json → Except String Nat
  | .num (.int n) =>
    if 0 ≤ n ∧ n < 2 ^ 64 then .ok n.toNat else .error "u64 out of range"
  | _ => .error "expected u64"

/-- Deserialize a `u8`: only an integer literal in `[0, 256)`. -/
def parseU8 : Json → Except String Nat
  | .num (.int n) =>
    if 0 ≤ n ∧ n < 256 then .ok n.toNat else .error "u8 out of range"
  | _ => .error "expected u8"

/-- Deserialize an `f64`: any JSON numeral. -/
def parseF64 : Json → Except String JNum
  | .num v => .ok v
  | _ => .error "expected f64"

/-- Deserialize a `bool`. -/
def parseBool : Json → Except String Bool
  | .bool b => .ok b
  | _ => .error "expected bool"

/-- Deserialize a `String`. -/
def parseStr : Json → Except String String
  | .str s => .ok s
  | _ => .error "expected string"

/-- Deserialize every element of a JSON array in order (serde's sequence
visitor): the first failing element fails the whole list. -/
def parseMany (p : Json → Except String α) : List Json → Except String (List α)
  | [] => .ok []
  | j :: js => do
    let a ← p j
    let as ← parseMany p js
    .ok (a :: as)

/-- Deserialize a `Vec<T>` from a JSON array. -/
def parseArr (p : Json → Except String α) : Json → Except String (List α)
  | .arr js => parseMany p js
  | _ => .error "expected array"

/-- Require a JSON object and return its member list. -/
def asObj : Json → Except String (List (String × Json))
  | .obj ms => .ok ms
  | _ => .error "expected object"

/-- Render a `u64`/`u8` field value. -/
def jnat (n : Nat) : Json := .num (.int n)

/-- Render a `Vec<u64>` field value. -/
def jnats (l : List Nat) : Json := .arr (l.map jnat)

/-- Metadata struct `Meta` of `src/lib.rs`: eleven strings, each
`#[serde(default, rename = "DC...", skip_serializing_if = String::is_empty)]`. -/
structure Meta where
  conforms_to : String
  author : String
  created : String
  date : String
  source : String
  language : String
  creator : String
  publisher : String
  title : String
  description : String
  identifier : String
deriving DecidableEq, Repr

/-- Derived `Deserialize` for `Meta`. -/
def Meta.fromJson (j : Json) : Except String Meta := do
  let ms ← asObj j
  let conforms_to ← optF ms "DC.conformsTo" parseStr ""
  let author ← optF ms "DC.author" parseStr ""
  let created ← optF ms "DC.created" parseStr ""
  let date ← optF ms "DC.date" parseStr ""
  let source ← optF ms "DC.source" parseStr ""
  let language ← optF ms "DC.language" parseStr ""
  let creator ← optF ms "DC.creator" parseStr ""
  let publisher ← optF ms "DC.publisher" parseStr ""
  let title ← optF ms "DC.title" parseStr ""
  let description ← optF ms "DC.description" parseStr ""
  let identifier ← optF ms "DC.identifier" parseStr ""
  .ok ⟨conforms_to, author, created, date, source, language, creator,
    publisher, title, description, identifier⟩

/-- Derived `Serialize` for `Meta` (member list, declaration order). -/
def Meta.jsonMembers (m : Meta) : List (String × Json) :=
  strOpt "DC.conformsTo" m.conforms_to ++
  strOpt "DC.author" m.author ++
  strOpt "DC.created" m.created ++
  strOpt "DC.date" m.date ++
  strOpt "DC.source" m.source ++
  strOpt "DC.language" m.language ++
  strOpt "DC.creator" m.creator ++
  strOpt "DC.publisher" m.publisher ++
  strOpt "DC.title" m.title ++
  strOpt "DC.description" m.description ++
  strOpt "DC.identifier" m.identifier

/-- Rendered `Meta`. -/
def Meta.toJson (m : Meta) : Json := .obj m.jsonMembers

/-- Morphosyntactic feature struct `TokenFeatures` of `src/lib.rs`: every
field `#[serde(default)]`; `gender`, `tense`, `case`, `mood` additionally
skip-if-empty; `phrasalverb`/`spaceafter` renamed. -/
structure TokenFeatures where
  overt : Bool
  stop : Bool
  alpha : Bool
  number : Nat
  gender : String
  person : Nat
  tense : String
  perfect : Bool
  continuous : Bool
  progressive : Bool
  «case» : String
  human : Bool
  animate : Bool
  negated : Bool
  countable : Bool
  factive : Bool
  counterfactive : Bool
  irregular : Bool
  phrasalverb : Bool
  mood : String
  foreign : Bool
  spaceafter : Bool
deriving DecidableEq, Repr

/-- Derived `Deserialize` for `TokenFeatures`. -/
def TokenFeatures.fromJson (j : Json) : Except String TokenFeatures := do
  let ms ← asObj j
  let overt ← optF ms "overt" parseBool false
  let stop ← optF ms "stop" parseBool false
  let alpha ← optF ms "alpha" parseBool false
  let number ← optF ms "number" parseU8 0
  let gender ← optF ms "gender" parseStr ""
  let person ← optF ms "person" parseU8 0
  let tense ← optF ms "tense" parseStr ""
  let perfect ← optF ms "perfect" parseBool false
  let continuous ← optF ms "continuous" parseBool false
  let progressive ← optF ms "progressive" parseBool false
  let cas ← optF ms "case" parseStr ""
  let human ← optF ms "human" parseBool false
  let animate ← optF ms "animate" parseBool false
  let negated ← optF ms "negated" parseBool false
  let countable ← optF ms "countable" parseBool false
  let factive ← optF ms "factive" parseBool false
  let counterfactive ← optF ms "counterfactive" parseBool false
  let irregular ← optF ms "irregular" parseBool false
  let phrasalverb ← optF ms "phrasalVerb" parseBool false
  let mood ← optF ms "mood" parseStr ""
  let foreign ← optF ms "foreign" parseBool false
  let spaceafter ← optF ms "spaceAfter" parseBool false
  .ok ⟨overt, stop, alpha, number, gender, person, tense, perfect,
    continuous, progressive, cas, human, animate, negated, countable,
    factive, counterfactive, irregular, phrasalverb, mood, foreign,
    spaceafter⟩

/-- Derived `Serialize` for `TokenFeatures`. -/
def TokenFeatures.jsonMembers (t : TokenFeatures) : List (String × Json) :=
  ("overt", .bool t.overt) ::
  ("stop", .bool t.stop) ::
  ("alpha", .bool t.alpha) ::
  ("number", jnat t.number) ::
  strOpt "gender" t.gender ++
  ("person", jnat t.person) ::
  strOpt "tense" t.tense ++
  ("perfect", .bool t.perfect) ::
  ("continuous", .bool t.continuous) ::
  ("progressive", .bool t.progressive) ::
  strOpt "case" t.«case» ++
  ("human", .bool t.human) ::
  ("animate", .bool t.animate) ::
  ("negated", .bool t.negated) ::
  ("countable", .bool t.countable) ::
  ("factive", .bool t.factive) ::
  ("counterfactive", .bool t.counterfactive) ::
  ("irregular", .bool t.irregular) ::
  ("phrasalVerb", .bool t.phrasalverb) ::
  strOpt "mood" t.mood ++
  ("foreign", .bool t.foreign) ::
  [("spaceAfter", .bool t.spaceafter)]

/-- Rendered `TokenFeatures`. -/
def TokenFeatures.toJson (t : TokenFeatures) : Json := .obj t.jsonMembers

/-- Token struct of `src/lib.rs`.  `id`, `sentence_id`, `text`, `lemma`
and `features` carry no `#[serde(default)]` and are therefore required on
input; all other fields are defaulted, the string ones among them
skip-if-empty on output. -/
structure Token where
  id : Nat
  sentence_id : Nat
  text : String
  «lemma» : String
  xpos : String
  xpos_prob : JNum
  upos : String
  upos_prob : JNum
  entity_iob : String
  char_offset_begin : Nat
  char_offset_end : Nat
  prop_id : String
  prop_id_prob : JNum
  frame_id : Nat
  frame_id_prob : JNum
  wordnet_id : Nat
  wordnet_id_prob : JNum
  verbnet_id : Nat
  verbnet_id_prob : JNum
  lang : String
  features : TokenFeatures
  shape : String
  entity : String
deriving DecidableEq, Repr

/-- Derived `Deserialize` for `Token`. -/
def Token.fromJson (j : Json) : Except String Token := do
  let ms ← asObj j
  let id ← reqF ms "id" parseU64
  let sentence_id ← reqF ms "sentence_id" parseU64
  let text ← reqF ms "text" parseStr
  let lem ← reqF ms "lemma" parseStr
  let xpos ← optF ms "xpos" parseStr ""
  let xpos_prob ← optF ms "xpos_prob" parseF64 f64zero
  let upos ← optF ms "upos" parseStr ""
  let upos_prob ← optF ms "upos_prob" parseF64 f64zero
  let entity_iob ← optF ms "entity_iob" parseStr ""
  let char_offset_begin ← optF ms "characterOffsetBegin" parseU64 0
  let char_offset_end ← optF ms "characterOffsetEnd" parseU64 0
  let prop_id ← optF ms "propID" parseStr ""
  let prop_id_prob ← optF ms "propIDProbability" parseF64 f64zero
  let frame_id ← optF ms "frameID" parseU64 0
  let frame_id_prob ← optF ms "frameIDProb" parseF64 f64zero
  let wordnet_id ← optF ms "wordNetID" parseU64 0
  let wordnet_id_prob ← optF ms "wordNetIDProb" parseF64 f64zero
  let verbnet_id ← optF ms "verbNetID" parseU64 0
  let verbnet_id_prob ← optF ms "verbNetIDProb" parseF64 f64zero
  let lang ← optF ms "lang" parseStr ""
  let features ← reqF ms "features" TokenFeatures.fromJson
  let shape ← optF ms "shape" parseStr ""
  let entity ← optF ms "entity" parseStr ""
  .ok ⟨id, sentence_id, text, lem, xpos, xpos_prob, upos, upos_prob,
    entity_iob, char_offset_begin, char_offset_end, prop_id, prop_id_prob,
    frame_id, frame_id_prob, wordnet_id, wordnet_id_prob, verbnet_id,
    verbnet_id_prob, lang, features, shape, entity⟩

/-- Derived `Serialize` for `Token`. -/
def Token.jsonMembers (t : Token) : List (String × Json) :=
  ("id", jnat t.id) ::
  ("sentence_id", jnat t.sentence_id) ::
  ("text", .str t.text) ::
  ("lemma", .str t.«lemma») ::
  strOpt "xpos" t.xpos ++
  ("xpos_prob", .num t.xpos_prob) ::
  strOpt "upos" t.upos ++
  ("upos_prob", .num t.upos_prob) ::
  strOpt "entity_iob" t.entity_iob ++
  ("characterOffsetBegin", jnat t.char_offset_begin) ::
  ("characterOffsetEnd", jnat t.char_offset_end) ::
  strOpt "propID" t.prop_id ++
  ("propIDProbability", .num t.prop_id_prob) ::
  ("frameID", jnat t.frame_id) ::
  ("frameIDProb", .num t.frame_id_prob) ::
  ("wordNetID", jnat t.wordnet_id) ::
  ("wordNetIDProb", .num t.wordnet_id_prob) ::
  ("verbNetID", jnat t.verbnet_id) ::
  ("verbNetIDProb", .num t.verbnet_id_prob) ::
  strOpt "lang" t.lang ++
  ("features", t.features.toJson) ::
  strOpt "shape" t.shape ++
  strOpt "entity" t.entity

/-- Rendered `Token`. -/
def Token.toJson (t : Token) : Json := .obj t.jsonMembers

/-- Sentence struct of `src/lib.rs`: `id` is required (no default); the
other fields are defaulted; `stype` is renamed to `type` and, with
`sentiment`, skip-if-empty. -/
structure Sentence where
  id : Nat
  token_from : Nat
  token_to : Nat
  tokens : List Nat
  clauses : List Nat
  stype : String
  sentiment : String
  sentiment_prob : JNum
deriving DecidableEq, Repr

/-- Derived `Deserialize` for `Sentence`. -/
def Sentence.fromJson (j : Json) : Except String Sentence := do
  let ms ← asObj j
  let id ← reqF ms "id" parseU64
  let token_from ← optF ms "tokenFrom" parseU64 0
  let token_to ← optF ms "tokenTo" parseU64 0
  let tokens ← optF ms "tokens" (parseArr parseU64) []
  let clauses ← optF ms "clauses" (parseArr parseU64) []
  let stype ← optF ms "type" parseStr ""
  let sentiment ← optF ms "sentiment" parseStr ""
  let sentiment_prob ← optF ms "sentimentProb" parseF64 f64zero
  .ok ⟨id, token_from, token_to, tokens, clauses, stype, sentiment,
    sentiment_prob⟩

/-- Derived `Serialize` for `Sentence`. -/
def Sentence.jsonMembers (s : Sentence) : List (String × Json) :=
  ("id", jnat s.id) ::
  ("tokenFrom", jnat s.token_from) ::
  ("tokenTo", jnat s.token_to) ::
  ("tokens", jnats s.tokens) ::
  ("clauses", jnats s.clauses) ::
  strOpt "type" s.stype ++
  strOpt "sentiment" s.sentiment ++
  [("sentimentProb", .num s.sentiment_prob)]

/-- Rendered `Sentence`. -/
def Sentence.toJson (s : Sentence) : Json := .obj s.jsonMembers

/-- Clause struct of `src/lib.rs`: `id` required, everything else
defaulted; `tense`, `mood`, `aspect`, `voice`, `sentiment` skip-if-empty. -/
structure Clause where
  id : Nat
  sentence_id : Nat
  token_from : Nat
  token_to : Nat
  tokens : List Nat
  main : Bool
  gov : Nat
  head : Nat
  neg : Bool
  tense : String
  mood : String
  perfect : Bool
  continuous : Bool
  aspect : String
  voice : String
  sentiment : String
  sentiment_prob : JNum
deriving DecidableEq, Repr

/-- Derived `Deserialize` for `Clause`. -/
def Clause.fromJson (j : Json) : Except String Clause := do
  let ms ← asObj j
  let id ← reqF ms "id" parseU64
  let sentence_id ← optF ms "sentenceId" parseU64 0
  let token_from ← optF ms "tokenFrom" parseU64 0
  let token_to ← optF ms "tokenTo" parseU64 0
  let tokens ← optF ms "tokens" (parseArr parseU64) []
  let main ← optF ms "main" parseBool false
  let gov ← optF ms "gov" parseU64 0
  let head ← optF ms "head" parseU64 0
  let neg ← optF ms "neg" parseBool false
  let tense ← optF ms "tense" parseStr ""
  let mood ← optF ms "mood" parseStr ""
  let perfect ← optF ms "perfect" parseBool false
  let continuous ← optF ms "continuous" parseBool false
  let aspect ← optF ms "aspect" parseStr ""
  let voice ← optF ms "voice" parseStr ""
  let sentiment ← optF ms "sentiment" parseStr ""
  let sentiment_prob ← optF ms "sentimentProb" parseF64 f64zero
  .ok ⟨id, sentence_id, token_from, token_to, tokens, main, gov, head, neg,
    tense, mood, perfect, continuous, aspect, voice, sentiment,
    sentiment_prob⟩

/-- Derived `Serialize` for `Clause`. -/
def Clause.jsonMembers (c : Clause) : List (String × Json) :=
  ("id", jnat c.id) ::
  ("sentenceId", jnat c.sentence_id) ::
  ("tokenFrom", jnat c.token_from) ::
  ("tokenTo", jnat c.token_to) ::
  ("tokens", jnats c.tokens) ::
  ("main", .bool c.main) ::
  ("gov", jnat c.gov) ::
  ("head", jnat c.head) ::
  ("neg", .bool c.neg) ::
  strOpt "tense" c.tense ++
  strOpt "mood" c.mood ++
  ("perfect", .bool c.perfect) ::
  ("continuous", .bool c.continuous) ::
  strOpt "aspect" c.aspect ++
  strOpt "voice" c.voice ++
  strOpt "sentiment" c.sentiment ++
  [("sentimentProb", .num c.sentiment_prob)]

/-- Rendered `Clause`. -/
def Clause.toJson (c : Clause) : Json := .obj c.jsonMembers

/-- Dependency struct of `src/lib.rs`: `lab`, `gov`, `dep` required (and
`lab` has no skip-if-empty); `prob` defaulted. -/
structure Dependency where
  lab : String
  gov : Nat
  dep : Nat
  prob : JNum
deriving DecidableEq, Repr

/-- Derived `Deserialize` for `Dependency`. -/
def Dependency.fromJson (j : Json) : Except String Dependency := do
  let ms ← asObj j
  let lab ← reqF ms "lab" parseStr
  let gov ← reqF ms "gov" parseU64
  let dep ← reqF ms "dep" parseU64
  let prob ← optF ms "prob" parseF64 f64zero
  .ok ⟨lab, gov, dep, prob⟩

/-- Derived `Serialize` for `Dependency`. -/
def Dependency.jsonMembers (d : Dependency) : List (String × Json) :=
  [("lab", .str d.lab), ("gov", jnat d.gov), ("dep", jnat d.dep),
   ("prob", .num d.prob)]

/-- Rendered `Dependency`. -/
def Dependency.toJson (d : Dependency) : Json := .obj d.jsonMembers

/-- DependencyTree struct of `src/lib.rs`: all fields defaulted; `style`
skip-if-empty. -/
structure DependencyTree where
  sentence_id : Nat
  style : String
  dependencies : List Dependency
  prob : JNum
deriving DecidableEq, Repr

/-- Derived `Deserialize` for `DependencyTree`. -/
def DependencyTree.fromJson (j : Json) : Except String DependencyTree := do
  let ms ← asObj j
  let sentence_id ← optF ms "sentenceId" parseU64 0
  let style ← optF ms "style" parseStr ""
  let dependencies ← optF ms "dependencies" (parseArr Dependency.fromJson) []
  let prob ← optF ms "prob" parseF64 f64zero
  .ok ⟨sentence_id, style, dependencies, prob⟩

/-- Derived `Serialize` for `DependencyTree`. -/
def DependencyTree.jsonMembers (d : DependencyTree) : List (String × Json) :=
  ("sentenceId", jnat d.sentence_id) ::
  strOpt "style" d.style ++
  ("dependencies", .arr (d.dependencies.map Dependency.toJson)) ::
  [("prob", .num d.prob)]

/-- Rendered `DependencyTree`. -/
def DependencyTree.toJson (d : DependencyTree) : Json := .obj d.jsonMembers

/-- CoreferenceRepresentantive struct of `src/lib.rs`: both fields
required. -/
structure CoreferenceRepresentantive where
  tokens : List Nat
  head : Nat
deriving DecidableEq, Repr

/-- Derived `Deserialize` for `CoreferenceRepresentantive`. -/
def CoreferenceRepresentantive.fromJson (j : Json) :
    Except String CoreferenceRepresentantive := do
  let ms ← asObj j
  let tokens ← reqF ms "tokens" (parseArr parseU64)
  let head ← reqF ms "head" parseU64
  .ok ⟨tokens, head⟩

/-- Derived `Serialize` for `CoreferenceRepresentantive`. -/
def CoreferenceRepresentantive.jsonMembers (c : CoreferenceRepresentantive) :
    List (String × Json) :=
  [("tokens", jnats c.tokens), ("head", jnat c.head)]

/-- Rendered `CoreferenceRepresentantive`. -/
def CoreferenceRepresentantive.toJson (c : CoreferenceRepresentantive) :
    Json := .obj c.jsonMembers

/-- CoreferenceReferents struct of `src/lib.rs`: `tokens` and `head`
required, `prob` defaulted. -/
structure CoreferenceReferents where
  tokens : List Nat
  head : Nat
  prob : JNum
deriving DecidableEq, Repr

/-- Derived `Deserialize` for `CoreferenceReferents`. -/
def CoreferenceReferents.fromJson (j : Json) :
    Except String CoreferenceReferents := do
  let ms ← asObj j
  let tokens ← reqF ms "tokens" (parseArr parseU64)
  let head ← reqF ms "head" parseU64
  let prob ← optF ms "prob" parseF64 f64zero
  .ok ⟨tokens, head, prob⟩

/-- Derived `Serialize` for `CoreferenceReferents`. -/
def CoreferenceReferents.jsonMembers (c : CoreferenceReferents) :
    List (String × Json) :=
  [("tokens", jnats c.tokens), ("head", jnat c.head), ("prob", .num c.prob)]

/-- Rendered `CoreferenceReferents`. -/
def CoreferenceReferents.toJson (c : CoreferenceReferents) : Json :=
  .obj c.jsonMembers

/-- Coreference struct of `src/lib.rs`: all three fields required. -/
structure Coreference where
  id : Nat
  representative : CoreferenceRepresentantive
  referents : List CoreferenceReferents
deriving DecidableEq, Repr

/-- Derived `Deserialize` for `Coreference`. -/
def Coreference.fromJson (j : Json) : Except String Coreference := do
  let ms ← asObj j
  let id ← reqF ms "id" parseU64
  let representative ← reqF ms "representative"
    CoreferenceRepresentantive.fromJson
  let referents ← reqF ms "referents" (parseArr CoreferenceReferents.fromJson)
  .ok ⟨id, representative, referents⟩

/-- Derived `Serialize` for `Coreference`. -/
def Coreference.jsonMembers (c : Coreference) : List (String × Json) :=
  [("id", jnat c.id), ("representative", c.representative.toJson),
   ("referents", .arr (c.referents.map CoreferenceReferents.toJson))]

/-- Rendered `Coreference`. -/
def Coreference.toJson (c : Coreference) : Json := .obj c.jsonMembers

/-- Scope struct of `src/lib.rs`: all four fields required. -/
structure Scope where
  id : Nat
  gov : List Nat
  dep : List Nat
  terminals : List Nat
deriving DecidableEq, Repr

/-- Derived `Deserialize` for `Scope`. -/
def Scope.fromJson (j : Json) : Except String Scope := do
  let ms ← asObj j
  let id ← reqF ms "id" parseU64
  let gov ← reqF ms "gov" (parseArr parseU64)
  let dep ← reqF ms "dep" (parseArr parseU64)
  let terminals ← reqF ms "terminals" (parseArr parseU64)
  .ok ⟨id, gov, dep, terminals⟩

/-- Derived `Serialize` for `Scope`. -/
def Scope.jsonMembers (s : Scope) : List (String × Json) :=
  [("id", jnat s.id), ("gov", jnats s.gov), ("dep", jnats s.dep),
   ("terminals", jnats s.terminals)]

/-- Rendered `Scope`. -/
def Scope.toJson (s : Scope) : Json := .obj s.jsonMembers

/-- ConstituentParse struct of `src/lib.rs`: `sentence_id` required
(rename only, no default); the rest defaulted; `ctype` (wire `type`) and
`labeled_bracketing` skip-if-empty. -/
structure ConstituentParse where
  sentence_id : Nat
  ctype : String
  labeled_bracketing : String
  prob : JNum
  scopes : List Scope
deriving DecidableEq, Repr

/-- Derived `Deserialize` for `ConstituentParse`. -/
def ConstituentParse.fromJson (j : Json) : Except String ConstituentParse := do
  let ms ← asObj j
  let sentence_id ← reqF ms "sentenceId" parseU64
  let ctype ← optF ms "type" parseStr ""
  let labeled_bracketing ← optF ms "labeledBracketing" parseStr ""
  let prob ← optF ms "prob" parseF64 f64zero
  let scopes ← optF ms "scopes" (parseArr Scope.fromJson) []
  .ok ⟨sentence_id, ctype, labeled_bracketing, prob, scopes⟩

/-- Derived `Serialize` for `ConstituentParse`. -/
def ConstituentParse.jsonMembers (c : ConstituentParse) :
    List (String × Json) :=
  ("sentenceId", jnat c.sentence_id) ::
  strOpt "type" c.ctype ++
  strOpt "labeledBracketing" c.labeled_bracketing ++
  ("prob", .num c.prob) ::
  [("scopes", .arr (c.scopes.map Scope.toJson))]

/-- Rendered `ConstituentParse`. -/
def ConstituentParse.toJson (c : ConstituentParse) : Json := .obj c.jsonMembers

/-- Expression struct of `src/lib.rs`: `id` required, the rest defaulted;
`etype` (wire `type`) and `dependency` skip-if-empty. -/
structure Expression where
  id : Nat
  etype : String
  head : Nat
  dependency : String
  token_from : Nat
  token_to : Nat
  tokens : List Nat
  prob : JNum
deriving DecidableEq, Repr

/-- Derived `Deserialize` for `Expression`. -/
def Expression.fromJson (j : Json) : Except String Expression := do
  let ms ← asObj j
  let id ← reqF ms "id" parseU64
  let etype ← optF ms "type" parseStr ""
  let head ← optF ms "head" parseU64 0
  let dependency ← optF ms "dependency" parseStr ""
  let token_from ← optF ms "tokenFrom" parseU64 0
  let token_to ← optF ms "tokenTo" parseU64 0
  let tokens ← optF ms "tokens" (parseArr parseU64) []
  let prob ← optF ms "prob" parseF64 f64zero
  .ok ⟨id, etype, head, dependency, token_from, token_to, tokens, prob⟩

/-- Derived `Serialize` for `Expression`. -/
def Expression.jsonMembers (e : Expression) : List (String × Json) :=
  ("id", jnat e.id) ::
  strOpt "type" e.etype ++
  ("head", jnat e.head) ::
  strOpt "dependency" e.dependency ++
  ("tokenFrom", jnat e.token_from) ::
  ("tokenTo", jnat e.token_to) ::
  ("tokens", jnats e.tokens) ::
  [("prob", .num e.prob)]

/-- Rendered `Expression`. -/
def Expression.toJson (e : Expression) : Json := .obj e.jsonMembers

/-- Paragraph struct of `src/lib.rs`: `id` required, the rest defaulted. -/
structure Paragraph where
  id : Nat
  token_from : Nat
  token_to : Nat
  tokens : List Nat
  sentences : List Nat
deriving DecidableEq, Repr

/-- Derived `Deserialize` for `Paragraph`. -/
def Paragraph.fromJson (j : Json) : Except String Paragraph := do
  let ms ← asObj j
  let id ← reqF ms "id" parseU64
  let token_from ← optF ms "tokenFrom" parseU64 0
  let token_to ← optF ms "tokenTo" parseU64 0
  let tokens ← optF ms "tokens" (parseArr parseU64) []
  let sentences ← optF ms "sentences" (parseArr parseU64) []
  .ok ⟨id, token_from, token_to, tokens, sentences⟩

/-- Derived `Serialize` for `Paragraph`. -/
def Paragraph.jsonMembers (p : Paragraph) : List (String × Json) :=
  [("id", jnat p.id), ("tokenFrom", jnat p.token_from),
   ("tokenTo", jnat p.token_to), ("tokens", jnats p.tokens),
   ("sentences", jnats p.sentences)]

/-- Rendered `Paragraph`. -/
def Paragraph.toJson (p : Paragraph) : Json := .obj p.jsonMembers

/-- Attribute struct of `src/lib.rs`: `lab` and `val` are required and
carry no serde attributes at all — in particular no skip-if-empty. -/
structure Attribute where
  lab : String
  val : String
deriving DecidableEq, Repr

/-- Derived `Deserialize` for `Attribute`. -/
def Attribute.fromJson (j : Json) : Except String Attribute := do
  let ms ← asObj j
  let lab ← reqF ms "lab" parseStr
  let val ← reqF ms "val" parseStr
  .ok ⟨lab, val⟩

/-- Derived `Serialize` for `Attribute`: both members always emitted. -/
def Attribute.jsonMembers (a : Attribute) : List (String × Json) :=
  [("lab", .str a.lab), ("val", .str a.val)]

/-- Rendered `Attribute`. -/
def Attribute.toJson (a : Attribute) : Json := .obj a.jsonMembers

/-- Entity struct of `src/lib.rs`: `id` required, the rest defaulted;
`label`, `etype` (wire `type`), `url`, `sentiment` skip-if-empty. -/
structure Entity where
  id : Nat
  label : String
  etype : String
  url : String
  head : Nat
  token_from : Nat
  token_to : Nat
  tokens : List Nat
  triple_id : Nat
  sentiment : String
  sentiment_prob : JNum
  count : Nat
  attributes : List Attribute
deriving DecidableEq, Repr

/-- Derived `Deserialize` for `Entity`. -/
def Entity.fromJson (j : Json) : Except String Entity := do
  let ms ← asObj j
  let id ← reqF ms "id" parseU64
  let label ← optF ms "label" parseStr ""
  let etype ← optF ms "type" parseStr ""
  let url ← optF ms "url" parseStr ""
  let head ← optF ms "head" parseU64 0
  let token_from ← optF ms "tokenFrom" parseU64 0
  let token_to ← optF ms "tokenTo" parseU64 0
  let tokens ← optF ms "tokens" (parseArr parseU64) []
  let triple_id ← optF ms "tripleID" parseU64 0
  let sentiment ← optF ms "sentiment" parseStr ""
  let sentiment_prob ← optF ms "sentimentProb" parseF64 f64zero
  let count ← optF ms "count" parseU64 0
  let attributes ← optF ms "attributes" (parseArr Attribute.fromJson) []
  .ok ⟨id, label, etype, url, head, token_from, token_to, tokens, triple_id,
    sentiment, sentiment_prob, count, attributes⟩

/-- Derived `Serialize` for `Entity`. -/
def Entity.jsonMembers (e : Entity) : List (String × Json) :=
  ("id", jnat e.id) ::
  strOpt "label" e.label ++
  strOpt "type" e.etype ++
  strOpt "url" e.url ++
  ("head", jnat e.head) ::
  ("tokenFrom", jnat e.token_from) ::
  ("tokenTo", jnat e.token_to) ::
  ("tokens", jnats e.tokens) ::
  ("tripleID", jnat e.triple_id) ::
  strOpt "sentiment" e.sentiment ++
  ("sentimentProb", .num e.sentiment_prob) ::
  ("count", jnat e.count) ::
  [("attributes", .arr (e.attributes.map Attribute.toJson))]

/-- Rendered `Entity`. -/
def Entity.toJson (e : Entity) : Json := .obj e.jsonMembers

/-- Relation struct of `src/lib.rs`: `id` required, the rest defaulted;
`label`, `rtype` (wire `type`), `url`, `sentiment` skip-if-empty. -/
structure Relation where
  id : Nat
  label : String
  rtype : String
  url : String
  head : Nat
  token_from : Nat
  token_to : Nat
  tokens : List Nat
  sentiment : String
  sentiment_prob : JNum
  count : Nat
  attributes : List Attribute
deriving DecidableEq, Repr

/-- Derived `Deserialize` for `Relation`. -/
def Relation.fromJson (j : Json) : Except String Relation := do
  let ms ← asObj j
  let id ← reqF ms "id" parseU64
  let label ← optF ms "label" parseStr ""
  let rtype ← optF ms "type" parseStr ""
  let url ← optF ms "url" parseStr ""
  let head ← optF ms "head" parseU64 0
  let token_from ← optF ms "tokenFrom" parseU64 0
  let token_to ← optF ms "tokenTo" parseU64 0
  let tokens ← optF ms "tokens" (parseArr parseU64) []
  let sentiment ← optF ms "sentiment" parseStr ""
  let sentiment_prob ← optF ms "sentimentProb" parseF64 f64zero
  let count ← optF ms "count" parseU64 0
  let attributes ← optF ms "attributes" (parseArr Attribute.fromJson) []
  .ok ⟨id, label, rtype, url, head, token_from, token_to, tokens, sentiment,
    sentiment_prob, count, attributes⟩

/-- Derived `Serialize` for `Relation`. -/
def Relation.jsonMembers (r : Relation) : List (String × Json) :=
  ("id", jnat r.id) ::
  strOpt "label" r.label ++
  strOpt "type" r.rtype ++
  strOpt "url" r.url ++
  ("head", jnat r.head) ::
  ("tokenFrom", jnat r.token_from) ::
  ("tokenTo", jnat r.token_to) ::
  ("tokens", jnats r.tokens) ::
  strOpt "sentiment" r.sentiment ++
  ("sentimentProb", .num r.sentiment_prob) ::
  ("count", jnat r.count) ::
  [("attributes", .arr (r.attributes.map Attribute.toJson))]

/-- Rendered `Relation`. -/
def Relation.toJson (r : Relation) : Json := .obj r.jsonMembers

/-- Triple struct of `src/lib.rs`: `id` required, the rest defaulted;
`clause_id` and `sentence_id` are `Vec<u64>` with wire names `clauseID`
and `sentenceID`.  No string fields, so nothing is ever skipped. -/
structure Triple where
  id : Nat
  from_entity : Nat
  to_entity : Nat
  rel : Nat
  clause_id : List Nat
  sentence_id : List Nat
  directional : Bool
  event_id : Nat
  temp_seq : Nat
  prob : JNum
  syntactic : Bool
  implied : Bool
  presupposed : Bool
  count : Nat
deriving DecidableEq, Repr

/-- Derived `Deserialize` for `Triple`. -/
def Triple.fromJson (j : Json) : Except String Triple := do
  let ms ← asObj j
  let id ← reqF ms "id" parseU64
  let from_entity ← optF ms "fromEntity" parseU64 0
  let to_entity ← optF ms "toEntity" parseU64 0
  let rel ← optF ms "rel" parseU64 0
  let clause_id ← optF ms "clauseID" (parseArr parseU64) []
  let sentence_id ← optF ms "sentenceID" (parseArr parseU64) []
  let directional ← optF ms "directional" parseBool false
  let event_id ← optF ms "eventID" parseU64 0
  let temp_seq ← optF ms "tempSeq" parseU64 0
  let prob ← optF ms "prob" parseF64 f64zero
  let syntactic ← optF ms "syntactic" parseBool false
  let implied ← optF ms "implied" parseBool false
  let presupposed ← optF ms "presupposed" parseBool false
  let count ← optF ms "count" parseU64 0
  .ok ⟨id, from_entity, to_entity, rel, clause_id, sentence_id, directional,
    event_id, temp_seq, prob, syntactic, implied, presupposed, count⟩

/-- Derived `Serialize` for `Triple`: every member always emitted. -/
def Triple.jsonMembers (t : Triple) : List (String × Json) :=
  [("id", jnat t.id), ("fromEntity", jnat t.from_entity),
   ("toEntity", jnat t.to_entity), ("rel", jnat t.rel),
   ("clauseID", jnats t.clause_id), ("sentenceID", jnats t.sentence_id),
   ("directional", .bool t.directional), ("eventID", jnat t.event_id),
   ("tempSeq", jnat t.temp_seq), ("prob", .num t.prob),
   ("syntactic", .bool t.syntactic), ("implied", .bool t.implied),
   ("presupposed", .bool t.presupposed), ("count", jnat t.count)]

/-- Rendered `Triple`. -/
def Triple.toJson (t : Triple) : Json := .obj t.jsonMembers

/-- Document struct of `src/lib.rs`: `meta` and `id` required, the eleven
collections defaulted. -/
structure Document where
  meta : Meta
  id : Nat
  token_list : List Token
  clauses : List Clause
  sentences : List Sentence
  paragraphs : List Paragraph
  dependency_trees : List DependencyTree
  coreferences : List Coreference
  constituents : List ConstituentParse
  expressions : List Expression
  entities : List Entity
  relations : List Relation
  triples : List Triple
deriving DecidableEq, Repr

/-- Derived `Deserialize` for `Document`. -/
def Document.fromJson (j : Json) : Except String Document := do
  let ms ← asObj j
  let meta ← reqF ms "meta" Meta.fromJson
  let id ← reqF ms "id" parseU64
  let token_list ← optF ms "tokenList" (parseArr Token.fromJson) []
  let clauses ← optF ms "clauses" (parseArr Clause.fromJson) []
  let sentences ← optF ms "sentences" (parseArr Sentence.fromJson) []
  let paragraphs ← optF ms "paragraphs" (parseArr Paragraph.fromJson) []
  let dependency_trees ← optF ms "dependencyTrees"
    (parseArr DependencyTree.fromJson) []
  let coreferences ← optF ms "coreferences" (parseArr Coreference.fromJson) []
  let constituents ← optF ms "constituents"
    (parseArr ConstituentParse.fromJson) []
  let expressions ← optF ms "expressions" (parseArr Expression.fromJson) []
  let entities ← optF ms "entities" (parseArr Entity.fromJson) []
  let relations ← optF ms "relations" (parseArr Relation.fromJson) []
  let triples ← optF ms "triples" (parseArr Triple.fromJson) []
  .ok ⟨meta, id, token_list, clauses, sentences, paragraphs,
    dependency_trees, coreferences, constituents, expressions, entities,
    relations, triples⟩

/-- Derived `Serialize` for `Document`. -/
def Document.jsonMembers (d : Document) : List (String × Json) :=
  [("meta", d.meta.toJson), ("id", jnat d.id),
   ("tokenList", .arr (d.token_list.map Token.toJson)),
   ("clauses", .arr (d.clauses.map Clause.toJson)),
   ("sentences", .arr (d.sentences.map Sentence.toJson)),
   ("paragraphs", .arr (d.paragraphs.map Paragraph.toJson)),
   ("dependencyTrees", .arr (d.dependency_trees.map DependencyTree.toJson)),
   ("coreferences", .arr (d.coreferences.map Coreference.toJson)),
   ("constituents", .arr (d.constituents.map ConstituentParse.toJson)),
   ("expressions", .arr (d.expressions.map Expression.toJson)),
   ("entities", .arr (d.entities.map Entity.toJson)),
   ("relations", .arr (d.relations.map Relation.toJson)),
   ("triples", .arr (d.triples.map Triple.toJson))]

/-- Rendered `Document`. -/
def Document.toJson (d : Document) : Json := .obj d.jsonMembers

/-- Top-level JSONNLP struct of `src/lib.rs`: `meta` required, `docs`
defaulted. -/
structure JSONNLP where
  meta : Meta
  docs : List Document
deriving DecidableEq, Repr

/-- Derived `Deserialize` for `JSONNLP`. -/
def JSONNLP.fromJson (j : Json) : Except String JSONNLP := do
  let ms ← asObj j
  let meta ← reqF ms "meta" Meta.fromJson
  let docs ← optF ms "docs" (parseArr Document.fromJson) []
  .ok ⟨meta, docs⟩

/-- Derived `Serialize` for `JSONNLP`. -/
def JSONNLP.jsonMembers (j : JSONNLP) : List (String × Json) :=
  [("meta", j.meta.toJson), ("docs", .arr (j.docs.map Document.toJson))]

/-- Rendered `JSONNLP`. -/
def JSONNLP.toJson (j : JSONNLP) : Json := .obj j.jsonMembers

/-- The opening-brace character of JSON object syntax. -/
def lbrace : Char := Char.ofNat 123

/-- The closing-brace character of JSON object syntax. -/
def rbrace : Char := Char.ofNat 125

/-- Skip JSON whitespace. -/
def skipWs : List Char → List Char
  | c :: cs =>
    if c = ' ' ∨ c = '\n' ∨ c = '\t' ∨ c = '\r' then skipWs cs else c :: cs
  | [] => []

/-- Split off a maximal run of decimal digits. -/
def takeDigits : List Char → List Char × List Char
  | [] => ([], [])
  | c :: cs =>
    if c.isDigit then
      let (d, r) := takeDigits cs
      (c :: d, r)
    else ([], c :: cs)

/-- Numeric value of a digit run. -/
def digitsVal (ds : List Char) : Nat :=
  ds.foldl (fun a c => a * 10 + (c.toNat - 48)) 0

/-- Attach an optional exponent to a scanned JSON number whose mantissa is
`m` with `fracLen` fractional digits.  A fractional or exponent literal is
kept as a `JNum.dec` (an `f64` in `serde_json`), a bare integer literal as
`JNum.int`. -/
def finishNum (m : Int) (fracLen : Nat) (isFloat : Bool) (cs : List Char) :
    Except String (JNum × List Char) :=
  match cs with
  | 'e' :: r => finishExp m fracLen r
  | 'E' :: r => finishExp m fracLen r
  | _ =>
    if isFloat then .ok (.dec m fracLen, cs) else .ok (.int m, cs)
where
  finishExp (m : Int) (fracLen : Nat) (cs : List Char) :
      Except String (JNum × List Char) :=
    let (eneg, cs1) :=
      match cs with
      | '-' :: r => (true, r)
      | '+' :: r => (false, r)
      | _ => (false, cs)
    let (eds, cs2) := takeDigits cs1
    if eds = [] then .error "invalid exponent"
    else
      let k := digitsVal eds
      if eneg then .ok (.dec m (fracLen + k), cs2)
      else if fracLen ≤ k then
        .ok (.dec (m * (10 : Int) ^ (k - fracLen + 1)) 1, cs2)
      else .ok (.dec m (fracLen - k), cs2)

/-- Scan a JSON number (strict grammar: optional minus, no leading zeros,
non-empty fraction and exponent parts). -/
def scanNum (cs : List Char) : Except String (JNum × List Char) :=
  let (neg, cs1) := match cs with | '-' :: r => (true, r) | _ => (false, cs)
  let (ids, cs2) := takeDigits cs1
  match ids with
  | [] => .error "invalid number"
  | d :: ds =>
    if d = '0' ∧ ds ≠ [] then .error "number with leading zero"
    else
      let sgn : Int → Int := fun n => if neg then -n else n
      match cs2 with
      | '.' :: r =>
        let (fds, cs3) := takeDigits r
        if fds = [] then .error "missing fraction digits"
        else
          finishNum (sgn (digitsVal ids * 10 ^ fds.length + digitsVal fds))
            fds.length true cs3
      | _ => finishNum (sgn (digitsVal ids)) 0 false cs2

/-- Hexadecimal digit value. -/
def hexVal (c : Char) : Option Nat :=
  if c.isDigit then some (c.toNat - 48)
  else if 'a' ≤ c ∧ c ≤ 'f' then some (c.toNat - 87)
  else if 'A' ≤ c ∧ c ≤ 'F' then some (c.toNat - 55)
  else none

/-- Prepend a decoded character to a string-scan result. -/
def pushC (c : Char) :
    Except String (List Char × List Char) →
      Except String (List Char × List Char)
  | .ok (s, r) => .ok (c :: s, r)
  | .error e => .error e

/-- Scan the body of a JSON string literal (after the opening quote),
returning the decoded characters and the rest of the input. -/
def scanStrBody : List Char → Except String (List Char × List Char)
  | [] => .error "unterminated string"
  | '"' :: r => .ok ([], r)
  | '\\' :: '"' :: r => pushC '"' (scanStrBody r)
  | '\\' :: '\\' :: r => pushC '\\' (scanStrBody r)
  | '\\' :: '/' :: r => pushC '/' (scanStrBody r)
  | '\\' :: 'b' :: r => pushC (Char.ofNat 8) (scanStrBody r)
  | '\\' :: 'f' :: r => pushC (Char.ofNat 12) (scanStrBody r)
  | '\\' :: 'n' :: r => pushC '\n' (scanStrBody r)
  | '\\' :: 'r' :: r => pushC '\r' (scanStrBody r)
  | '\\' :: 't' :: r => pushC '\t' (scanStrBody r)
  | '\\' :: 'u' :: h1 :: h2 :: h3 :: h4 :: r =>
    match hexVal h1, hexVal h2, hexVal h3, hexVal h4 with
    | some a, some b, some c, some d =>
      pushC (Char.ofNat (((a * 16 + b) * 16 + c) * 16 + d)) (scanStrBody r)
    | _, _, _, _ => .error "invalid unicode escape"
  | '\\' :: _ => .error "invalid escape"
  | c :: r =>
    if c.toNat < 32 then .error "control character in string"
    else pushC c (scanStrBody r)

mutual

/-- Scan one JSON value (fuel-indexed recursive descent standing in for
`serde_json`'s reader). -/
def scanVal : Nat → List Char → Except String (Json × List Char)
  | 0, _ => .error "input too deeply nested"
  | fuel + 1, cs =>
    match skipWs cs with
    | [] => .error "unexpected end of input"
    | 'n' :: 'u' :: 'l' :: 'l' :: r => .ok (.null, r)
    | 't' :: 'r' :: 'u' :: 'e' :: r => .ok (.bool true, r)
    | 'f' :: 'a' :: 'l' :: 's' :: 'e' :: r => .ok (.bool false, r)
    | '"' :: r => do
      let (s, r') ← scanStrBody r
      .ok (.str (String.mk s), r')
    | '[' :: r =>
      match skipWs r with
      | ']' :: r' => .ok (.arr [], r')
      | r' => do
        let (es, r'') ← scanElems fuel r'
        .ok (.arr es, r'')
    | c :: r =>
      if c = lbrace then
        match skipWs r with
        | c' :: r' =>
          if c' = rbrace then .ok (.obj [], r')
          else do
            let (ms, r'') ← scanMembs fuel (c' :: r')
            .ok (.obj ms, r'')
        | [] => .error "unterminated object"
      else if c = '-' ∨ c.isDigit then do
        let (v, r') ← scanNum (c :: r)
        .ok (.num v, r')
      else .error "unexpected character"

/-- Scan the elements of a non-empty JSON array. -/
def scanElems : Nat → List Char → Except String (List Json × List Char)
  | 0, _ => .error "input too deeply nested"
  | fuel + 1, cs => do
    let (v, r) ← scanVal fuel cs
    match skipWs r with
    | ',' :: r' => do
      let (es, r'') ← scanElems fuel r'
      .ok (v :: es, r'')
    | ']' :: r' => .ok ([v], r')
    | _ => .error "expected comma or end of array"

/-- Scan the members of a non-empty JSON object. -/
def scanMembs : Nat → List Char →
    Except String (List (String × Json) × List Char)
  | 0, _ => .error "input too deeply nested"
  | fuel + 1, cs =>
    match skipWs cs with
    | '"' :: r => do
      let (k, r1) ← scanStrBody r
      match skipWs r1 with
      | ':' :: r2 => do
        let (v, r3) ← scanVal fuel r2
        match skipWs r3 with
        | ',' :: r4 => do
          let (ms, r5) ← scanMembs fuel r4
          .ok ((String.mk k, v) :: ms, r5)
        | c :: r4 =>
          if c = rbrace then .ok ([(String.mk k, v)], r4)
          else .error "expected comma or end of object"
        | [] => .error "unterminated object"
      | _ => .error "expected colon"
    | _ => .error "expected string key"

end

/-- Parse a complete JSON text: one value, nothing but whitespace after. -/
def parseJsonText (s : String) : Except String Json := do
  let (v, r) ← scanVal (s.length + 2) s.data
  match skipWs r with
  | [] => .ok v
  | _ => .error "trailing characters"

/-- Hexadecimal digit character. -/
def hexDigit (n : Nat) : Char :=
  if n < 10 then Char.ofNat (48 + n) else Char.ofNat (87 + n)

/-- Escape one character of a JSON string literal. -/
def escChar (c : Char) : List Char :=
  if c = '"' then ['\\', '"']
  else if c = '\\' then ['\\', '\\']
  else if c.toNat < 32 then
    ['\\', 'u', '0', '0', hexDigit (c.toNat / 16), hexDigit (c.toNat % 16)]
  else [c]

/-- Print a JSON string literal. -/
def printStrLit (s : String) : String :=
  "\"" ++ String.mk (s.data.foldr (fun c acc => escChar c ++ acc) []) ++ "\""

/-- Print a JSON numeral.  A `dec m e` prints as a decimal with exactly
`e` fractional digits. -/
def printJNum : JNum → String
  | .int n => toString n
  | .dec m e =>
    let a := (toString m.natAbs).data
    let a := if a.length < e + 1 then List.replicate (e + 1 - a.length) '0' ++ a else a
    let i := a.length - e
    (if m < 0 then "-" else "") ++ String.mk (a.take i) ++ "." ++ String.mk (a.drop i)

mutual

/-- Print a JSON value compactly (`serde_json::to_string` layout). -/
def printJson : Json → String
  | .null => "null"
  | .bool true => "true"
  | .bool false => "false"
  | .num v => printJNum v
  | .str s => printStrLit s
  | .arr es => "[" ++ printElems es ++ "]"
  | .obj ms => String.mk [lbrace] ++ printMembs ms ++ String.mk [rbrace]

/-- Print array elements, comma-separated. -/
def printElems : List Json → String
  | [] => ""
  | [e] => printJson e
  | e :: es => printJson e ++ "," ++ printElems es

/-- Print object members, comma-separated. -/
def printMembs : List (String × Json) → String
  | [] => ""
  | [(k, v)] => printStrLit k ++ ":" ++ printJson v
  | (k, v) :: ms => printStrLit k ++ ":" ++ printJson v ++ "," ++ printMembs ms

end

/-- Model of `serde_json::from_str::<JSONNLP>`: JSON text to model. -/
def serde_from_str (s : String) : Except String JSONNLP := do
  let v ← parseJsonText s
  JSONNLP.fromJson v

/-- Model of `serde_json::to_string` on a `JSONNLP` value.  For this type
the derived `Serialize` only ever emits struct fields of primitive,
string, list and nested-struct type, so serialization cannot fail and the
model is a total function. -/
def serde_to_string (j : JSONNLP) : String := printJson j.toJson

/-- Model of `from_string` in `src/lib.rs`.  The source runs
`serde_json::from_str::<JSONNLP>(json).unwrap()` and wraps the result in
`Ok`: when the decode succeeds the caller receives `Ok(model)`, and when
it fails the `.unwrap()` panics instead of returning the error — the
panic outcome is modeled as `none`. -/
def from_string (s : String) : Option (Except String JSONNLP) :=
  match serde_from_str s with
  | .ok j => some (.ok j)
  | .error _ => none

/-- Model of `get_json` in `src/lib.rs`: `serde_json::to_string(j)` (which
cannot fail for this type, so the `.unwrap()` never panics) wrapped in
`Ok`. -/
def get_json (j : JSONNLP) : Except String String := .ok (serde_to_string j)

/-! ### Generic lemmas about the member-access combinators -/

theorem getOpt_of_not_mem (ms : List (String × Json)) (k : String)
    (h : k ∉ ms.map Prod.fst) : getOpt ms k = .ok none := by
  induction ms with
  | nil => rfl
  | cons p ms ih =>
    obtain ⟨k', v⟩ := p
    simp only [List.map_cons, List.mem_cons] at h
    push_neg at h
    have hne : ¬(k' = k) := fun hq => h.1 hq.symm
    simp only [getOpt, if_neg hne]
    exact ih h.2

theorem getOpt_insert_ne (ms₁ ms₂ : List (String × Json)) (k' k : String)
    (v : Json) (h : ¬(k' = k)) :
    getOpt (ms₁ ++ (k', v) :: ms₂) k = getOpt (ms₁ ++ ms₂) k := by
  induction ms₁ with
  | nil => simp only [List.nil_append, getOpt, if_neg h]
  | cons p ms₁ ih =>
    obtain ⟨q, w⟩ := p
    simp only [List.cons_append, getOpt, List.append_eq]
    rw [ih]

theorem reqF_of_not_mem (ms : List (String × Json)) (k : String)
    (p : Json → Except String α) (h : k ∉ ms.map Prod.fst) :
    reqF ms k p = .error ("missing field " ++ k) := by
  simp only [reqF, getOpt_of_not_mem ms k h]

theorem optF_of_not_mem (ms : List (String × Json)) (k : String)
    (p : Json → Except String α) (d : α) (h : k ∉ ms.map Prod.fst) :
    optF ms k p d = .ok d := by
  simp only [optF, getOpt_of_not_mem ms k h]

/-! ### Lemmas about rendered member lists -/

theorem strOpt_of_ne (k : String) {s : String} (h : s ≠ "") :
    strOpt k s = [(k, Json.str s)] := by
  simp [strOpt, h]

@[simp] theorem findVal_nil (k : String) : findVal k [] = none := rfl

@[simp] theorem findVal_cons_self (k : String) (v : Json)
    (ms : List (String × Json)) : findVal k ((k, v) :: ms) = some v := by
  simp [findVal]

@[simp] theorem findVal_cons_ne (k' k : String) (v : Json)
    (ms : List (String × Json)) (h : ¬(k' = k)) :
    findVal k ((k', v) :: ms) = findVal k ms := by
  simp [findVal, h]

@[simp] theorem findVal_strOpt_self (k s : String)
    (ms : List (String × Json)) :
    findVal k (strOpt k s ++ ms) =
      if s = "" then findVal k ms else some (Json.str s) := by
  unfold strOpt
  split <;> simp [findVal]

@[simp] theorem findVal_strOpt_ne (k' k s : String)
    (ms : List (String × Json)) (h : ¬(k' = k)) :
    findVal k (strOpt k' s ++ ms) = findVal k ms := by
  unfold strOpt
  split <;> simp [findVal, h]

@[simp] theorem findVal_strOpt_last_self (k s : String) :
    findVal k (strOpt k s) = strVal s := by
  unfold strOpt strVal
  split <;> simp [findVal]

@[simp] theorem findVal_strOpt_last_ne (k' k s : String) (h : ¬(k' = k)) :
    findVal k (strOpt k' s) = none := by
  unfold strOpt
  split <;> simp [findVal, h]

/-! ### Lemmas about the primitive deserializers -/

theorem parseU64_jnat (n : Nat) (h : n < 2 ^ 64) :
    parseU64 (jnat n) = .ok n := by
  have h0 : (0 : Int) ≤ (n : Int) := Int.ofNat_nonneg n
  have h1 : (n : Int) < 2 ^ 64 := by exact_mod_cast h
  simp [parseU64, jnat, h0, h1]
  exact h

theorem parseU8_jnat (n : Nat) (h : n < 256) :
    parseU8 (jnat n) = .ok n := by
  have h0 : (0 : Int) ≤ (n : Int) := Int.ofNat_nonneg n
  have h1 : (n : Int) < 256 := by exact_mod_cast h
  simp [parseU8, jnat, h0, h1]

theorem parseMany_map (p : Json → Except String α) (f : α → Json)
    (l : List α) (h : ∀ x ∈ l, p (f x) = .ok x) :
    parseMany p (l.map f) = .ok l := by
  induction l with
  | nil => rfl
  | cons x l ih =>
    simp only [List.map_cons, parseMany, h x (List.mem_cons_self x l),
      ih (fun y hy => h y (List.mem_cons_of_mem x hy))]
    rfl

theorem parseArr_jnats (l : List Nat) (h : ∀ n ∈ l, n < 2 ^ 64) :
    parseArr parseU64 (jnats l) = .ok l := by
  unfold jnats parseArr
  exact parseMany_map _ _ _ (fun n hn => parseU64_jnat n (h n hn))

theorem parseMany_mem_err (p : Json → Except String α) (js : List Json)
    (x : Json) (hx : x ∈ js) (he : (p x).isOk = false) :
    (parseMany p js).isOk = false := by
  induction js with
  | nil => cases hx
  | cons y js ih =>
    rcases List.mem_cons.mp hx with rfl | hmem
    · simp only [parseMany]
      cases hp : p x with
      | error e => rfl
      | ok a => rw [hp] at he; simp [Except.isOk, Except.toBool] at he
    · simp only [parseMany]
      cases hp : p y with
      | error e => rfl
      | ok a =>
        simp only [Bind.bind, Except.bind]
        cases hq : parseMany p js with
        | error e => rfl
        | ok as =>
          have hc := ih hmem
          rw [hq] at hc
          simp [Except.isOk, Except.toBool] at hc

/-- Reduction of an `Except` bind whose first component succeeded. -/
theorem ebind_ok (a : α) (f : α → Except String β) :
    (Except.ok a >>= f) = f a := rfl

/-- A required field is unaffected by inserting a member with another key. -/
theorem reqF_insert_ne (ms₁ ms₂ : List (String × Json)) (k' k : String)
    (v : Json) (p : Json → Except String α) (h : ¬(k' = k)) :
    reqF (ms₁ ++ (k', v) :: ms₂) k p = reqF (ms₁ ++ ms₂) k p := by
  simp only [reqF, getOpt_insert_ne _ _ _ _ _ h]

/-- A defaulted field is unaffected by inserting a member with another key. -/
theorem optF_insert_ne (ms₁ ms₂ : List (String × Json)) (k' k : String)
    (v : Json) (p : Json → Except String α) (d : α) (h : ¬(k' = k)) :
    optF (ms₁ ++ (k', v) :: ms₂) k p d = optF (ms₁ ++ ms₂) k p d := by
  simp only [optF, getOpt_insert_ne _ _ _ _ _ h]

/-- If every success of `x` leads to a failing continuation, the bind
fails. -/
theorem bind_isOk_false (x : Except String α) (f : α → Except String β)
    (h : ∀ a, x = .ok a → (f a).isOk = false) : (x >>= f).isOk = false := by
  cases x with
  | error e => rfl
  | ok a => exact h a rfl

/-- A bind whose first component fails, fails. -/
theorem bind_isOk_false_left (x : Except String α) (f : α → Except String β)
    (h : x.isOk = false) : (x >>= f).isOk = false := by
  cases x with
  | error e => rfl
  | ok a => simp [Except.isOk, Except.toBool] at h

/-- Inversion of a successful bind. -/
theorem bind_ok_inv (x : Except String α) (f : α → Except String β) (b : β)
    (h : (x >>= f) = .ok b) : ∃ a, x = .ok a ∧ f a = .ok b := by
  cases x with
  | error e => exact absurd h (by simp [Bind.bind, Except.bind])
  | ok a => exact ⟨a, rfl, h⟩

/-- `u64` deserialization rejects every negative integer. -/
theorem parseU64_neg (n : Int) (hn : n < 0) :
    parseU64 (Json.num (JNum.int n)) = .error "u64 out of range" := by
  simp only [parseU64]
  rw [if_neg]
  intro hc
  omega

/-- `u8` deserialization rejects every negative integer. -/
theorem parseU8_neg (n : Int) (hn : n < 0) :
    parseU8 (Json.num (JNum.int n)) = .error "u8 out of range" := by
  simp only [parseU8]
  rw [if_neg]
  intro hc
  omega

/-- `u8` deserialization rejects every integer above 255. -/
theorem parseU8_over (n : Int) (hn : 255 < n) :
    parseU8 (Json.num (JNum.int n)) = .error "u8 out of range" := by
  simp only [parseU8]
  rw [if_neg]
  intro hc
  omega

/-- A required field whose unique occurrence fails to deserialize fails
the struct. -/
theorem reqF_err_of_getOpt (ms : List (String × Json)) (k : String)
    (p : Json → Except String α) (v : Json)
    (h : getOpt ms k = .ok (some v)) (he : (p v).isOk = false) :
    (reqF ms k p).isOk = false := by
  simp only [reqF, h]
  exact he

/-- A defaulted field whose unique occurrence fails to deserialize fails
the struct. -/
theorem optF_err_of_getOpt (ms : List (String × Json)) (k : String)
    (p : Json → Except String α) (d : α) (v : Json)
    (h : getOpt ms k = .ok (some v)) (he : (p v).isOk = false) :
    (optF ms k p d).isOk = false := by
  simp only [optF, h]
  exact he

/-! ### Round-trip lemmas, one per struct -/

/-- Machine-integer ranges of the `u64`/`u8` fields of `Meta` (automatic for every Rust value of the struct). -/
@[reducible] def Meta.inRange (m : Meta) : Prop :=
  True

/-- All string fields of `Meta` (transitively) are non-empty. -/
@[reducible] def Meta.nonemptyStrings (m : Meta) : Prop :=
  m.conforms_to ≠ "" ∧
  m.author ≠ "" ∧
  m.created ≠ "" ∧
  m.date ≠ "" ∧
  m.source ≠ "" ∧
  m.language ≠ "" ∧
  m.creator ≠ "" ∧
  m.publisher ≠ "" ∧
  m.title ≠ "" ∧
  m.description ≠ "" ∧
  m.identifier ≠ ""

/-- Render-then-parse round trip for `Meta`. -/
theorem Meta_rt (m : Meta) (hr : m.inRange) (hs : m.nonemptyStrings) :
    Meta.fromJson m.toJson = .ok m := by
  obtain ⟨h1, h2, h3, h4, h5, h6, h7, h8, h9, h10, h11⟩ := hs
  have hL : m.jsonMembers =
      [("DC.conformsTo", Json.str m.conforms_to),
       ("DC.author", Json.str m.author),
       ("DC.created", Json.str m.created),
       ("DC.date", Json.str m.date),
       ("DC.source", Json.str m.source),
       ("DC.language", Json.str m.language),
       ("DC.creator", Json.str m.creator),
       ("DC.publisher", Json.str m.publisher),
       ("DC.title", Json.str m.title),
       ("DC.description", Json.str m.description),
       ("DC.identifier", Json.str m.identifier)] := by
    simp [Meta.jsonMembers, strOpt_of_ne _ h1, strOpt_of_ne _ h2, strOpt_of_ne _ h3, strOpt_of_ne _ h4, strOpt_of_ne _ h5, strOpt_of_ne _ h6, strOpt_of_ne _ h7, strOpt_of_ne _ h8, strOpt_of_ne _ h9, strOpt_of_ne _ h10, strOpt_of_ne _ h11]
  have e1 : optF m.jsonMembers "DC.conformsTo" parseStr "" = .ok m.conforms_to := by
    rw [hL]; simp [optF, getOpt, parseStr]
  have e2 : optF m.jsonMembers "DC.author" parseStr "" = .ok m.author := by
    rw [hL]; simp [optF, getOpt, parseStr]
  have e3 : optF m.jsonMembers "DC.created" parseStr "" = .ok m.created := by
    rw [hL]; simp [optF, getOpt, parseStr]
  have e4 : optF m.jsonMembers "DC.date" parseStr "" = .ok m.date := by
    rw [hL]; simp [optF, getOpt, parseStr]
  have e5 : optF m.jsonMembers "DC.source" parseStr "" = .ok m.source := by
    rw [hL]; simp [optF, getOpt, parseStr]
  have e6 : optF m.jsonMembers "DC.language" parseStr "" = .ok m.language := by
    rw [hL]; simp [optF, getOpt, parseStr]
  have e7 : optF m.jsonMembers "DC.creator" parseStr "" = .ok m.creator := by
    rw [hL]; simp [optF, getOpt, parseStr]
  have e8 : optF m.jsonMembers "DC.publisher" parseStr "" = .ok m.publisher := by
    rw [hL]; simp [optF, getOpt, parseStr]
  have e9 : optF m.jsonMembers "DC.title" parseStr "" = .ok m.title := by
    rw [hL]; simp [optF, getOpt, parseStr]
  have e10 : optF m.jsonMembers "DC.description" parseStr "" = .ok m.description := by
    rw [hL]; simp [optF, getOpt, parseStr]
  have e11 : optF m.jsonMembers "DC.identifier" parseStr "" = .ok m.identifier := by
    rw [hL]; simp [optF, getOpt, parseStr]
  rw [Meta.toJson, Meta.fromJson]
  rw [show asObj (Json.obj m.jsonMembers) = .ok m.jsonMembers from rfl]
  rw [ebind_ok]
  rw [e1, ebind_ok]
  rw [e2, ebind_ok]
  rw [e3, ebind_ok]
  rw [e4, ebind_ok]
  rw [e5, ebind_ok]
  rw [e6, ebind_ok]
  rw [e7, ebind_ok]
  rw [e8, ebind_ok]
  rw [e9, ebind_ok]
  rw [e10, ebind_ok]
  rw [e11, ebind_ok]

/-- Machine-integer ranges of the `u64`/`u8` fields of `TokenFeatures` (automatic for every Rust value of the struct). -/
@[reducible] def TokenFeatures.inRange (t : TokenFeatures) : Prop :=
  t.number < 256 ∧
  t.person < 256

/-- All string fields of `TokenFeatures` (transitively) are non-empty. -/
@[reducible] def TokenFeatures.nonemptyStrings (t : TokenFeatures) : Prop :=
  t.gender ≠ "" ∧
  t.tense ≠ "" ∧
  t.«case» ≠ "" ∧
  t.mood ≠ ""

/-- Render-then-parse round trip for `TokenFeatures`. -/
theorem TokenFeatures_rt (t : TokenFeatures) (hr : t.inRange) (hs : t.nonemptyStrings) :
    TokenFeatures.fromJson t.toJson = .ok t := by
  obtain ⟨r1, r2⟩ := hr
  obtain ⟨h1, h2, h3, h4⟩ := hs
  have hL : t.jsonMembers =
      [("overt", Json.bool t.overt),
       ("stop", Json.bool t.stop),
       ("alpha", Json.bool t.alpha),
       ("number", jnat t.number),
       ("gender", Json.str t.gender),
       ("person", jnat t.person),
       ("tense", Json.str t.tense),
       ("perfect", Json.bool t.perfect),
       ("continuous", Json.bool t.continuous),
       ("progressive", Json.bool t.progressive),
       ("case", Json.str t.«case»),
       ("human", Json.bool t.human),
       ("animate", Json.bool t.animate),
       ("negated", Json.bool t.negated),
       ("countable", Json.bool t.countable),
       ("factive", Json.bool t.factive),
       ("counterfactive", Json.bool t.counterfactive),
       ("irregular", Json.bool t.irregular),
       ("phrasalVerb", Json.bool t.phrasalverb),
       ("mood", Json.str t.mood),
       ("foreign", Json.bool t.foreign),
       ("spaceAfter", Json.bool t.spaceafter)] := by
    simp [TokenFeatures.jsonMembers, strOpt_of_ne _ h1, strOpt_of_ne _ h2, strOpt_of_ne _ h3, strOpt_of_ne _ h4]
  have e1 : optF t.jsonMembers "overt" parseBool false = .ok t.overt := by
    rw [hL]; simp [optF, getOpt, parseBool]
  have e2 : optF t.jsonMembers "stop" parseBool false = .ok t.stop := by
    rw [hL]; simp [optF, getOpt, parseBool]
  have e3 : optF t.jsonMembers "alpha" parseBool false = .ok t.alpha := by
    rw [hL]; simp [optF, getOpt, parseBool]
  have e4 : optF t.jsonMembers "number" parseU8 0 = .ok t.number := by
    rw [hL]; simp [optF, getOpt, parseU8_jnat _ r1]
  have e5 : optF t.jsonMembers "gender" parseStr "" = .ok t.gender := by
    rw [hL]; simp [optF, getOpt, parseStr]
  have e6 : optF t.jsonMembers "person" parseU8 0 = .ok t.person := by
    rw [hL]; simp [optF, getOpt, parseU8_jnat _ r2]
  have e7 : optF t.jsonMembers "tense" parseStr "" = .ok t.tense := by
    rw [hL]; simp [optF, getOpt, parseStr]
  have e8 : optF t.jsonMembers "perfect" parseBool false = .ok t.perfect := by
    rw [hL]; simp [optF, getOpt, parseBool]
  have e9 : optF t.jsonMembers "continuous" parseBool false = .ok t.continuous := by
    rw [hL]; simp [optF, getOpt, parseBool]
  have e10 : optF t.jsonMembers "progressive" parseBool false = .ok t.progressive := by
    rw [hL]; simp [optF, getOpt, parseBool]
  have e11 : optF t.jsonMembers "case" parseStr "" = .ok t.«case» := by
    rw [hL]; simp [optF, getOpt, parseStr]
  have e12 : optF t.jsonMembers "human" parseBool false = .ok t.human := by
    rw [hL]; simp [optF, getOpt, parseBool]
  have e13 : optF t.jsonMembers "animate" parseBool false = .ok t.animate := by
    rw [hL]; simp [optF, getOpt, parseBool]
  have e14 : optF t.jsonMembers "negated" parseBool false = .ok t.negated := by
    rw [hL]; simp [optF, getOpt, parseBool]
  have e15 : optF t.jsonMembers "countable" parseBool false = .ok t.countable := by
    rw [hL]; simp [optF, getOpt, parseBool]
  have e16 : optF t.jsonMembers "factive" parseBool false = .ok t.factive := by
    rw [hL]; simp [optF, getOpt, parseBool]
  have e17 : optF t.jsonMembers "counterfactive" parseBool false = .ok t.counterfactive := by
    rw [hL]; simp [optF, getOpt, parseBool]
  have e18 : optF t.jsonMembers "irregular" parseBool false = .ok t.irregular := by
    rw [hL]; simp [optF, getOpt, parseBool]
  have e19 : optF t.jsonMembers "phrasalVerb" parseBool false = .ok t.phrasalverb := by
    rw [hL]; simp [optF, getOpt, parseBool]
  have e20 : optF t.jsonMembers "mood" parseStr "" = .ok t.mood := by
    rw [hL]; simp [optF, getOpt, parseStr]
  have e21 : optF t.jsonMembers "foreign" parseBool false = .ok t.foreign := by
    rw [hL]; simp [optF, getOpt, parseBool]
  have e22 : optF t.jsonMembers "spaceAfter" parseBool false = .ok t.spaceafter := by
    rw [hL]; simp [optF, getOpt, parseBool]
  rw [TokenFeatures.toJson, TokenFeatures.fromJson]
  rw [show asObj (Json.obj t.jsonMembers) = .ok t.jsonMembers from rfl]
  rw [ebind_ok]
  rw [e1, ebind_ok]
  rw [e2, ebind_ok]
  rw [e3, ebind_ok]
  rw [e4, ebind_ok]
  rw [e5, ebind_ok]
  rw [e6, ebind_ok]
  rw [e7, ebind_ok]
  rw [e8, ebind_ok]
  rw [e9, ebind_ok]
  rw [e10, ebind_ok]
  rw [e11, ebind_ok]
  rw [e12, ebind_ok]
  rw [e13, ebind_ok]
  rw [e14, ebind_ok]
  rw [e15, ebind_ok]
  rw [e16, ebind_ok]
  rw [e17, ebind_ok]
  rw [e18, ebind_ok]
  rw [e19, ebind_ok]
  rw [e20, ebind_ok]
  rw [e21, ebind_ok]
  rw [e22, ebind_ok]

/-- Machine-integer ranges of the `u64`/`u8` fields of `Token` (automatic for every Rust value of the struct). -/
@[reducible] def Token.inRange (t : Token) : Prop :=
  t.id < 2 ^ 64 ∧
  t.sentence_id < 2 ^ 64 ∧
  t.char_offset_begin < 2 ^ 64 ∧
  t.char_offset_end < 2 ^ 64 ∧
  t.frame_id < 2 ^ 64 ∧
  t.wordnet_id < 2 ^ 64 ∧
  t.verbnet_id < 2 ^ 64 ∧
  t.features.inRange

/-- All string fields of `Token` (transitively) are non-empty. -/
@[reducible] def Token.nonemptyStrings (t : Token) : Prop :=
  t.text ≠ "" ∧
  t.«lemma» ≠ "" ∧
  t.xpos ≠ "" ∧
  t.upos ≠ "" ∧
  t.entity_iob ≠ "" ∧
  t.prop_id ≠ "" ∧
  t.lang ≠ "" ∧
  t.features.nonemptyStrings ∧
  t.shape ≠ "" ∧
  t.entity ≠ ""

/-- Render-then-parse round trip for `Token`. -/
theorem Token_rt (t : Token) (hr : t.inRange) (hs : t.nonemptyStrings) :
    Token.fromJson t.toJson = .ok t := by
  obtain ⟨r1, r2, r3, r4, r5, r6, r7, r8⟩ := hr
  obtain ⟨h1, h2, h3, h4, h5, h6, h7, h8, h9, h10⟩ := hs
  have hs_features := TokenFeatures_rt t.features r8 h8
  have hL : t.jsonMembers =
      [("id", jnat t.id),
       ("sentence_id", jnat t.sentence_id),
       ("text", Json.str t.text),
       ("lemma", Json.str t.«lemma»),
       ("xpos", Json.str t.xpos),
       ("xpos_prob", Json.num t.xpos_prob),
       ("upos", Json.str t.upos),
       ("upos_prob", Json.num t.upos_prob),
       ("entity_iob", Json.str t.entity_iob),
       ("characterOffsetBegin", jnat t.char_offset_begin),
       ("characterOffsetEnd", jnat t.char_offset_end),
       ("propID", Json.str t.prop_id),
       ("propIDProbability", Json.num t.prop_id_prob),
       ("frameID", jnat t.frame_id),
       ("frameIDProb", Json.num t.frame_id_prob),
       ("wordNetID", jnat t.wordnet_id),
       ("wordNetIDProb", Json.num t.wordnet_id_prob),
       ("verbNetID", jnat t.verbnet_id),
       ("verbNetIDProb", Json.num t.verbnet_id_prob),
       ("lang", Json.str t.lang),
       ("features", t.features.toJson),
       ("shape", Json.str t.shape),
       ("entity", Json.str t.entity)] := by
    simp [Token.jsonMembers, strOpt_of_ne _ h3, strOpt_of_ne _ h4, strOpt_of_ne _ h5, strOpt_of_ne _ h6, strOpt_of_ne _ h7, strOpt_of_ne _ h9, strOpt_of_ne _ h10]
  have e1 : reqF t.jsonMembers "id" parseU64 = .ok t.id := by
    rw [hL]; simp [reqF, getOpt, parseU64_jnat _ r1]
  have e2 : reqF t.jsonMembers "sentence_id" parseU64 = .ok t.sentence_id := by
    rw [hL]; simp [reqF, getOpt, parseU64_jnat _ r2]
  have e3 : reqF t.jsonMembers "text" parseStr = .ok t.text := by
    rw [hL]; simp [reqF, getOpt, parseStr]
  have e4 : reqF t.jsonMembers "lemma" parseStr = .ok t.«lemma» := by
    rw [hL]; simp [reqF, getOpt, parseStr]
  have e5 : optF t.jsonMembers "xpos" parseStr "" = .ok t.xpos := by
    rw [hL]; simp [optF, getOpt, parseStr]
  have e6 : optF t.jsonMembers "xpos_prob" parseF64 f64zero = .ok t.xpos_prob := by
    rw [hL]; simp [optF, getOpt, parseF64]
  have e7 : optF t.jsonMembers "upos" parseStr "" = .ok t.upos := by
    rw [hL]; simp [optF, getOpt, parseStr]
  have e8 : optF t.jsonMembers "upos_prob" parseF64 f64zero = .ok t.upos_prob := by
    rw [hL]; simp [optF, getOpt, parseF64]
  have e9 : optF t.jsonMembers "entity_iob" parseStr "" = .ok t.entity_iob := by
    rw [hL]; simp [optF, getOpt, parseStr]
  have e10 : optF t.jsonMembers "characterOffsetBegin" parseU64 0 = .ok t.char_offset_begin := by
    rw [hL]; simp [optF, getOpt, parseU64_jnat _ r3]
  have e11 : optF t.jsonMembers "characterOffsetEnd" parseU64 0 = .ok t.char_offset_end := by
    rw [hL]; simp [optF, getOpt, parseU64_jnat _ r4]
  have e12 : optF t.jsonMembers "propID" parseStr "" = .ok t.prop_id := by
    rw [hL]; simp [optF, getOpt, parseStr]
  have e13 : optF t.jsonMembers "propIDProbability" parseF64 f64zero = .ok t.prop_id_prob := by
    rw [hL]; simp [optF, getOpt, parseF64]
  have e14 : optF t.jsonMembers "frameID" parseU64 0 = .ok t.frame_id := by
    rw [hL]; simp [optF, getOpt, parseU64_jnat _ r5]
  have e15 : optF t.jsonMembers "frameIDProb" parseF64 f64zero = .ok t.frame_id_prob := by
    rw [hL]; simp [optF, getOpt, parseF64]
  have e16 : optF t.jsonMembers "wordNetID" parseU64 0 = .ok t.wordnet_id := by
    rw [hL]; simp [optF, getOpt, parseU64_jnat _ r6]
  have e17 : optF t.jsonMembers "wordNetIDProb" parseF64 f64zero = .ok t.wordnet_id_prob := by
    rw [hL]; simp [optF, getOpt, parseF64]
  have e18 : optF t.jsonMembers "verbNetID" parseU64 0 = .ok t.verbnet_id := by
    rw [hL]; simp [optF, getOpt, parseU64_jnat _ r7]
  have e19 : optF t.jsonMembers "verbNetIDProb" parseF64 f64zero = .ok t.verbnet_id_prob := by
    rw [hL]; simp [optF, getOpt, parseF64]
  have e20 : optF t.jsonMembers "lang" parseStr "" = .ok t.lang := by
    rw [hL]; simp [optF, getOpt, parseStr]
  have e21 : reqF t.jsonMembers "features" TokenFeatures.fromJson = .ok t.features := by
    rw [hL]; simp [reqF, getOpt, hs_features]
  have e22 : optF t.jsonMembers "shape" parseStr "" = .ok t.shape := by
    rw [hL]; simp [optF, getOpt, parseStr]
  have e23 : optF t.jsonMembers "entity" parseStr "" = .ok t.entity := by
    rw [hL]; simp [optF, getOpt, parseStr]
  rw [Token.toJson, Token.fromJson]
  rw [show asObj (Json.obj t.jsonMembers) = .ok t.jsonMembers from rfl]
  rw [ebind_ok]
  rw [e1, ebind_ok]
  rw [e2, ebind_ok]
  rw [e3, ebind_ok]
  rw [e4, ebind_ok]
  rw [e5, ebind_ok]
  rw [e6, ebind_ok]
  rw [e7, ebind_ok]
  rw [e8, ebind_ok]
  rw [e9, ebind_ok]
  rw [e10, ebind_ok]
  rw [e11, ebind_ok]
  rw [e12, ebind_ok]
  rw [e13, ebind_ok]
  rw [e14, ebind_ok]
  rw [e15, ebind_ok]
  rw [e16, ebind_ok]
  rw [e17, ebind_ok]
  rw [e18, ebind_ok]
  rw [e19, ebind_ok]
  rw [e20, ebind_ok]
  rw [e21, ebind_ok]
  rw [e22, ebind_ok]
  rw [e23, ebind_ok]

/-- Machine-integer ranges of the `u64`/`u8` fields of `Sentence` (automatic for every Rust value of the struct). -/
@[reducible] def Sentence.inRange (s : Sentence) : Prop :=
  s.id < 2 ^ 64 ∧
  s.token_from < 2 ^ 64 ∧
  s.token_to < 2 ^ 64 ∧
  (∀ n ∈ s.tokens, n < 2 ^ 64) ∧
  (∀ n ∈ s.clauses, n < 2 ^ 64)

/-- All string fields of `Sentence` (transitively) are non-empty. -/
@[reducible] def Sentence.nonemptyStrings (s : Sentence) : Prop :=
  s.stype ≠ "" ∧
  s.sentiment ≠ ""

/-- Render-then-parse round trip for `Sentence`. -/
theorem Sentence_rt (s : Sentence) (hr : s.inRange) (hs : s.nonemptyStrings) :
    Sentence.fromJson s.toJson = .ok s := by
  obtain ⟨r1, r2, r3, r4, r5⟩ := hr
  obtain ⟨h1, h2⟩ := hs
  have hL : s.jsonMembers =
      [("id", jnat s.id),
       ("tokenFrom", jnat s.token_from),
       ("tokenTo", jnat s.token_to),
       ("tokens", jnats s.tokens),
       ("clauses", jnats s.clauses),
       ("type", Json.str s.stype),
       ("sentiment", Json.str s.sentiment),
       ("sentimentProb", Json.num s.sentiment_prob)] := by
    simp [Sentence.jsonMembers, strOpt_of_ne _ h1, strOpt_of_ne _ h2]
  have e1 : reqF s.jsonMembers "id" parseU64 = .ok s.id := by
    rw [hL]; simp [reqF, getOpt, parseU64_jnat _ r1]
  have e2 : optF s.jsonMembers "tokenFrom" parseU64 0 = .ok s.token_from := by
    rw [hL]; simp [optF, getOpt, parseU64_jnat _ r2]
  have e3 : optF s.jsonMembers "tokenTo" parseU64 0 = .ok s.token_to := by
    rw [hL]; simp [optF, getOpt, parseU64_jnat _ r3]
  have e4 : optF s.jsonMembers "tokens" (parseArr parseU64) [] = .ok s.tokens := by
    rw [hL]; simp [optF, getOpt, parseArr_jnats _ r4]
  have e5 : optF s.jsonMembers "clauses" (parseArr parseU64) [] = .ok s.clauses := by
    rw [hL]; simp [optF, getOpt, parseArr_jnats _ r5]
  have e6 : optF s.jsonMembers "type" parseStr "" = .ok s.stype := by
    rw [hL]; simp [optF, getOpt, parseStr]
  have e7 : optF s.jsonMembers "sentiment" parseStr "" = .ok s.sentiment := by
    rw [hL]; simp [optF, getOpt, parseStr]
  have e8 : optF s.jsonMembers "sentimentProb" parseF64 f64zero = .ok s.sentiment_prob := by
    rw [hL]; simp [optF, getOpt, parseF64]
  rw [Sentence.toJson, Sentence.fromJson]
  rw [show asObj (Json.obj s.jsonMembers) = .ok s.jsonMembers from rfl]
  rw [ebind_ok]
  rw [e1, ebind_ok]
  rw [e2, ebind_ok]
  rw [e3, ebind_ok]
  rw [e4, ebind_ok]
  rw [e5, ebind_ok]
  rw [e6, ebind_ok]
  rw [e7, ebind_ok]
  rw [e8, ebind_ok]

/-- Machine-integer ranges of the `u64`/`u8` fields of `Clause` (automatic for every Rust value of the struct). -/
@[reducible] def Clause.inRange (c : Clause) : Prop :=
  c.id < 2 ^ 64 ∧
  c.sentence_id < 2 ^ 64 ∧
  c.token_from < 2 ^ 64 ∧
  c.token_to < 2 ^ 64 ∧
  (∀ n ∈ c.tokens, n < 2 ^ 64) ∧
  c.gov < 2 ^ 64 ∧
  c.head < 2 ^ 64

/-- All string fields of `Clause` (transitively) are non-empty. -/
@[reducible] def Clause.nonemptyStrings (c : Clause) : Prop :=
  c.tense ≠ "" ∧
  c.mood ≠ "" ∧
  c.aspect ≠ "" ∧
  c.voice ≠ "" ∧
  c.sentiment ≠ ""

/-- Render-then-parse round trip for `Clause`. -/
theorem Clause_rt (c : Clause) (hr : c.inRange) (hs : c.nonemptyStrings) :
    Clause.fromJson c.toJson = .ok c := by
  obtain ⟨r1, r2, r3, r4, r5, r6, r7⟩ := hr
  obtain ⟨h1, h2, h3, h4, h5⟩ := hs
  have hL : c.jsonMembers =
      [("id", jnat c.id),
       ("sentenceId", jnat c.sentence_id),
       ("tokenFrom", jnat c.token_from),
       ("tokenTo", jnat c.token_to),
       ("tokens", jnats c.tokens),
       ("main", Json.bool c.main),
       ("gov", jnat c.gov),
       ("head", jnat c.head),
       ("neg", Json.bool c.neg),
       ("tense", Json.str c.tense),
       ("mood", Json.str c.mood),
       ("perfect", Json.bool c.perfect),
       ("continuous", Json.bool c.continuous),
       ("aspect", Json.str c.aspect),
       ("voice", Json.str c.voice),
       ("sentiment", Json.str c.sentiment),
       ("sentimentProb", Json.num c.sentiment_prob)] := by
    simp [Clause.jsonMembers, strOpt_of_ne _ h1, strOpt_of_ne _ h2, strOpt_of_ne _ h3, strOpt_of_ne _ h4, strOpt_of_ne _ h5]
  have e1 : reqF c.jsonMembers "id" parseU64 = .ok c.id := by
    rw [hL]; simp [reqF, getOpt, parseU64_jnat _ r1]
  have e2 : optF c.jsonMembers "sentenceId" parseU64 0 = .ok c.sentence_id := by
    rw [hL]; simp [optF, getOpt, parseU64_jnat _ r2]
  have e3 : optF c.jsonMembers "tokenFrom" parseU64 0 = .ok c.token_from := by
    rw [hL]; simp [optF, getOpt, parseU64_jnat _ r3]
  have e4 : optF c.jsonMembers "tokenTo" parseU64 0 = .ok c.token_to := by
    rw [hL]; simp [optF, getOpt, parseU64_jnat _ r4]
  have e5 : optF c.jsonMembers "tokens" (parseArr parseU64) [] = .ok c.tokens := by
    rw [hL]; simp [optF, getOpt, parseArr_jnats _ r5]
  have e6 : optF c.jsonMembers "main" parseBool false = .ok c.main := by
    rw [hL]; simp [optF, getOpt, parseBool]
  have e7 : optF c.jsonMembers "gov" parseU64 0 = .ok c.gov := by
    rw [hL]; simp [optF, getOpt, parseU64_jnat _ r6]
  have e8 : optF c.jsonMembers "head" parseU64 0 = .ok c.head := by
    rw [hL]; simp [optF, getOpt, parseU64_jnat _ r7]
  have e9 : optF c.jsonMembers "neg" parseBool false = .ok c.neg := by
    rw [hL]; simp [optF, getOpt, parseBool]
  have e10 : optF c.jsonMembers "tense" parseStr "" = .ok c.tense := by
    rw [hL]; simp [optF, getOpt, parseStr]
  have e11 : optF c.jsonMembers "mood" parseStr "" = .ok c.mood := by
    rw [hL]; simp [optF, getOpt, parseStr]
  have e12 : optF c.jsonMembers "perfect" parseBool false = .ok c.perfect := by
    rw [hL]; simp [optF, getOpt, parseBool]
  have e13 : optF c.jsonMembers "continuous" parseBool false = .ok c.continuous := by
    rw [hL]; simp [optF, getOpt, parseBool]
  have e14 : optF c.jsonMembers "aspect" parseStr "" = .ok c.aspect := by
    rw [hL]; simp [optF, getOpt, parseStr]
  have e15 : optF c.jsonMembers "voice" parseStr "" = .ok c.voice := by
    rw [hL]; simp [optF, getOpt, parseStr]
  have e16 : optF c.jsonMembers "sentiment" parseStr "" = .ok c.sentiment := by
    rw [hL]; simp [optF, getOpt, parseStr]
  have e17 : optF c.jsonMembers "sentimentProb" parseF64 f64zero = .ok c.sentiment_prob := by
    rw [hL]; simp [optF, getOpt, parseF64]
  rw [Clause.toJson, Clause.fromJson]
  rw [show asObj (Json.obj c.jsonMembers) = .ok c.jsonMembers from rfl]
  rw [ebind_ok]
  rw [e1, ebind_ok]
  rw [e2, ebind_ok]
  rw [e3, ebind_ok]
  rw [e4, ebind_ok]
  rw [e5, ebind_ok]
  rw [e6, ebind_ok]
  rw [e7, ebind_ok]
  rw [e8, ebind_ok]
  rw [e9, ebind_ok]
  rw [e10, ebind_ok]
  rw [e11, ebind_ok]
  rw [e12, ebind_ok]
  rw [e13, ebind_ok]
  rw [e14, ebind_ok]
  rw [e15, ebind_ok]
  rw [e16, ebind_ok]
  rw [e17, ebind_ok]

/-- Machine-integer ranges of the `u64`/`u8` fields of `Dependency` (automatic for every Rust value of the struct). -/
@[reducible] def Dependency.inRange (d : Dependency) : Prop :=
  d.gov < 2 ^ 64 ∧
  d.dep < 2 ^ 64

/-- All string fields of `Dependency` (transitively) are non-empty. -/
@[reducible] def Dependency.nonemptyStrings (d : Dependency) : Prop :=
  d.lab ≠ ""

/-- Render-then-parse round trip for `Dependency`. -/
theorem Dependency_rt (d : Dependency) (hr : d.inRange) (hs : d.nonemptyStrings) :
    Dependency.fromJson d.toJson = .ok d := by
  obtain ⟨r1, r2⟩ := hr
  have h1 := hs
  have hL : d.jsonMembers =
      [("lab", Json.str d.lab),
       ("gov", jnat d.gov),
       ("dep", jnat d.dep),
       ("prob", Json.num d.prob)] := by
    simp [Dependency.jsonMembers]
  have e1 : reqF d.jsonMembers "lab" parseStr = .ok d.lab := by
    rw [hL]; simp [reqF, getOpt, parseStr]
  have e2 : reqF d.jsonMembers "gov" parseU64 = .ok d.gov := by
    rw [hL]; simp [reqF, getOpt, parseU64_jnat _ r1]
  have e3 : reqF d.jsonMembers "dep" parseU64 = .ok d.dep := by
    rw [hL]; simp [reqF, getOpt, parseU64_jnat _ r2]
  have e4 : optF d.jsonMembers "prob" parseF64 f64zero = .ok d.prob := by
    rw [hL]; simp [optF, getOpt, parseF64]
  rw [Dependency.toJson, Dependency.fromJson]
  rw [show asObj (Json.obj d.jsonMembers) = .ok d.jsonMembers from rfl]
  rw [ebind_ok]
  rw [e1, ebind_ok]
  rw [e2, ebind_ok]
  rw [e3, ebind_ok]
  rw [e4, ebind_ok]

/-- Machine-integer ranges of the `u64`/`u8` fields of `DependencyTree` (automatic for every Rust value of the struct). -/
@[reducible] def DependencyTree.inRange (d : DependencyTree) : Prop :=
  d.sentence_id < 2 ^ 64 ∧
  (∀ y ∈ d.dependencies, y.inRange)

/-- All string fields of `DependencyTree` (transitively) are non-empty. -/
@[reducible] def DependencyTree.nonemptyStrings (d : DependencyTree) : Prop :=
  d.style ≠ "" ∧
  (∀ y ∈ d.dependencies, y.nonemptyStrings)

/-- Render-then-parse round trip for `DependencyTree`. -/
theorem DependencyTree_rt (d : DependencyTree) (hr : d.inRange) (hs : d.nonemptyStrings) :
    DependencyTree.fromJson d.toJson = .ok d := by
  obtain ⟨r1, r2⟩ := hr
  obtain ⟨h1, h2⟩ := hs
  have hl_dependencies : parseArr Dependency.fromJson (Json.arr (d.dependencies.map Dependency.toJson)) = .ok d.dependencies := by
    simp only [parseArr]
    exact parseMany_map _ _ _ (fun y hy => Dependency_rt y (r2 y hy) (h2 y hy))
  have hL : d.jsonMembers =
      [("sentenceId", jnat d.sentence_id),
       ("style", Json.str d.style),
       ("dependencies", Json.arr (d.dependencies.map Dependency.toJson)),
       ("prob", Json.num d.prob)] := by
    simp [DependencyTree.jsonMembers, strOpt_of_ne _ h1]
  have e1 : optF d.jsonMembers "sentenceId" parseU64 0 = .ok d.sentence_id := by
    rw [hL]; simp [optF, getOpt, parseU64_jnat _ r1]
  have e2 : optF d.jsonMembers "style" parseStr "" = .ok d.style := by
    rw [hL]; simp [optF, getOpt, parseStr]
  have e3 : optF d.jsonMembers "dependencies" (parseArr Dependency.fromJson) [] = .ok d.dependencies := by
    rw [hL]; simp [optF, getOpt, hl_dependencies]
  have e4 : optF d.jsonMembers "prob" parseF64 f64zero = .ok d.prob := by
    rw [hL]; simp [optF, getOpt, parseF64]
  rw [DependencyTree.toJson, DependencyTree.fromJson]
  rw [show asObj (Json.obj d.jsonMembers) = .ok d.jsonMembers from rfl]
  rw [ebind_ok]
  rw [e1, ebind_ok]
  rw [e2, ebind_ok]
  rw [e3, ebind_ok]
  rw [e4, ebind_ok]

/-- Machine-integer ranges of the `u64`/`u8` fields of `CoreferenceRepresentantive` (automatic for every Rust value of the struct). -/
@[reducible] def CoreferenceRepresentantive.inRange (c : CoreferenceRepresentantive) : Prop :=
  (∀ n ∈ c.tokens, n < 2 ^ 64) ∧
  c.head < 2 ^ 64

/-- All string fields of `CoreferenceRepresentantive` (transitively) are non-empty. -/
@[reducible] def CoreferenceRepresentantive.nonemptyStrings (c : CoreferenceRepresentantive) : Prop :=
  True

/-- Render-then-parse round trip for `CoreferenceRepresentantive`. -/
theorem CoreferenceRepresentantive_rt (c : CoreferenceRepresentantive) (hr : c.inRange) (hs : c.nonemptyStrings) :
    CoreferenceRepresentantive.fromJson c.toJson = .ok c := by
  obtain ⟨r1, r2⟩ := hr
  have hL : c.jsonMembers =
      [("tokens", jnats c.tokens),
       ("head", jnat c.head)] := by
    simp [CoreferenceRepresentantive.jsonMembers]
  have e1 : reqF c.jsonMembers "tokens" (parseArr parseU64) = .ok c.tokens := by
    rw [hL]; simp [reqF, getOpt, parseArr_jnats _ r1]
  have e2 : reqF c.jsonMembers "head" parseU64 = .ok c.head := by
    rw [hL]; simp [reqF, getOpt, parseU64_jnat _ r2]
  rw [CoreferenceRepresentantive.toJson, CoreferenceRepresentantive.fromJson]
  rw [show asObj (Json.obj c.jsonMembers) = .ok c.jsonMembers from rfl]
  rw [ebind_ok]
  rw [e1, ebind_ok]
  rw [e2, ebind_ok]

/-- Machine-integer ranges of the `u64`/`u8` fields of `CoreferenceReferents` (automatic for every Rust value of the struct). -/
@[reducible] def CoreferenceReferents.inRange (c : CoreferenceReferents) : Prop :=
  (∀ n ∈ c.tokens, n < 2 ^ 64) ∧
  c.head < 2 ^ 64

/-- All string fields of `CoreferenceReferents` (transitively) are non-empty. -/
@[reducible] def CoreferenceReferents.nonemptyStrings (c : CoreferenceReferents) : Prop :=
  True

/-- Render-then-parse round trip for `CoreferenceReferents`. -/
theorem CoreferenceReferents_rt (c : CoreferenceReferents) (hr : c.inRange) (hs : c.nonemptyStrings) :
    CoreferenceReferents.fromJson c.toJson = .ok c := by
  obtain ⟨r1, r2⟩ := hr
  have hL : c.jsonMembers =
      [("tokens", jnats c.tokens),
       ("head", jnat c.head),
       ("prob", Json.num c.prob)] := by
    simp [CoreferenceReferents.jsonMembers]
  have e1 : reqF c.jsonMembers "tokens" (parseArr parseU64) = .ok c.tokens := by
    rw [hL]; simp [reqF, getOpt, parseArr_jnats _ r1]
  have e2 : reqF c.jsonMembers "head" parseU64 = .ok c.head := by
    rw [hL]; simp [reqF, getOpt, parseU64_jnat _ r2]
  have e3 : optF c.jsonMembers "prob" parseF64 f64zero = .ok c.prob := by
    rw [hL]; simp [optF, getOpt, parseF64]
  rw [CoreferenceReferents.toJson, CoreferenceReferents.fromJson]
  rw [show asObj (Json.obj c.jsonMembers) = .ok c.jsonMembers from rfl]
  rw [ebind_ok]
  rw [e1, ebind_ok]
  rw [e2, ebind_ok]
  rw [e3, ebind_ok]

/-- Machine-integer ranges of the `u64`/`u8` fields of `Coreference` (automatic for every Rust value of the struct). -/
@[reducible] def Coreference.inRange (c : Coreference) : Prop :=
  c.id < 2 ^ 64 ∧
  c.representative.inRange ∧
  (∀ y ∈ c.referents, y.inRange)

/-- All string fields of `Coreference` (transitively) are non-empty. -/
@[reducible] def Coreference.nonemptyStrings (c : Coreference) : Prop :=
  c.representative.nonemptyStrings ∧
  (∀ y ∈ c.referents, y.nonemptyStrings)

/-- Render-then-parse round trip for `Coreference`. -/
theorem Coreference_rt (c : Coreference) (hr : c.inRange) (hs : c.nonemptyStrings) :
    Coreference.fromJson c.toJson = .ok c := by
  obtain ⟨r1, r2, r3⟩ := hr
  obtain ⟨h1, h2⟩ := hs
  have hs_representative := CoreferenceRepresentantive_rt c.representative r2 h1
  have hl_referents : parseArr CoreferenceReferents.fromJson (Json.arr (c.referents.map CoreferenceReferents.toJson)) = .ok c.referents := by
    simp only [parseArr]
    exact parseMany_map _ _ _ (fun y hy => CoreferenceReferents_rt y (r3 y hy) (h2 y hy))
  have hL : c.jsonMembers =
      [("id", jnat c.id),
       ("representative", c.representative.toJson),
       ("referents", Json.arr (c.referents.map CoreferenceReferents.toJson))] := by
    simp [Coreference.jsonMembers]
  have e1 : reqF c.jsonMembers "id" parseU64 = .ok c.id := by
    rw [hL]; simp [reqF, getOpt, parseU64_jnat _ r1]
  have e2 : reqF c.jsonMembers "representative" CoreferenceRepresentantive.fromJson = .ok c.representative := by
    rw [hL]; simp [reqF, getOpt, hs_representative]
  have e3 : reqF c.jsonMembers "referents" (parseArr CoreferenceReferents.fromJson) = .ok c.referents := by
    rw [hL]; simp [reqF, getOpt, hl_referents]
  rw [Coreference.toJson, Coreference.fromJson]
  rw [show asObj (Json.obj c.jsonMembers) = .ok c.jsonMembers from rfl]
  rw [ebind_ok]
  rw [e1, ebind_ok]
  rw [e2, ebind_ok]
  rw [e3, ebind_ok]

/-- Machine-integer ranges of the `u64`/`u8` fields of `Scope` (automatic for every Rust value of the struct). -/
@[reducible] def Scope.inRange (s : Scope) : Prop :=
  s.id < 2 ^ 64 ∧
  (∀ n ∈ s.gov, n < 2 ^ 64) ∧
  (∀ n ∈ s.dep, n < 2 ^ 64) ∧
  (∀ n ∈ s.terminals, n < 2 ^ 64)

/-- All string fields of `Scope` (transitively) are non-empty. -/
@[reducible] def Scope.nonemptyStrings (s : Scope) : Prop :=
  True

/-- Render-then-parse round trip for `Scope`. -/
theorem Scope_rt (s : Scope) (hr : s.inRange) (hs : s.nonemptyStrings) :
    Scope.fromJson s.toJson = .ok s := by
  obtain ⟨r1, r2, r3, r4⟩ := hr
  have hL : s.jsonMembers =
      [("id", jnat s.id),
       ("gov", jnats s.gov),
       ("dep", jnats s.dep),
       ("terminals", jnats s.terminals)] := by
    simp [Scope.jsonMembers]
  have e1 : reqF s.jsonMembers "id" parseU64 = .ok s.id := by
    rw [hL]; simp [reqF, getOpt, parseU64_jnat _ r1]
  have e2 : reqF s.jsonMembers "gov" (parseArr parseU64) = .ok s.gov := by
    rw [hL]; simp [reqF, getOpt, parseArr_jnats _ r2]
  have e3 : reqF s.jsonMembers "dep" (parseArr parseU64) = .ok s.dep := by
    rw [hL]; simp [reqF, getOpt, parseArr_jnats _ r3]
  have e4 : reqF s.jsonMembers "terminals" (parseArr parseU64) = .ok s.terminals := by
    rw [hL]; simp [reqF, getOpt, parseArr_jnats _ r4]
  rw [Scope.toJson, Scope.fromJson]
  rw [show asObj (Json.obj s.jsonMembers) = .ok s.jsonMembers from rfl]
  rw [ebind_ok]
  rw [e1, ebind_ok]
  rw [e2, ebind_ok]
  rw [e3, ebind_ok]
  rw [e4, ebind_ok]

/-- Machine-integer ranges of the `u64`/`u8` fields of `ConstituentParse` (automatic for every Rust value of the struct). -/
@[reducible] def ConstituentParse.inRange (c : ConstituentParse) : Prop :=
  c.sentence_id < 2 ^ 64 ∧
  (∀ y ∈ c.scopes, y.inRange)

/-- All string fields of `ConstituentParse` (transitively) are non-empty. -/
@[reducible] def ConstituentParse.nonemptyStrings (c : ConstituentParse) : Prop :=
  c.ctype ≠ "" ∧
  c.labeled_bracketing ≠ "" ∧
  (∀ y ∈ c.scopes, y.nonemptyStrings)

/-- Render-then-parse round trip for `ConstituentParse`. -/
theorem ConstituentParse_rt (c : ConstituentParse) (hr : c.inRange) (hs : c.nonemptyStrings) :
    ConstituentParse.fromJson c.toJson = .ok c := by
  obtain ⟨r1, r2⟩ := hr
  obtain ⟨h1, h2, h3⟩ := hs
  have hl_scopes : parseArr Scope.fromJson (Json.arr (c.scopes.map Scope.toJson)) = .ok c.scopes := by
    simp only [parseArr]
    exact parseMany_map _ _ _ (fun y hy => Scope_rt y (r2 y hy) (h3 y hy))
  have hL : c.jsonMembers =
      [("sentenceId", jnat c.sentence_id),
       ("type", Json.str c.ctype),
       ("labeledBracketing", Json.str c.labeled_bracketing),
       ("prob", Json.num c.prob),
       ("scopes", Json.arr (c.scopes.map Scope.toJson))] := by
    simp [ConstituentParse.jsonMembers, strOpt_of_ne _ h1, strOpt_of_ne _ h2]
  have e1 : reqF c.jsonMembers "sentenceId" parseU64 = .ok c.sentence_id := by
    rw [hL]; simp [reqF, getOpt, parseU64_jnat _ r1]
  have e2 : optF c.jsonMembers "type" parseStr "" = .ok c.ctype := by
    rw [hL]; simp [optF, getOpt, parseStr]
  have e3 : optF c.jsonMembers "labeledBracketing" parseStr "" = .ok c.labeled_bracketing := by
    rw [hL]; simp [optF, getOpt, parseStr]
  have e4 : optF c.jsonMembers "prob" parseF64 f64zero = .ok c.prob := by
    rw [hL]; simp [optF, getOpt, parseF64]
  have e5 : optF c.jsonMembers "scopes" (parseArr Scope.fromJson) [] = .ok c.scopes := by
    rw [hL]; simp [optF, getOpt, hl_scopes]
  rw [ConstituentParse.toJson, ConstituentParse.fromJson]
  rw [show asObj (Json.obj c.jsonMembers) = .ok c.jsonMembers from rfl]
  rw [ebind_ok]
  rw [e1, ebind_ok]
  rw [e2, ebind_ok]
  rw [e3, ebind_ok]
  rw [e4, ebind_ok]
  rw [e5, ebind_ok]

/-- Machine-integer ranges of the `u64`/`u8` fields of `Expression` (automatic for every Rust value of the struct). -/
@[reducible] def Expression.inRange (e : Expression) : Prop :=
  e.id < 2 ^ 64 ∧
  e.head < 2 ^ 64 ∧
  e.token_from < 2 ^ 64 ∧
  e.token_to < 2 ^ 64 ∧
  (∀ n ∈ e.tokens, n < 2 ^ 64)

/-- All string fields of `Expression` (transitively) are non-empty. -/
@[reducible] def Expression.nonemptyStrings (e : Expression) : Prop :=
  e.etype ≠ "" ∧
  e.dependency ≠ ""

/-- Render-then-parse round trip for `Expression`. -/
theorem Expression_rt (e : Expression) (hr : e.inRange) (hs : e.nonemptyStrings) :
    Expression.fromJson e.toJson = .ok e := by
  obtain ⟨r1, r2, r3, r4, r5⟩ := hr
  obtain ⟨h1, h2⟩ := hs
  have hL : e.jsonMembers =
      [("id", jnat e.id),
       ("type", Json.str e.etype),
       ("head", jnat e.head),
       ("dependency", Json.str e.dependency),
       ("tokenFrom", jnat e.token_from),
       ("tokenTo", jnat e.token_to),
       ("tokens", jnats e.tokens),
       ("prob", Json.num e.prob)] := by
    simp [Expression.jsonMembers, strOpt_of_ne _ h1, strOpt_of_ne _ h2]
  have e1 : reqF e.jsonMembers "id" parseU64 = .ok e.id := by
    rw [hL]; simp [reqF, getOpt, parseU64_jnat _ r1]
  have e2 : optF e.jsonMembers "type" parseStr "" = .ok e.etype := by
    rw [hL]; simp [optF, getOpt, parseStr]
  have e3 : optF e.jsonMembers "head" parseU64 0 = .ok e.head := by
    rw [hL]; simp [optF, getOpt, parseU64_jnat _ r2]
  have e4 : optF e.jsonMembers "dependency" parseStr "" = .ok e.dependency := by
    rw [hL]; simp [optF, getOpt, parseStr]
  have e5 : optF e.jsonMembers "tokenFrom" parseU64 0 = .ok e.token_from := by
    rw [hL]; simp [optF, getOpt, parseU64_jnat _ r3]
  have e6 : optF e.jsonMembers "tokenTo" parseU64 0 = .ok e.token_to := by
    rw [hL]; simp [optF, getOpt, parseU64_jnat _ r4]
  have e7 : optF e.jsonMembers "tokens" (parseArr parseU64) [] = .ok e.tokens := by
    rw [hL]; simp [optF, getOpt, parseArr_jnats _ r5]
  have e8 : optF e.jsonMembers "prob" parseF64 f64zero = .ok e.prob := by
    rw [hL]; simp [optF, getOpt, parseF64]
  rw [Expression.toJson, Expression.fromJson]
  rw [show asObj (Json.obj e.jsonMembers) = .ok e.jsonMembers from rfl]
  rw [ebind_ok]
  rw [e1, ebind_ok]
  rw [e2, ebind_ok]
  rw [e3, ebind_ok]
  rw [e4, ebind_ok]
  rw [e5, ebind_ok]
  rw [e6, ebind_ok]
  rw [e7, ebind_ok]
  rw [e8, ebind_ok]

/-- Machine-integer ranges of the `u64`/`u8` fields of `Paragraph` (automatic for every Rust value of the struct). -/
@[reducible] def Paragraph.inRange (p : Paragraph) : Prop :=
  p.id < 2 ^ 64 ∧
  p.token_from < 2 ^ 64 ∧
  p.token_to < 2 ^ 64 ∧
  (∀ n ∈ p.tokens, n < 2 ^ 64) ∧
  (∀ n ∈ p.sentences, n < 2 ^ 64)

/-- All string fields of `Paragraph` (transitively) are non-empty. -/
@[reducible] def Paragraph.nonemptyStrings (p : Paragraph) : Prop :=
  True

/-- Render-then-parse round trip for `Paragraph`. -/
theorem Paragraph_rt (p : Paragraph) (hr : p.inRange) (hs : p.nonemptyStrings) :
    Paragraph.fromJson p.toJson = .ok p := by
  obtain ⟨r1, r2, r3, r4, r5⟩ := hr
  have hL : p.jsonMembers =
      [("id", jnat p.id),
       ("tokenFrom", jnat p.token_from),
       ("tokenTo", jnat p.token_to),
       ("tokens", jnats p.tokens),
       ("sentences", jnats p.sentences)] := by
    simp [Paragraph.jsonMembers]
  have e1 : reqF p.jsonMembers "id" parseU64 = .ok p.id := by
    rw [hL]; simp [reqF, getOpt, parseU64_jnat _ r1]
  have e2 : optF p.jsonMembers "tokenFrom" parseU64 0 = .ok p.token_from := by
    rw [hL]; simp [optF, getOpt, parseU64_jnat _ r2]
  have e3 : optF p.jsonMembers "tokenTo" parseU64 0 = .ok p.token_to := by
    rw [hL]; simp [optF, getOpt, parseU64_jnat _ r3]
  have e4 : optF p.jsonMembers "tokens" (parseArr parseU64) [] = .ok p.tokens := by
    rw [hL]; simp [optF, getOpt, parseArr_jnats _ r4]
  have e5 : optF p.jsonMembers "sentences" (parseArr parseU64) [] = .ok p.sentences := by
    rw [hL]; simp [optF, getOpt, parseArr_jnats _ r5]
  rw [Paragraph.toJson, Paragraph.fromJson]
  rw [show asObj (Json.obj p.jsonMembers) = .ok p.jsonMembers from rfl]
  rw [ebind_ok]
  rw [e1, ebind_ok]
  rw [e2, ebind_ok]
  rw [e3, ebind_ok]
  rw [e4, ebind_ok]
  rw [e5, ebind_ok]

/-- Machine-integer ranges of the `u64`/`u8` fields of `Attribute` (automatic for every Rust value of the struct). -/
@[reducible] def Attribute.inRange (a : Attribute) : Prop :=
  True

/-- All string fields of `Attribute` (transitively) are non-empty. -/
@[reducible] def Attribute.nonemptyStrings (a : Attribute) : Prop :=
  a.lab ≠ "" ∧
  a.val ≠ ""

/-- Render-then-parse round trip for `Attribute`. -/
theorem Attribute_rt (a : Attribute) (hr : a.inRange) (hs : a.nonemptyStrings) :
    Attribute.fromJson a.toJson = .ok a := by
  obtain ⟨h1, h2⟩ := hs
  have hL : a.jsonMembers =
      [("lab", Json.str a.lab),
       ("val", Json.str a.val)] := by
    simp [Attribute.jsonMembers]
  have e1 : reqF a.jsonMembers "lab" parseStr = .ok a.lab := by
    rw [hL]; simp [reqF, getOpt, parseStr]
  have e2 : reqF a.jsonMembers "val" parseStr = .ok a.val := by
    rw [hL]; simp [reqF, getOpt, parseStr]
  rw [Attribute.toJson, Attribute.fromJson]
  rw [show asObj (Json.obj a.jsonMembers) = .ok a.jsonMembers from rfl]
  rw [ebind_ok]
  rw [e1, ebind_ok]
  rw [e2, ebind_ok]

/-- Machine-integer ranges of the `u64`/`u8` fields of `Entity` (automatic for every Rust value of the struct). -/
@[reducible] def Entity.inRange (e : Entity) : Prop :=
  e.id < 2 ^ 64 ∧
  e.head < 2 ^ 64 ∧
  e.token_from < 2 ^ 64 ∧
  e.token_to < 2 ^ 64 ∧
  (∀ n ∈ e.tokens, n < 2 ^ 64) ∧
  e.triple_id < 2 ^ 64 ∧
  e.count < 2 ^ 64 ∧
  (∀ y ∈ e.attributes, y.inRange)

/-- All string fields of `Entity` (transitively) are non-empty. -/
@[reducible] def Entity.nonemptyStrings (e : Entity) : Prop :=
  e.label ≠ "" ∧
  e.etype ≠ "" ∧
  e.url ≠ "" ∧
  e.sentiment ≠ "" ∧
  (∀ y ∈ e.attributes, y.nonemptyStrings)

/-- Render-then-parse round trip for `Entity`. -/
theorem Entity_rt (e : Entity) (hr : e.inRange) (hs : e.nonemptyStrings) :
    Entity.fromJson e.toJson = .ok e := by
  obtain ⟨r1, r2, r3, r4, r5, r6, r7, r8⟩ := hr
  obtain ⟨h1, h2, h3, h4, h5⟩ := hs
  have hl_attributes : parseArr Attribute.fromJson (Json.arr (e.attributes.map Attribute.toJson)) = .ok e.attributes := by
    simp only [parseArr]
    exact parseMany_map _ _ _ (fun y hy => Attribute_rt y (r8 y hy) (h5 y hy))
  have hL : e.jsonMembers =
      [("id", jnat e.id),
       ("label", Json.str e.label),
       ("type", Json.str e.etype),
       ("url", Json.str e.url),
       ("head", jnat e.head),
       ("tokenFrom", jnat e.token_from),
       ("tokenTo", jnat e.token_to),
       ("tokens", jnats e.tokens),
       ("tripleID", jnat e.triple_id),
       ("sentiment", Json.str e.sentiment),
       ("sentimentProb", Json.num e.sentiment_prob),
       ("count", jnat e.count),
       ("attributes", Json.arr (e.attributes.map Attribute.toJson))] := by
    simp [Entity.jsonMembers, strOpt_of_ne _ h1, strOpt_of_ne _ h2, strOpt_of_ne _ h3, strOpt_of_ne _ h4]
  have e1 : reqF e.jsonMembers "id" parseU64 = .ok e.id := by
    rw [hL]; simp [reqF, getOpt, parseU64_jnat _ r1]
  have e2 : optF e.jsonMembers "label" parseStr "" = .ok e.label := by
    rw [hL]; simp [optF, getOpt, parseStr]
  have e3 : optF e.jsonMembers "type" parseStr "" = .ok e.etype := by
    rw [hL]; simp [optF, getOpt, parseStr]
  have e4 : optF e.jsonMembers "url" parseStr "" = .ok e.url := by
    rw [hL]; simp [optF, getOpt, parseStr]
  have e5 : optF e.jsonMembers "head" parseU64 0 = .ok e.head := by
    rw [hL]; simp [optF, getOpt, parseU64_jnat _ r2]
  have e6 : optF e.jsonMembers "tokenFrom" parseU64 0 = .ok e.token_from := by
    rw [hL]; simp [optF, getOpt, parseU64_jnat _ r3]
  have e7 : optF e.jsonMembers "tokenTo" parseU64 0 = .ok e.token_to := by
    rw [hL]; simp [optF, getOpt, parseU64_jnat _ r4]
  have e8 : optF e.jsonMembers "tokens" (parseArr parseU64) [] = .ok e.tokens := by
    rw [hL]; simp [optF, getOpt, parseArr_jnats _ r5]
  have e9 : optF e.jsonMembers "tripleID" parseU64 0 = .ok e.triple_id := by
    rw [hL]; simp [optF, getOpt, parseU64_jnat _ r6]
  have e10 : optF e.jsonMembers "sentiment" parseStr "" = .ok e.sentiment := by
    rw [hL]; simp [optF, getOpt, parseStr]
  have e11 : optF e.jsonMembers "sentimentProb" parseF64 f64zero = .ok e.sentiment_prob := by
    rw [hL]; simp [optF, getOpt, parseF64]
  have e12 : optF e.jsonMembers "count" parseU64 0 = .ok e.count := by
    rw [hL]; simp [optF, getOpt, parseU64_jnat _ r7]
  have e13 : optF e.jsonMembers "attributes" (parseArr Attribute.fromJson) [] = .ok e.attributes := by
    rw [hL]; simp [optF, getOpt, hl_attributes]
  rw [Entity.toJson, Entity.fromJson]
  rw [show asObj (Json.obj e.jsonMembers) = .ok e.jsonMembers from rfl]
  rw [ebind_ok]
  rw [e1, ebind_ok]
  rw [e2, ebind_ok]
  rw [e3, ebind_ok]
  rw [e4, ebind_ok]
  rw [e5, ebind_ok]
  rw [e6, ebind_ok]
  rw [e7, ebind_ok]
  rw [e8, ebind_ok]
  rw [e9, ebind_ok]
  rw [e10, ebind_ok]
  rw [e11, ebind_ok]
  rw [e12, ebind_ok]
  rw [e13, ebind_ok]

/-- Machine-integer ranges of the `u64`/`u8` fields of `Relation` (automatic for every Rust value of the struct). -/
@[reducible] def Relation.inRange (r : Relation) : Prop :=
  r.id < 2 ^ 64 ∧
  r.head < 2 ^ 64 ∧
  r.token_from < 2 ^ 64 ∧
  r.token_to < 2 ^ 64 ∧
  (∀ n ∈ r.tokens, n < 2 ^ 64) ∧
  r.count < 2 ^ 64 ∧
  (∀ y ∈ r.attributes, y.inRange)

/-- All string fields of `Relation` (transitively) are non-empty. -/
@[reducible] def Relation.nonemptyStrings (r : Relation) : Prop :=
  r.label ≠ "" ∧
  r.rtype ≠ "" ∧
  r.url ≠ "" ∧
  r.sentiment ≠ "" ∧
  (∀ y ∈ r.attributes, y.nonemptyStrings)

/-- Render-then-parse round trip for `Relation`. -/
theorem Relation_rt (r : Relation) (hr : r.inRange) (hs : r.nonemptyStrings) :
    Relation.fromJson r.toJson = .ok r := by
  obtain ⟨r1, r2, r3, r4, r5, r6, r7⟩ := hr
  obtain ⟨h1, h2, h3, h4, h5⟩ := hs
  have hl_attributes : parseArr Attribute.fromJson (Json.arr (r.attributes.map Attribute.toJson)) = .ok r.attributes := by
    simp only [parseArr]
    exact parseMany_map _ _ _ (fun y hy => Attribute_rt y (r7 y hy) (h5 y hy))
  have hL : r.jsonMembers =
      [("id", jnat r.id),
       ("label", Json.str r.label),
       ("type", Json.str r.rtype),
       ("url", Json.str r.url),
       ("head", jnat r.head),
       ("tokenFrom", jnat r.token_from),
       ("tokenTo", jnat r.token_to),
       ("tokens", jnats r.tokens),
       ("sentiment", Json.str r.sentiment),
       ("sentimentProb", Json.num r.sentiment_prob),
       ("count", jnat r.count),
       ("attributes", Json.arr (r.attributes.map Attribute.toJson))] := by
    simp [Relation.jsonMembers, strOpt_of_ne _ h1, strOpt_of_ne _ h2, strOpt_of_ne _ h3, strOpt_of_ne _ h4]
  have e1 : reqF r.jsonMembers "id" parseU64 = .ok r.id := by
    rw [hL]; simp [reqF, getOpt, parseU64_jnat _ r1]
  have e2 : optF r.jsonMembers "label" parseStr "" = .ok r.label := by
    rw [hL]; simp [optF, getOpt, parseStr]
  have e3 : optF r.jsonMembers "type" parseStr "" = .ok r.rtype := by
    rw [hL]; simp [optF, getOpt, parseStr]
  have e4 : optF r.jsonMembers "url" parseStr "" = .ok r.url := by
    rw [hL]; simp [optF, getOpt, parseStr]
  have e5 : optF r.jsonMembers "head" parseU64 0 = .ok r.head := by
    rw [hL]; simp [optF, getOpt, parseU64_jnat _ r2]
  have e6 : optF r.jsonMembers "tokenFrom" parseU64 0 = .ok r.token_from := by
    rw [hL]; simp [optF, getOpt, parseU64_jnat _ r3]
  have e7 : optF r.jsonMembers "tokenTo" parseU64 0 = .ok r.token_to := by
    rw [hL]; simp [optF, getOpt, parseU64_jnat _ r4]
  have e8 : optF r.jsonMembers "tokens" (parseArr parseU64) [] = .ok r.tokens := by
    rw [hL]; simp [optF, getOpt, parseArr_jnats _ r5]
  have e9 : optF r.jsonMembers "sentiment" parseStr "" = .ok r.sentiment := by
    rw [hL]; simp [optF, getOpt, parseStr]
  have e10 : optF r.jsonMembers "sentimentProb" parseF64 f64zero = .ok r.sentiment_prob := by
    rw [hL]; simp [optF, getOpt, parseF64]
  have e11 : optF r.jsonMembers "count" parseU64 0 = .ok r.count := by
    rw [hL]; simp [optF, getOpt, parseU64_jnat _ r6]
  have e12 : optF r.jsonMembers "attributes" (parseArr Attribute.fromJson) [] = .ok r.attributes := by
    rw [hL]; simp [optF, getOpt, hl_attributes]
  rw [Relation.toJson, Relation.fromJson]
  rw [show asObj (Json.obj r.jsonMembers) = .ok r.jsonMembers from rfl]
  rw [ebind_ok]
  rw [e1, ebind_ok]
  rw [e2, ebind_ok]
  rw [e3, ebind_ok]
  rw [e4, ebind_ok]
  rw [e5, ebind_ok]
  rw [e6, ebind_ok]
  rw [e7, ebind_ok]
  rw [e8, ebind_ok]
  rw [e9, ebind_ok]
  rw [e10, ebind_ok]
  rw [e11, ebind_ok]
  rw [e12, ebind_ok]

/-- Machine-integer ranges of the `u64`/`u8` fields of `Triple` (automatic for every Rust value of the struct). -/
@[reducible] def Triple.inRange (t : Triple) : Prop :=
  t.id < 2 ^ 64 ∧
  t.from_entity < 2 ^ 64 ∧
  t.to_entity < 2 ^ 64 ∧
  t.rel < 2 ^ 64 ∧
  (∀ n ∈ t.clause_id, n < 2 ^ 64) ∧
  (∀ n ∈ t.sentence_id, n < 2 ^ 64) ∧
  t.event_id < 2 ^ 64 ∧
  t.temp_seq < 2 ^ 64 ∧
  t.count < 2 ^ 64

/-- All string fields of `Triple` (transitively) are non-empty. -/
@[reducible] def Triple.nonemptyStrings (t : Triple) : Prop :=
  True

/-- Render-then-parse round trip for `Triple`. -/
theorem Triple_rt (t : Triple) (hr : t.inRange) (hs : t.nonemptyStrings) :
    Triple.fromJson t.toJson = .ok t := by
  obtain ⟨r1, r2, r3, r4, r5, r6, r7, r8, r9⟩ := hr
  have hL : t.jsonMembers =
      [("id", jnat t.id),
       ("fromEntity", jnat t.from_entity),
       ("toEntity", jnat t.to_entity),
       ("rel", jnat t.rel),
       ("clauseID", jnats t.clause_id),
       ("sentenceID", jnats t.sentence_id),
       ("directional", Json.bool t.directional),
       ("eventID", jnat t.event_id),
       ("tempSeq", jnat t.temp_seq),
       ("prob", Json.num t.prob),
       ("syntactic", Json.bool t.syntactic),
       ("implied", Json.bool t.implied),
       ("presupposed", Json.bool t.presupposed),
       ("count", jnat t.count)] := by
    simp [Triple.jsonMembers]
  have e1 : reqF t.jsonMembers "id" parseU64 = .ok t.id := by
    rw [hL]; simp [reqF, getOpt, parseU64_jnat _ r1]
  have e2 : optF t.jsonMembers "fromEntity" parseU64 0 = .ok t.from_entity := by
    rw [hL]; simp [optF, getOpt, parseU64_jnat _ r2]
  have e3 : optF t.jsonMembers "toEntity" parseU64 0 = .ok t.to_entity := by
    rw [hL]; simp [optF, getOpt, parseU64_jnat _ r3]
  have e4 : optF t.jsonMembers "rel" parseU64 0 = .ok t.rel := by
    rw [hL]; simp [optF, getOpt, parseU64_jnat _ r4]
  have e5 : optF t.jsonMembers "clauseID" (parseArr parseU64) [] = .ok t.clause_id := by
    rw [hL]; simp [optF, getOpt, parseArr_jnats _ r5]
  have e6 : optF t.jsonMembers "sentenceID" (parseArr parseU64) [] = .ok t.sentence_id := by
    rw [hL]; simp [optF, getOpt, parseArr_jnats _ r6]
  have e7 : optF t.jsonMembers "directional" parseBool false = .ok t.directional := by
    rw [hL]; simp [optF, getOpt, parseBool]
  have e8 : optF t.jsonMembers "eventID" parseU64 0 = .ok t.event_id := by
    rw [hL]; simp [optF, getOpt, parseU64_jnat _ r7]
  have e9 : optF t.jsonMembers "tempSeq" parseU64 0 = .ok t.temp_seq := by
    rw [hL]; simp [optF, getOpt, parseU64_jnat _ r8]
  have e10 : optF t.jsonMembers "prob" parseF64 f64zero = .ok t.prob := by
    rw [hL]; simp [optF, getOpt, parseF64]
  have e11 : optF t.jsonMembers "syntactic" parseBool false = .ok t.syntactic := by
    rw [hL]; simp [optF, getOpt, parseBool]
  have e12 : optF t.jsonMembers "implied" parseBool false = .ok t.implied := by
    rw [hL]; simp [optF, getOpt, parseBool]
  have e13 : optF t.jsonMembers "presupposed" parseBool false = .ok t.presupposed := by
    rw [hL]; simp [optF, getOpt, parseBool]
  have e14 : optF t.jsonMembers "count" parseU64 0 = .ok t.count := by
    rw [hL]; simp [optF, getOpt, parseU64_jnat _ r9]
  rw [Triple.toJson, Triple.fromJson]
  rw [show asObj (Json.obj t.jsonMembers) = .ok t.jsonMembers from rfl]
  rw [ebind_ok]
  rw [e1, ebind_ok]
  rw [e2, ebind_ok]
  rw [e3, ebind_ok]
  rw [e4, ebind_ok]
  rw [e5, ebind_ok]
  rw [e6, ebind_ok]
  rw [e7, ebind_ok]
  rw [e8, ebind_ok]
  rw [e9, ebind_ok]
  rw [e10, ebind_ok]
  rw [e11, ebind_ok]
  rw [e12, ebind_ok]
  rw [e13, ebind_ok]
  rw [e14, ebind_ok]

/-- Machine-integer ranges of the `u64`/`u8` fields of `Document` (automatic for every Rust value of the struct). -/
@[reducible] def Document.inRange (d : Document) : Prop :=
  d.meta.inRange ∧
  d.id < 2 ^ 64 ∧
  (∀ y ∈ d.token_list, y.inRange) ∧
  (∀ y ∈ d.clauses, y.inRange) ∧
  (∀ y ∈ d.sentences, y.inRange) ∧
  (∀ y ∈ d.paragraphs, y.inRange) ∧
  (∀ y ∈ d.dependency_trees, y.inRange) ∧
  (∀ y ∈ d.coreferences, y.inRange) ∧
  (∀ y ∈ d.constituents, y.inRange) ∧
  (∀ y ∈ d.expressions, y.inRange) ∧
  (∀ y ∈ d.entities, y.inRange) ∧
  (∀ y ∈ d.relations, y.inRange) ∧
  (∀ y ∈ d.triples, y.inRange)

/-- All string fields of `Document` (transitively) are non-empty. -/
@[reducible] def Document.nonemptyStrings (d : Document) : Prop :=
  d.meta.nonemptyStrings ∧
  (∀ y ∈ d.token_list, y.nonemptyStrings) ∧
  (∀ y ∈ d.clauses, y.nonemptyStrings) ∧
  (∀ y ∈ d.sentences, y.nonemptyStrings) ∧
  (∀ y ∈ d.paragraphs, y.nonemptyStrings) ∧
  (∀ y ∈ d.dependency_trees, y.nonemptyStrings) ∧
  (∀ y ∈ d.coreferences, y.nonemptyStrings) ∧
  (∀ y ∈ d.constituents, y.nonemptyStrings) ∧
  (∀ y ∈ d.expressions, y.nonemptyStrings) ∧
  (∀ y ∈ d.entities, y.nonemptyStrings) ∧
  (∀ y ∈ d.relations, y.nonemptyStrings) ∧
  (∀ y ∈ d.triples, y.nonemptyStrings)

/-- Render-then-parse round trip for `Document`. -/
theorem Document_rt (d : Document) (hr : d.inRange) (hs : d.nonemptyStrings) :
    Document.fromJson d.toJson = .ok d := by
  obtain ⟨r1, r2, r3, r4, r5, r6, r7, r8, r9, r10, r11, r12, r13⟩ := hr
  obtain ⟨h1, h2, h3, h4, h5, h6, h7, h8, h9, h10, h11, h12⟩ := hs
  have hs_meta := Meta_rt d.meta r1 h1
  have hl_token_list : parseArr Token.fromJson (Json.arr (d.token_list.map Token.toJson)) = .ok d.token_list := by
    simp only [parseArr]
    exact parseMany_map _ _ _ (fun y hy => Token_rt y (r3 y hy) (h2 y hy))
  have hl_clauses : parseArr Clause.fromJson (Json.arr (d.clauses.map Clause.toJson)) = .ok d.clauses := by
    simp only [parseArr]
    exact parseMany_map _ _ _ (fun y hy => Clause_rt y (r4 y hy) (h3 y hy))
  have hl_sentences : parseArr Sentence.fromJson (Json.arr (d.sentences.map Sentence.toJson)) = .ok d.sentences := by
    simp only [parseArr]
    exact parseMany_map _ _ _ (fun y hy => Sentence_rt y (r5 y hy) (h4 y hy))
  have hl_paragraphs : parseArr Paragraph.fromJson (Json.arr (d.paragraphs.map Paragraph.toJson)) = .ok d.paragraphs := by
    simp only [parseArr]
    exact parseMany_map _ _ _ (fun y hy => Paragraph_rt y (r6 y hy) (h5 y hy))
  have hl_dependency_trees : parseArr DependencyTree.fromJson (Json.arr (d.dependency_trees.map DependencyTree.toJson)) = .ok d.dependency_trees := by
    simp only [parseArr]
    exact parseMany_map _ _ _ (fun y hy => DependencyTree_rt y (r7 y hy) (h6 y hy))
  have hl_coreferences : parseArr Coreference.fromJson (Json.arr (d.coreferences.map Coreference.toJson)) = .ok d.coreferences := by
    simp only [parseArr]
    exact parseMany_map _ _ _ (fun y hy => Coreference_rt y (r8 y hy) (h7 y hy))
  have hl_constituents : parseArr ConstituentParse.fromJson (Json.arr (d.constituents.map ConstituentParse.toJson)) = .ok d.constituents := by
    simp only [parseArr]
    exact parseMany_map _ _ _ (fun y hy => ConstituentParse_rt y (r9 y hy) (h8 y hy))
  have hl_expressions : parseArr Expression.fromJson (Json.arr (d.expressions.map Expression.toJson)) = .ok d.expressions := by
    simp only [parseArr]
    exact parseMany_map _ _ _ (fun y hy => Expression_rt y (r10 y hy) (h9 y hy))
  have hl_entities : parseArr Entity.fromJson (Json.arr (d.entities.map Entity.toJson)) = .ok d.entities := by
    simp only [parseArr]
    exact parseMany_map _ _ _ (fun y hy => Entity_rt y (r11 y hy) (h10 y hy))
  have hl_relations : parseArr Relation.fromJson (Json.arr (d.relations.map Relation.toJson)) = .ok d.relations := by
    simp only [parseArr]
    exact parseMany_map _ _ _ (fun y hy => Relation_rt y (r12 y hy) (h11 y hy))
  have hl_triples : parseArr Triple.fromJson (Json.arr (d.triples.map Triple.toJson)) = .ok d.triples := by
    simp only [parseArr]
    exact parseMany_map _ _ _ (fun y hy => Triple_rt y (r13 y hy) (h12 y hy))
  have hL : d.jsonMembers =
      [("meta", d.meta.toJson),
       ("id", jnat d.id),
       ("tokenList", Json.arr (d.token_list.map Token.toJson)),
       ("clauses", Json.arr (d.clauses.map Clause.toJson)),
       ("sentences", Json.arr (d.sentences.map Sentence.toJson)),
       ("paragraphs", Json.arr (d.paragraphs.map Paragraph.toJson)),
       ("dependencyTrees", Json.arr (d.dependency_trees.map DependencyTree.toJson)),
       ("coreferences", Json.arr (d.coreferences.map Coreference.toJson)),
       ("constituents", Json.arr (d.constituents.map ConstituentParse.toJson)),
       ("expressions", Json.arr (d.expressions.map Expression.toJson)),
       ("entities", Json.arr (d.entities.map Entity.toJson)),
       ("relations", Json.arr (d.relations.map Relation.toJson)),
       ("triples", Json.arr (d.triples.map Triple.toJson))] := by
    simp [Document.jsonMembers]
  have e1 : reqF d.jsonMembers "meta" Meta.fromJson = .ok d.meta := by
    rw [hL]; simp [reqF, getOpt, hs_meta]
  have e2 : reqF d.jsonMembers "id" parseU64 = .ok d.id := by
    rw [hL]; simp [reqF, getOpt, parseU64_jnat _ r2]
  have e3 : optF d.jsonMembers "tokenList" (parseArr Token.fromJson) [] = .ok d.token_list := by
    rw [hL]; simp [optF, getOpt, hl_token_list]
  have e4 : optF d.jsonMembers "clauses" (parseArr Clause.fromJson) [] = .ok d.clauses := by
    rw [hL]; simp [optF, getOpt, hl_clauses]
  have e5 : optF d.jsonMembers "sentences" (parseArr Sentence.fromJson) [] = .ok d.sentences := by
    rw [hL]; simp [optF, getOpt, hl_sentences]
  have e6 : optF d.jsonMembers "paragraphs" (parseArr Paragraph.fromJson) [] = .ok d.paragraphs := by
    rw [hL]; simp [optF, getOpt, hl_paragraphs]
  have e7 : optF d.jsonMembers "dependencyTrees" (parseArr DependencyTree.fromJson) [] = .ok d.dependency_trees := by
    rw [hL]; simp [optF, getOpt, hl_dependency_trees]
  have e8 : optF d.jsonMembers "coreferences" (parseArr Coreference.fromJson) [] = .ok d.coreferences := by
    rw [hL]; simp [optF, getOpt, hl_coreferences]
  have e9 : optF d.jsonMembers "constituents" (parseArr ConstituentParse.fromJson) [] = .ok d.constituents := by
    rw [hL]; simp [optF, getOpt, hl_constituents]
  have e10 : optF d.jsonMembers "expressions" (parseArr Expression.fromJson) [] = .ok d.expressions := by
    rw [hL]; simp [optF, getOpt, hl_expressions]
  have e11 : optF d.jsonMembers "entities" (parseArr Entity.fromJson) [] = .ok d.entities := by
    rw [hL]; simp [optF, getOpt, hl_entities]
  have e12 : optF d.jsonMembers "relations" (parseArr Relation.fromJson) [] = .ok d.relations := by
    rw [hL]; simp [optF, getOpt, hl_relations]
  have e13 : optF d.jsonMembers "triples" (parseArr Triple.fromJson) [] = .ok d.triples := by
    rw [hL]; simp [optF, getOpt, hl_triples]
  rw [Document.toJson, Document.fromJson]
  rw [show asObj (Json.obj d.jsonMembers) = .ok d.jsonMembers from rfl]
  rw [ebind_ok]
  rw [e1, ebind_ok]
  rw [e2, ebind_ok]
  rw [e3, ebind_ok]
  rw [e4, ebind_ok]
  rw [e5, ebind_ok]
  rw [e6, ebind_ok]
  rw [e7, ebind_ok]
  rw [e8, ebind_ok]
  rw [e9, ebind_ok]
  rw [e10, ebind_ok]
  rw [e11, ebind_ok]
  rw [e12, ebind_ok]
  rw [e13, ebind_ok]

/-- Machine-integer ranges of the `u64`/`u8` fields of `JSONNLP` (automatic for every Rust value of the struct). -/
@[reducible] def JSONNLP.inRange (j : JSONNLP) : Prop :=
  j.meta.inRange ∧
  (∀ y ∈ j.docs, y.inRange)

/-- All string fields of `JSONNLP` (transitively) are non-empty. -/
@[reducible] def JSONNLP.nonemptyStrings (j : JSONNLP) : Prop :=
  j.meta.nonemptyStrings ∧
  (∀ y ∈ j.docs, y.nonemptyStrings)

/-- Render-then-parse round trip for `JSONNLP`. -/
theorem JSONNLP_rt (j : JSONNLP) (hr : j.inRange) (hs : j.nonemptyStrings) :
    JSONNLP.fromJson j.toJson = .ok j := by
  obtain ⟨r1, r2⟩ := hr
  obtain ⟨h1, h2⟩ := hs
  have hs_meta := Meta_rt j.meta r1 h1
  have hl_docs : parseArr Document.fromJson (Json.arr (j.docs.map Document.toJson)) = .ok j.docs := by
    simp only [parseArr]
    exact parseMany_map _ _ _ (fun y hy => Document_rt y (r2 y hy) (h2 y hy))
  have hL : j.jsonMembers =
      [("meta", j.meta.toJson),
       ("docs", Json.arr (j.docs.map Document.toJson))] := by
    simp [JSONNLP.jsonMembers]
  have e1 : reqF j.jsonMembers "meta" Meta.fromJson = .ok j.meta := by
    rw [hL]; simp [reqF, getOpt, hs_meta]
  have e2 : optF j.jsonMembers "docs" (parseArr Document.fromJson) [] = .ok j.docs := by
    rw [hL]; simp [optF, getOpt, hl_docs]
  rw [JSONNLP.toJson, JSONNLP.fromJson]
  rw [show asObj (Json.obj j.jsonMembers) = .ok j.jsonMembers from rfl]
  rw [ebind_ok]
  rw [e1, ebind_ok]
  rw [e2, ebind_ok]


/-! ### Decidability of the range and non-empty-string predicates -/

instance (x : Meta) : Decidable x.inRange := by
  unfold Meta.inRange
  infer_instance

instance (x : Meta) : Decidable x.nonemptyStrings := by
  unfold Meta.nonemptyStrings
  infer_instance

instance (x : TokenFeatures) : Decidable x.inRange := by
  unfold TokenFeatures.inRange
  infer_instance

instance (x : TokenFeatures) : Decidable x.nonemptyStrings := by
  unfold TokenFeatures.nonemptyStrings
  infer_instance

instance (x : Token) : Decidable x.inRange := by
  unfold Token.inRange
  infer_instance

instance (x : Token) : Decidable x.nonemptyStrings := by
  unfold Token.nonemptyStrings
  infer_instance

instance (x : Sentence) : Decidable x.inRange := by
  unfold Sentence.inRange
  infer_instance

instance (x : Sentence) : Decidable x.nonemptyStrings := by
  unfold Sentence.nonemptyStrings
  infer_instance

instance (x : Clause) : Decidable x.inRange := by
  unfold Clause.inRange
  infer_instance

instance (x : Clause) : Decidable x.nonemptyStrings := by
  unfold Clause.nonemptyStrings
  infer_instance

instance (x : Dependency) : Decidable x.inRange := by
  unfold Dependency.inRange
  infer_instance

instance (x : Dependency) : Decidable x.nonemptyStrings := by
  unfold Dependency.nonemptyStrings
  infer_instance

instance (x : DependencyTree) : Decidable x.inRange := by
  unfold DependencyTree.inRange
  infer_instance

instance (x : DependencyTree) : Decidable x.nonemptyStrings := by
  unfold DependencyTree.nonemptyStrings
  infer_instance

instance (x : CoreferenceRepresentantive) : Decidable x.inRange := by
  unfold CoreferenceRepresentantive.inRange
  infer_instance

instance (x : CoreferenceRepresentantive) : Decidable x.nonemptyStrings := by
  unfold CoreferenceRepresentantive.nonemptyStrings
  infer_instance

instance (x : CoreferenceReferents) : Decidable x.inRange := by
  unfold CoreferenceReferents.inRange
  infer_instance

instance (x : CoreferenceReferents) : Decidable x.nonemptyStrings := by
  unfold CoreferenceReferents.nonemptyStrings
  infer_instance

instance (x : Coreference) : Decidable x.inRange := by
  unfold Coreference.inRange
  infer_instance

instance (x : Coreference) : Decidable x.nonemptyStrings := by
  unfold Coreference.nonemptyStrings
  infer_instance

instance (x : Scope) : Decidable x.inRange := by
  unfold Scope.inRange
  infer_instance

instance (x : Scope) : Decidable x.nonemptyStrings := by
  unfold Scope.nonemptyStrings
  infer_instance

instance (x : ConstituentParse) : Decidable x.inRange := by
  unfold ConstituentParse.inRange
  infer_instance

instance (x : ConstituentParse) : Decidable x.nonemptyStrings := by
  unfold ConstituentParse.nonemptyStrings
  infer_instance

instance (x : Expression) : Decidable x.inRange := by
  unfold Expression.inRange
  infer_instance

instance (x : Expression) : Decidable x.nonemptyStrings := by
  unfold Expression.nonemptyStrings
  infer_instance

instance (x : Paragraph) : Decidable x.inRange := by
  unfold Paragraph.inRange
  infer_instance

instance (x : Paragraph) : Decidable x.nonemptyStrings := by
  unfold Paragraph.nonemptyStrings
  infer_instance

instance (x : Attribute) : Decidable x.inRange := by
  unfold Attribute.inRange
  infer_instance

instance (x : Attribute) : Decidable x.nonemptyStrings := by
  unfold Attribute.nonemptyStrings
  infer_instance

instance (x : Entity) : Decidable x.inRange := by
  unfold Entity.inRange
  infer_instance

instance (x : Entity) : Decidable x.nonemptyStrings := by
  unfold Entity.nonemptyStrings
  infer_instance

instance (x : Relation) : Decidable x.inRange := by
  unfold Relation.inRange
  infer_instance

instance (x : Relation) : Decidable x.nonemptyStrings := by
  unfold Relation.nonemptyStrings
  infer_instance

instance (x : Triple) : Decidable x.inRange := by
  unfold Triple.inRange
  infer_instance

instance (x : Triple) : Decidable x.nonemptyStrings := by
  unfold Triple.nonemptyStrings
  infer_instance

instance (x : Document) : Decidable x.inRange := by
  unfold Document.inRange
  infer_instance

instance (x : Document) : Decidable x.nonemptyStrings := by
  unfold Document.nonemptyStrings
  infer_instance

instance (x : JSONNLP) : Decidable x.inRange := by
  unfold JSONNLP.inRange
  infer_instance

instance (x : JSONNLP) : Decidable x.nonemptyStrings := by
  unfold JSONNLP.nonemptyStrings
  infer_instance

/-! ### Rendered-member lookup and unknown-field lemmas -/

/-- The wire names of the schema fields of `Meta`. -/
def Meta.wireKeys : List String :=
  ["DC.conformsTo", "DC.author", "DC.created", "DC.date", "DC.source", "DC.language", "DC.creator", "DC.publisher", "DC.title", "DC.description", "DC.identifier"]

/-- The rendering of each string field of `Meta`: skip-if-empty fields render as `strVal` (absent iff empty), required ones are always present. -/
def Meta.stringMembers (m : Meta) : Prop :=
  findVal "DC.conformsTo" m.jsonMembers = strVal m.conforms_to ∧
  findVal "DC.author" m.jsonMembers = strVal m.author ∧
  findVal "DC.created" m.jsonMembers = strVal m.created ∧
  findVal "DC.date" m.jsonMembers = strVal m.date ∧
  findVal "DC.source" m.jsonMembers = strVal m.source ∧
  findVal "DC.language" m.jsonMembers = strVal m.language ∧
  findVal "DC.creator" m.jsonMembers = strVal m.creator ∧
  findVal "DC.publisher" m.jsonMembers = strVal m.publisher ∧
  findVal "DC.title" m.jsonMembers = strVal m.title ∧
  findVal "DC.description" m.jsonMembers = strVal m.description ∧
  findVal "DC.identifier" m.jsonMembers = strVal m.identifier

/-- Proof of `Meta.stringMembers` for every value. -/
theorem Meta_stringMembers_holds (m : Meta) : m.stringMembers := by
  unfold Meta.stringMembers
  refine ⟨?_, ?_, ?_, ?_, ?_, ?_, ?_, ?_, ?_, ?_, ?_⟩ <;> simp [Meta.jsonMembers, strVal]

/-- A member whose key is not a schema field of `Meta` does not change the parse. -/
theorem Meta_fromJson_ignores_unknown (ms₁ ms₂ : List (String × Json)) (k : String) (v : Json)
    (hk : k ∉ Meta.wireKeys) :
    Meta.fromJson (.obj (ms₁ ++ (k, v) :: ms₂)) =
      Meta.fromJson (.obj (ms₁ ++ ms₂)) := by
  unfold Meta.wireKeys at hk
  simp only [List.mem_cons, List.not_mem_nil, or_false] at hk
  push_neg at hk
  obtain ⟨k1, k2, k3, k4, k5, k6, k7, k8, k9, k10, k11⟩ := hk
  rw [Meta.fromJson, Meta.fromJson]
  rw [show asObj (Json.obj (ms₁ ++ (k, v) :: ms₂)) = .ok (ms₁ ++ (k, v) :: ms₂) from rfl]
  rw [show asObj (Json.obj (ms₁ ++ ms₂)) = .ok (ms₁ ++ ms₂) from rfl]
  rw [ebind_ok, ebind_ok]
  rw [optF_insert_ne _ _ _ _ _ _ _ k1]
  rw [optF_insert_ne _ _ _ _ _ _ _ k2]
  rw [optF_insert_ne _ _ _ _ _ _ _ k3]
  rw [optF_insert_ne _ _ _ _ _ _ _ k4]
  rw [optF_insert_ne _ _ _ _ _ _ _ k5]
  rw [optF_insert_ne _ _ _ _ _ _ _ k6]
  rw [optF_insert_ne _ _ _ _ _ _ _ k7]
  rw [optF_insert_ne _ _ _ _ _ _ _ k8]
  rw [optF_insert_ne _ _ _ _ _ _ _ k9]
  rw [optF_insert_ne _ _ _ _ _ _ _ k10]
  rw [optF_insert_ne _ _ _ _ _ _ _ k11]

/-- The wire names of the schema fields of `TokenFeatures`. -/
def TokenFeatures.wireKeys : List String :=
  ["overt", "stop", "alpha", "number", "gender", "person", "tense", "perfect", "continuous", "progressive", "case", "human", "animate", "negated", "countable", "factive", "counterfactive", "irregular", "phrasalVerb", "mood", "foreign", "spaceAfter"]

/-- Every non-string field of `TokenFeatures` is rendered regardless of its value. -/
def TokenFeatures.alwaysMembers (t : TokenFeatures) : Prop :=
  findVal "overt" t.jsonMembers = some (Json.bool t.overt) ∧
  findVal "stop" t.jsonMembers = some (Json.bool t.stop) ∧
  findVal "alpha" t.jsonMembers = some (Json.bool t.alpha) ∧
  findVal "number" t.jsonMembers = some (jnat t.number) ∧
  findVal "person" t.jsonMembers = some (jnat t.person) ∧
  findVal "perfect" t.jsonMembers = some (Json.bool t.perfect) ∧
  findVal "continuous" t.jsonMembers = some (Json.bool t.continuous) ∧
  findVal "progressive" t.jsonMembers = some (Json.bool t.progressive) ∧
  findVal "human" t.jsonMembers = some (Json.bool t.human) ∧
  findVal "animate" t.jsonMembers = some (Json.bool t.animate) ∧
  findVal "negated" t.jsonMembers = some (Json.bool t.negated) ∧
  findVal "countable" t.jsonMembers = some (Json.bool t.countable) ∧
  findVal "factive" t.jsonMembers = some (Json.bool t.factive) ∧
  findVal "counterfactive" t.jsonMembers = some (Json.bool t.counterfactive) ∧
  findVal "irregular" t.jsonMembers = some (Json.bool t.irregular) ∧
  findVal "phrasalVerb" t.jsonMembers = some (Json.bool t.phrasalverb) ∧
  findVal "foreign" t.jsonMembers = some (Json.bool t.foreign) ∧
  findVal "spaceAfter" t.jsonMembers = some (Json.bool t.spaceafter)

/-- Proof of `TokenFeatures.alwaysMembers` for every value. -/
theorem TokenFeatures_alwaysMembers_holds (t : TokenFeatures) : t.alwaysMembers := by
  unfold TokenFeatures.alwaysMembers
  refine ⟨?_, ?_, ?_, ?_, ?_, ?_, ?_, ?_, ?_, ?_, ?_, ?_, ?_, ?_, ?_, ?_, ?_, ?_⟩ <;> simp [TokenFeatures.jsonMembers]

/-- The rendering of each string field of `TokenFeatures`: skip-if-empty fields render as `strVal` (absent iff empty), required ones are always present. -/
def TokenFeatures.stringMembers (t : TokenFeatures) : Prop :=
  findVal "gender" t.jsonMembers = strVal t.gender ∧
  findVal "tense" t.jsonMembers = strVal t.tense ∧
  findVal "case" t.jsonMembers = strVal t.«case» ∧
  findVal "mood" t.jsonMembers = strVal t.mood

/-- Proof of `TokenFeatures.stringMembers` for every value. -/
theorem TokenFeatures_stringMembers_holds (t : TokenFeatures) : t.stringMembers := by
  unfold TokenFeatures.stringMembers
  refine ⟨?_, ?_, ?_, ?_⟩ <;> simp [TokenFeatures.jsonMembers, strVal]

/-- A member whose key is not a schema field of `TokenFeatures` does not change the parse. -/
theorem TokenFeatures_fromJson_ignores_unknown (ms₁ ms₂ : List (String × Json)) (k : String) (v : Json)
    (hk : k ∉ TokenFeatures.wireKeys) :
    TokenFeatures.fromJson (.obj (ms₁ ++ (k, v) :: ms₂)) =
      TokenFeatures.fromJson (.obj (ms₁ ++ ms₂)) := by
  unfold TokenFeatures.wireKeys at hk
  simp only [List.mem_cons, List.not_mem_nil, or_false] at hk
  push_neg at hk
  obtain ⟨k1, k2, k3, k4, k5, k6, k7, k8, k9, k10, k11, k12, k13, k14, k15, k16, k17, k18, k19, k20, k21, k22⟩ := hk
  rw [TokenFeatures.fromJson, TokenFeatures.fromJson]
  rw [show asObj (Json.obj (ms₁ ++ (k, v) :: ms₂)) = .ok (ms₁ ++ (k, v) :: ms₂) from rfl]
  rw [show asObj (Json.obj (ms₁ ++ ms₂)) = .ok (ms₁ ++ ms₂) from rfl]
  rw [ebind_ok, ebind_ok]
  rw [optF_insert_ne _ _ _ _ _ _ _ k1]
  rw [optF_insert_ne _ _ _ _ _ _ _ k2]
  rw [optF_insert_ne _ _ _ _ _ _ _ k3]
  rw [optF_insert_ne _ _ _ _ _ _ _ k4]
  rw [optF_insert_ne _ _ _ _ _ _ _ k5]
  rw [optF_insert_ne _ _ _ _ _ _ _ k6]
  rw [optF_insert_ne _ _ _ _ _ _ _ k7]
  rw [optF_insert_ne _ _ _ _ _ _ _ k8]
  rw [optF_insert_ne _ _ _ _ _ _ _ k9]
  rw [optF_insert_ne _ _ _ _ _ _ _ k10]
  rw [optF_insert_ne _ _ _ _ _ _ _ k11]
  rw [optF_insert_ne _ _ _ _ _ _ _ k12]
  rw [optF_insert_ne _ _ _ _ _ _ _ k13]
  rw [optF_insert_ne _ _ _ _ _ _ _ k14]
  rw [optF_insert_ne _ _ _ _ _ _ _ k15]
  rw [optF_insert_ne _ _ _ _ _ _ _ k16]
  rw [optF_insert_ne _ _ _ _ _ _ _ k17]
  rw [optF_insert_ne _ _ _ _ _ _ _ k18]
  rw [optF_insert_ne _ _ _ _ _ _ _ k19]
  rw [optF_insert_ne _ _ _ _ _ _ _ k20]
  rw [optF_insert_ne _ _ _ _ _ _ _ k21]
  rw [optF_insert_ne _ _ _ _ _ _ _ k22]

/-- The wire names of the schema fields of `Token`. -/
def Token.wireKeys : List String :=
  ["id", "sentence_id", "text", "lemma", "xpos", "xpos_prob", "upos", "upos_prob", "entity_iob", "characterOffsetBegin", "characterOffsetEnd", "propID", "propIDProbability", "frameID", "frameIDProb", "wordNetID", "wordNetIDProb", "verbNetID", "verbNetIDProb", "lang", "features", "shape", "entity"]

/-- Every non-string field of `Token` is rendered regardless of its value. -/
def Token.alwaysMembers (t : Token) : Prop :=
  findVal "id" t.jsonMembers = some (jnat t.id) ∧
  findVal "sentence_id" t.jsonMembers = some (jnat t.sentence_id) ∧
  findVal "xpos_prob" t.jsonMembers = some (Json.num t.xpos_prob) ∧
  findVal "upos_prob" t.jsonMembers = some (Json.num t.upos_prob) ∧
  findVal "characterOffsetBegin" t.jsonMembers = some (jnat t.char_offset_begin) ∧
  findVal "characterOffsetEnd" t.jsonMembers = some (jnat t.char_offset_end) ∧
  findVal "propIDProbability" t.jsonMembers = some (Json.num t.prop_id_prob) ∧
  findVal "frameID" t.jsonMembers = some (jnat t.frame_id) ∧
  findVal "frameIDProb" t.jsonMembers = some (Json.num t.frame_id_prob) ∧
  findVal "wordNetID" t.jsonMembers = some (jnat t.wordnet_id) ∧
  findVal "wordNetIDProb" t.jsonMembers = some (Json.num t.wordnet_id_prob) ∧
  findVal "verbNetID" t.jsonMembers = some (jnat t.verbnet_id) ∧
  findVal "verbNetIDProb" t.jsonMembers = some (Json.num t.verbnet_id_prob) ∧
  findVal "features" t.jsonMembers = some (t.features.toJson)

/-- Proof of `Token.alwaysMembers` for every value. -/
theorem Token_alwaysMembers_holds (t : Token) : t.alwaysMembers := by
  unfold Token.alwaysMembers
  refine ⟨?_, ?_, ?_, ?_, ?_, ?_, ?_, ?_, ?_, ?_, ?_, ?_, ?_, ?_⟩ <;> simp [Token.jsonMembers]

/-- The rendering of each string field of `Token`: skip-if-empty fields render as `strVal` (absent iff empty), required ones are always present. -/
def Token.stringMembers (t : Token) : Prop :=
  findVal "text" t.jsonMembers = some (Json.str t.text) ∧
  findVal "lemma" t.jsonMembers = some (Json.str t.«lemma») ∧
  findVal "xpos" t.jsonMembers = strVal t.xpos ∧
  findVal "upos" t.jsonMembers = strVal t.upos ∧
  findVal "entity_iob" t.jsonMembers = strVal t.entity_iob ∧
  findVal "propID" t.jsonMembers = strVal t.prop_id ∧
  findVal "lang" t.jsonMembers = strVal t.lang ∧
  findVal "shape" t.jsonMembers = strVal t.shape ∧
  findVal "entity" t.jsonMembers = strVal t.entity

/-- Proof of `Token.stringMembers` for every value. -/
theorem Token_stringMembers_holds (t : Token) : t.stringMembers := by
  unfold Token.stringMembers
  refine ⟨?_, ?_, ?_, ?_, ?_, ?_, ?_, ?_, ?_⟩ <;> simp [Token.jsonMembers, strVal]

/-- A member whose key is not a schema field of `Token` does not change the parse. -/
theorem Token_fromJson_ignores_unknown (ms₁ ms₂ : List (String × Json)) (k : String) (v : Json)
    (hk : k ∉ Token.wireKeys) :
    Token.fromJson (.obj (ms₁ ++ (k, v) :: ms₂)) =
      Token.fromJson (.obj (ms₁ ++ ms₂)) := by
  unfold Token.wireKeys at hk
  simp only [List.mem_cons, List.not_mem_nil, or_false] at hk
  push_neg at hk
  obtain ⟨k1, k2, k3, k4, k5, k6, k7, k8, k9, k10, k11, k12, k13, k14, k15, k16, k17, k18, k19, k20, k21, k22, k23⟩ := hk
  rw [Token.fromJson, Token.fromJson]
  rw [show asObj (Json.obj (ms₁ ++ (k, v) :: ms₂)) = .ok (ms₁ ++ (k, v) :: ms₂) from rfl]
  rw [show asObj (Json.obj (ms₁ ++ ms₂)) = .ok (ms₁ ++ ms₂) from rfl]
  rw [ebind_ok, ebind_ok]
  rw [reqF_insert_ne _ _ _ _ _ _ k1]
  rw [reqF_insert_ne _ _ _ _ _ _ k2]
  rw [reqF_insert_ne _ _ _ _ _ _ k3]
  rw [reqF_insert_ne _ _ _ _ _ _ k4]
  rw [optF_insert_ne _ _ _ _ _ _ _ k5]
  rw [optF_insert_ne _ _ _ _ _ _ _ k6]
  rw [optF_insert_ne _ _ _ _ _ _ _ k7]
  rw [optF_insert_ne _ _ _ _ _ _ _ k8]
  rw [optF_insert_ne _ _ _ _ _ _ _ k9]
  rw [optF_insert_ne _ _ _ _ _ _ _ k10]
  rw [optF_insert_ne _ _ _ _ _ _ _ k11]
  rw [optF_insert_ne _ _ _ _ _ _ _ k12]
  rw [optF_insert_ne _ _ _ _ _ _ _ k13]
  rw [optF_insert_ne _ _ _ _ _ _ _ k14]
  rw [optF_insert_ne _ _ _ _ _ _ _ k15]
  rw [optF_insert_ne _ _ _ _ _ _ _ k16]
  rw [optF_insert_ne _ _ _ _ _ _ _ k17]
  rw [optF_insert_ne _ _ _ _ _ _ _ k18]
  rw [optF_insert_ne _ _ _ _ _ _ _ k19]
  rw [optF_insert_ne _ _ _ _ _ _ _ k20]
  rw [reqF_insert_ne _ _ _ _ _ _ k21]
  rw [optF_insert_ne _ _ _ _ _ _ _ k22]
  rw [optF_insert_ne _ _ _ _ _ _ _ k23]

/-- The wire names of the schema fields of `Sentence`. -/
def Sentence.wireKeys : List String :=
  ["id", "tokenFrom", "tokenTo", "tokens", "clauses", "type", "sentiment", "sentimentProb"]

/-- Every non-string field of `Sentence` is rendered regardless of its value. -/
def Sentence.alwaysMembers (s : Sentence) : Prop :=
  findVal "id" s.jsonMembers = some (jnat s.id) ∧
  findVal "tokenFrom" s.jsonMembers = some (jnat s.token_from) ∧
  findVal "tokenTo" s.jsonMembers = some (jnat s.token_to) ∧
  findVal "tokens" s.jsonMembers = some (jnats s.tokens) ∧
  findVal "clauses" s.jsonMembers = some (jnats s.clauses) ∧
  findVal "sentimentProb" s.jsonMembers = some (Json.num s.sentiment_prob)

/-- Proof of `Sentence.alwaysMembers` for every value. -/
theorem Sentence_alwaysMembers_holds (s : Sentence) : s.alwaysMembers := by
  unfold Sentence.alwaysMembers
  refine ⟨?_, ?_, ?_, ?_, ?_, ?_⟩ <;> simp [Sentence.jsonMembers]

/-- The rendering of each string field of `Sentence`: skip-if-empty fields render as `strVal` (absent iff empty), required ones are always present. -/
def Sentence.stringMembers (s : Sentence) : Prop :=
  findVal "type" s.jsonMembers = strVal s.stype ∧
  findVal "sentiment" s.jsonMembers = strVal s.sentiment

/-- Proof of `Sentence.stringMembers` for every value. -/
theorem Sentence_stringMembers_holds (s : Sentence) : s.stringMembers := by
  unfold Sentence.stringMembers
  refine ⟨?_, ?_⟩ <;> simp [Sentence.jsonMembers, strVal]

/-- A member whose key is not a schema field of `Sentence` does not change the parse. -/
theorem Sentence_fromJson_ignores_unknown (ms₁ ms₂ : List (String × Json)) (k : String) (v : Json)
    (hk : k ∉ Sentence.wireKeys) :
    Sentence.fromJson (.obj (ms₁ ++ (k, v) :: ms₂)) =
      Sentence.fromJson (.obj (ms₁ ++ ms₂)) := by
  unfold Sentence.wireKeys at hk
  simp only [List.mem_cons, List.not_mem_nil, or_false] at hk
  push_neg at hk
  obtain ⟨k1, k2, k3, k4, k5, k6, k7, k8⟩ := hk
  rw [Sentence.fromJson, Sentence.fromJson]
  rw [show asObj (Json.obj (ms₁ ++ (k, v) :: ms₂)) = .ok (ms₁ ++ (k, v) :: ms₂) from rfl]
  rw [show asObj (Json.obj (ms₁ ++ ms₂)) = .ok (ms₁ ++ ms₂) from rfl]
  rw [ebind_ok, ebind_ok]
  rw [reqF_insert_ne _ _ _ _ _ _ k1]
  rw [optF_insert_ne _ _ _ _ _ _ _ k2]
  rw [optF_insert_ne _ _ _ _ _ _ _ k3]
  rw [optF_insert_ne _ _ _ _ _ _ _ k4]
  rw [optF_insert_ne _ _ _ _ _ _ _ k5]
  rw [optF_insert_ne _ _ _ _ _ _ _ k6]
  rw [optF_insert_ne _ _ _ _ _ _ _ k7]
  rw [optF_insert_ne _ _ _ _ _ _ _ k8]

/-- The wire names of the schema fields of `Clause`. -/
def Clause.wireKeys : List String :=
  ["id", "sentenceId", "tokenFrom", "tokenTo", "tokens", "main", "gov", "head", "neg", "tense", "mood", "perfect", "continuous", "aspect", "voice", "sentiment", "sentimentProb"]

/-- Every non-string field of `Clause` is rendered regardless of its value. -/
def Clause.alwaysMembers (c : Clause) : Prop :=
  findVal "id" c.jsonMembers = some (jnat c.id) ∧
  findVal "sentenceId" c.jsonMembers = some (jnat c.sentence_id) ∧
  findVal "tokenFrom" c.jsonMembers = some (jnat c.token_from) ∧
  findVal "tokenTo" c.jsonMembers = some (jnat c.token_to) ∧
  findVal "tokens" c.jsonMembers = some (jnats c.tokens) ∧
  findVal "main" c.jsonMembers = some (Json.bool c.main) ∧
  findVal "gov" c.jsonMembers = some (jnat c.gov) ∧
  findVal "head" c.jsonMembers = some (jnat c.head) ∧
  findVal "neg" c.jsonMembers = some (Json.bool c.neg) ∧
  findVal "perfect" c.jsonMembers = some (Json.bool c.perfect) ∧
  findVal "continuous" c.jsonMembers = some (Json.bool c.continuous) ∧
  findVal "sentimentProb" c.jsonMembers = some (Json.num c.sentiment_prob)

/-- Proof of `Clause.alwaysMembers` for every value. -/
theorem Clause_alwaysMembers_holds (c : Clause) : c.alwaysMembers := by
  unfold Clause.alwaysMembers
  refine ⟨?_, ?_, ?_, ?_, ?_, ?_, ?_, ?_, ?_, ?_, ?_, ?_⟩ <;> simp [Clause.jsonMembers]

/-- The rendering of each string field of `Clause`: skip-if-empty fields render as `strVal` (absent iff empty), required ones are always present. -/
def Clause.stringMembers (c : Clause) : Prop :=
  findVal "tense" c.jsonMembers = strVal c.tense ∧
  findVal "mood" c.jsonMembers = strVal c.mood ∧
  findVal "aspect" c.jsonMembers = strVal c.aspect ∧
  findVal "voice" c.jsonMembers = strVal c.voice ∧
  findVal "sentiment" c.jsonMembers = strVal c.sentiment

/-- Proof of `Clause.stringMembers` for every value. -/
theorem Clause_stringMembers_holds (c : Clause) : c.stringMembers := by
  unfold Clause.stringMembers
  refine ⟨?_, ?_, ?_, ?_, ?_⟩ <;> simp [Clause.jsonMembers, strVal]

/-- A member whose key is not a schema field of `Clause` does not change the parse. -/
theorem Clause_fromJson_ignores_unknown (ms₁ ms₂ : List (String × Json)) (k : String) (v : Json)
    (hk : k ∉ Clause.wireKeys) :
    Clause.fromJson (.obj (ms₁ ++ (k, v) :: ms₂)) =
      Clause.fromJson (.obj (ms₁ ++ ms₂)) := by
  unfold Clause.wireKeys at hk
  simp only [List.mem_cons, List.not_mem_nil, or_false] at hk
  push_neg at hk
  obtain ⟨k1, k2, k3, k4, k5, k6, k7, k8, k9, k10, k11, k12, k13, k14, k15, k16, k17⟩ := hk
  rw [Clause.fromJson, Clause.fromJson]
  rw [show asObj (Json.obj (ms₁ ++ (k, v) :: ms₂)) = .ok (ms₁ ++ (k, v) :: ms₂) from rfl]
  rw [show asObj (Json.obj (ms₁ ++ ms₂)) = .ok (ms₁ ++ ms₂) from rfl]
  rw [ebind_ok, ebind_ok]
  rw [reqF_insert_ne _ _ _ _ _ _ k1]
  rw [optF_insert_ne _ _ _ _ _ _ _ k2]
  rw [optF_insert_ne _ _ _ _ _ _ _ k3]
  rw [optF_insert_ne _ _ _ _ _ _ _ k4]
  rw [optF_insert_ne _ _ _ _ _ _ _ k5]
  rw [optF_insert_ne _ _ _ _ _ _ _ k6]
  rw [optF_insert_ne _ _ _ _ _ _ _ k7]
  rw [optF_insert_ne _ _ _ _ _ _ _ k8]
  rw [optF_insert_ne _ _ _ _ _ _ _ k9]
  rw [optF_insert_ne _ _ _ _ _ _ _ k10]
  rw [optF_insert_ne _ _ _ _ _ _ _ k11]
  rw [optF_insert_ne _ _ _ _ _ _ _ k12]
  rw [optF_insert_ne _ _ _ _ _ _ _ k13]
  rw [optF_insert_ne _ _ _ _ _ _ _ k14]
  rw [optF_insert_ne _ _ _ _ _ _ _ k15]
  rw [optF_insert_ne _ _ _ _ _ _ _ k16]
  rw [optF_insert_ne _ _ _ _ _ _ _ k17]

/-- The wire names of the schema fields of `Dependency`. -/
def Dependency.wireKeys : List String :=
  ["lab", "gov", "dep", "prob"]

/-- Every non-string field of `Dependency` is rendered regardless of its value. -/
def Dependency.alwaysMembers (d : Dependency) : Prop :=
  findVal "gov" d.jsonMembers = some (jnat d.gov) ∧
  findVal "dep" d.jsonMembers = some (jnat d.dep) ∧
  findVal "prob" d.jsonMembers = some (Json.num d.prob)

/-- Proof of `Dependency.alwaysMembers` for every value. -/
theorem Dependency_alwaysMembers_holds (d : Dependency) : d.alwaysMembers := by
  unfold Dependency.alwaysMembers
  refine ⟨?_, ?_, ?_⟩ <;> simp [Dependency.jsonMembers]

/-- The rendering of each string field of `Dependency`: skip-if-empty fields render as `strVal` (absent iff empty), required ones are always present. -/
def Dependency.stringMembers (d : Dependency) : Prop :=
  findVal "lab" d.jsonMembers = some (Json.str d.lab)

/-- Proof of `Dependency.stringMembers` for every value. -/
theorem Dependency_stringMembers_holds (d : Dependency) : d.stringMembers := by
  unfold Dependency.stringMembers
  simp [Dependency.jsonMembers, strVal]

/-- A member whose key is not a schema field of `Dependency` does not change the parse. -/
theorem Dependency_fromJson_ignores_unknown (ms₁ ms₂ : List (String × Json)) (k : String) (v : Json)
    (hk : k ∉ Dependency.wireKeys) :
    Dependency.fromJson (.obj (ms₁ ++ (k, v) :: ms₂)) =
      Dependency.fromJson (.obj (ms₁ ++ ms₂)) := by
  unfold Dependency.wireKeys at hk
  simp only [List.mem_cons, List.not_mem_nil, or_false] at hk
  push_neg at hk
  obtain ⟨k1, k2, k3, k4⟩ := hk
  rw [Dependency.fromJson, Dependency.fromJson]
  rw [show asObj (Json.obj (ms₁ ++ (k, v) :: ms₂)) = .ok (ms₁ ++ (k, v) :: ms₂) from rfl]
  rw [show asObj (Json.obj (ms₁ ++ ms₂)) = .ok (ms₁ ++ ms₂) from rfl]
  rw [ebind_ok, ebind_ok]
  rw [reqF_insert_ne _ _ _ _ _ _ k1]
  rw [reqF_insert_ne _ _ _ _ _ _ k2]
  rw [reqF_insert_ne _ _ _ _ _ _ k3]
  rw [optF_insert_ne _ _ _ _ _ _ _ k4]

/-- The wire names of the schema fields of `DependencyTree`. -/
def DependencyTree.wireKeys : List String :=
  ["sentenceId", "style", "dependencies", "prob"]

/-- Every non-string field of `DependencyTree` is rendered regardless of its value. -/
def DependencyTree.alwaysMembers (d : DependencyTree) : Prop :=
  findVal "sentenceId" d.jsonMembers = some (jnat d.sentence_id) ∧
  findVal "dependencies" d.jsonMembers = some (Json.arr (d.dependencies.map Dependency.toJson)) ∧
  findVal "prob" d.jsonMembers = some (Json.num d.prob)

/-- Proof of `DependencyTree.alwaysMembers` for every value. -/
theorem DependencyTree_alwaysMembers_holds (d : DependencyTree) : d.alwaysMembers := by
  unfold DependencyTree.alwaysMembers
  refine ⟨?_, ?_, ?_⟩ <;> simp [DependencyTree.jsonMembers]

/-- The rendering of each string field of `DependencyTree`: skip-if-empty fields render as `strVal` (absent iff empty), required ones are always present. -/
def DependencyTree.stringMembers (d : DependencyTree) : Prop :=
  findVal "style" d.jsonMembers = strVal d.style

/-- Proof of `DependencyTree.stringMembers` for every value. -/
theorem DependencyTree_stringMembers_holds (d : DependencyTree) : d.stringMembers := by
  unfold DependencyTree.stringMembers
  simp [DependencyTree.jsonMembers, strVal]

/-- A member whose key is not a schema field of `DependencyTree` does not change the parse. -/
theorem DependencyTree_fromJson_ignores_unknown (ms₁ ms₂ : List (String × Json)) (k : String) (v : Json)
    (hk : k ∉ DependencyTree.wireKeys) :
    DependencyTree.fromJson (.obj (ms₁ ++ (k, v) :: ms₂)) =
      DependencyTree.fromJson (.obj (ms₁ ++ ms₂)) := by
  unfold DependencyTree.wireKeys at hk
  simp only [List.mem_cons, List.not_mem_nil, or_false] at hk
  push_neg at hk
  obtain ⟨k1, k2, k3, k4⟩ := hk
  rw [DependencyTree.fromJson, DependencyTree.fromJson]
  rw [show asObj (Json.obj (ms₁ ++ (k, v) :: ms₂)) = .ok (ms₁ ++ (k, v) :: ms₂) from rfl]
  rw [show asObj (Json.obj (ms₁ ++ ms₂)) = .ok (ms₁ ++ ms₂) from rfl]
  rw [ebind_ok, ebind_ok]
  rw [optF_insert_ne _ _ _ _ _ _ _ k1]
  rw [optF_insert_ne _ _ _ _ _ _ _ k2]
  rw [optF_insert_ne _ _ _ _ _ _ _ k3]
  rw [optF_insert_ne _ _ _ _ _ _ _ k4]

/-- The wire names of the schema fields of `CoreferenceRepresentantive`. -/
def CoreferenceRepresentantive.wireKeys : List String :=
  ["tokens", "head"]

/-- Every non-string field of `CoreferenceRepresentantive` is rendered regardless of its value. -/
def CoreferenceRepresentantive.alwaysMembers (c : CoreferenceRepresentantive) : Prop :=
  findVal "tokens" c.jsonMembers = some (jnats c.tokens) ∧
  findVal "head" c.jsonMembers = some (jnat c.head)

/-- Proof of `CoreferenceRepresentantive.alwaysMembers` for every value. -/
theorem CoreferenceRepresentantive_alwaysMembers_holds (c : CoreferenceRepresentantive) : c.alwaysMembers := by
  unfold CoreferenceRepresentantive.alwaysMembers
  refine ⟨?_, ?_⟩ <;> simp [CoreferenceRepresentantive.jsonMembers]

/-- A member whose key is not a schema field of `CoreferenceRepresentantive` does not change the parse. -/
theorem CoreferenceRepresentantive_fromJson_ignores_unknown (ms₁ ms₂ : List (String × Json)) (k : String) (v : Json)
    (hk : k ∉ CoreferenceRepresentantive.wireKeys) :
    CoreferenceRepresentantive.fromJson (.obj (ms₁ ++ (k, v) :: ms₂)) =
      CoreferenceRepresentantive.fromJson (.obj (ms₁ ++ ms₂)) := by
  unfold CoreferenceRepresentantive.wireKeys at hk
  simp only [List.mem_cons, List.not_mem_nil, or_false] at hk
  push_neg at hk
  obtain ⟨k1, k2⟩ := hk
  rw [CoreferenceRepresentantive.fromJson, CoreferenceRepresentantive.fromJson]
  rw [show asObj (Json.obj (ms₁ ++ (k, v) :: ms₂)) = .ok (ms₁ ++ (k, v) :: ms₂) from rfl]
  rw [show asObj (Json.obj (ms₁ ++ ms₂)) = .ok (ms₁ ++ ms₂) from rfl]
  rw [ebind_ok, ebind_ok]
  rw [reqF_insert_ne _ _ _ _ _ _ k1]
  rw [reqF_insert_ne _ _ _ _ _ _ k2]

/-- The wire names of the schema fields of `CoreferenceReferents`. -/
def CoreferenceReferents.wireKeys : List String :=
  ["tokens", "head", "prob"]

/-- Every non-string field of `CoreferenceReferents` is rendered regardless of its value. -/
def CoreferenceReferents.alwaysMembers (c : CoreferenceReferents) : Prop :=
  findVal "tokens" c.jsonMembers = some (jnats c.tokens) ∧
  findVal "head" c.jsonMembers = some (jnat c.head) ∧
  findVal "prob" c.jsonMembers = some (Json.num c.prob)

/-- Proof of `CoreferenceReferents.alwaysMembers` for every value. -/
theorem CoreferenceReferents_alwaysMembers_holds (c : CoreferenceReferents) : c.alwaysMembers := by
  unfold CoreferenceReferents.alwaysMembers
  refine ⟨?_, ?_, ?_⟩ <;> simp [CoreferenceReferents.jsonMembers]

/-- A member whose key is not a schema field of `CoreferenceReferents` does not change the parse. -/
theorem CoreferenceReferents_fromJson_ignores_unknown (ms₁ ms₂ : List (String × Json)) (k : String) (v : Json)
    (hk : k ∉ CoreferenceReferents.wireKeys) :
    CoreferenceReferents.fromJson (.obj (ms₁ ++ (k, v) :: ms₂)) =
      CoreferenceReferents.fromJson (.obj (ms₁ ++ ms₂)) := by
  unfold CoreferenceReferents.wireKeys at hk
  simp only [List.mem_cons, List.not_mem_nil, or_false] at hk
  push_neg at hk
  obtain ⟨k1, k2, k3⟩ := hk
  rw [CoreferenceReferents.fromJson, CoreferenceReferents.fromJson]
  rw [show asObj (Json.obj (ms₁ ++ (k, v) :: ms₂)) = .ok (ms₁ ++ (k, v) :: ms₂) from rfl]
  rw [show asObj (Json.obj (ms₁ ++ ms₂)) = .ok (ms₁ ++ ms₂) from rfl]
  rw [ebind_ok, ebind_ok]
  rw [reqF_insert_ne _ _ _ _ _ _ k1]
  rw [reqF_insert_ne _ _ _ _ _ _ k2]
  rw [optF_insert_ne _ _ _ _ _ _ _ k3]

/-- The wire names of the schema fields of `Coreference`. -/
def Coreference.wireKeys : List String :=
  ["id", "representative", "referents"]

/-- Every non-string field of `Coreference` is rendered regardless of its value. -/
def Coreference.alwaysMembers (c : Coreference) : Prop :=
  findVal "id" c.jsonMembers = some (jnat c.id) ∧
  findVal "representative" c.jsonMembers = some (c.representative.toJson) ∧
  findVal "referents" c.jsonMembers = some (Json.arr (c.referents.map CoreferenceReferents.toJson))

/-- Proof of `Coreference.alwaysMembers` for every value. -/
theorem Coreference_alwaysMembers_holds (c : Coreference) : c.alwaysMembers := by
  unfold Coreference.alwaysMembers
  refine ⟨?_, ?_, ?_⟩ <;> simp [Coreference.jsonMembers]

/-- A member whose key is not a schema field of `Coreference` does not change the parse. -/
theorem Coreference_fromJson_ignores_unknown (ms₁ ms₂ : List (String × Json)) (k : String) (v : Json)
    (hk : k ∉ Coreference.wireKeys) :
    Coreference.fromJson (.obj (ms₁ ++ (k, v) :: ms₂)) =
      Coreference.fromJson (.obj (ms₁ ++ ms₂)) := by
  unfold Coreference.wireKeys at hk
  simp only [List.mem_cons, List.not_mem_nil, or_false] at hk
  push_neg at hk
  obtain ⟨k1, k2, k3⟩ := hk
  rw [Coreference.fromJson, Coreference.fromJson]
  rw [show asObj (Json.obj (ms₁ ++ (k, v) :: ms₂)) = .ok (ms₁ ++ (k, v) :: ms₂) from rfl]
  rw [show asObj (Json.obj (ms₁ ++ ms₂)) = .ok (ms₁ ++ ms₂) from rfl]
  rw [ebind_ok, ebind_ok]
  rw [reqF_insert_ne _ _ _ _ _ _ k1]
  rw [reqF_insert_ne _ _ _ _ _ _ k2]
  rw [reqF_insert_ne _ _ _ _ _ _ k3]

/-- The wire names of the schema fields of `Scope`. -/
def Scope.wireKeys : List String :=
  ["id", "gov", "dep", "terminals"]

/-- Every non-string field of `Scope` is rendered regardless of its value. -/
def Scope.alwaysMembers (s : Scope) : Prop :=
  findVal "id" s.jsonMembers = some (jnat s.id) ∧
  findVal "gov" s.jsonMembers = some (jnats s.gov) ∧
  findVal "dep" s.jsonMembers = some (jnats s.dep) ∧
  findVal "terminals" s.jsonMembers = some (jnats s.terminals)

/-- Proof of `Scope.alwaysMembers` for every value. -/
theorem Scope_alwaysMembers_holds (s : Scope) : s.alwaysMembers := by
  unfold Scope.alwaysMembers
  refine ⟨?_, ?_, ?_, ?_⟩ <;> simp [Scope.jsonMembers]

/-- A member whose key is not a schema field of `Scope` does not change the parse. -/
theorem Scope_fromJson_ignores_unknown (ms₁ ms₂ : List (String × Json)) (k : String) (v : Json)
    (hk : k ∉ Scope.wireKeys) :
    Scope.fromJson (.obj (ms₁ ++ (k, v) :: ms₂)) =
      Scope.fromJson (.obj (ms₁ ++ ms₂)) := by
  unfold Scope.wireKeys at hk
  simp only [List.mem_cons, List.not_mem_nil, or_false] at hk
  push_neg at hk
  obtain ⟨k1, k2, k3, k4⟩ := hk
  rw [Scope.fromJson, Scope.fromJson]
  rw [show asObj (Json.obj (ms₁ ++ (k, v) :: ms₂)) = .ok (ms₁ ++ (k, v) :: ms₂) from rfl]
  rw [show asObj (Json.obj (ms₁ ++ ms₂)) = .ok (ms₁ ++ ms₂) from rfl]
  rw [ebind_ok, ebind_ok]
  rw [reqF_insert_ne _ _ _ _ _ _ k1]
  rw [reqF_insert_ne _ _ _ _ _ _ k2]
  rw [reqF_insert_ne _ _ _ _ _ _ k3]
  rw [reqF_insert_ne _ _ _ _ _ _ k4]

/-- The wire names of the schema fields of `ConstituentParse`. -/
def ConstituentParse.wireKeys : List String :=
  ["sentenceId", "type", "labeledBracketing", "prob", "scopes"]

/-- Every non-string field of `ConstituentParse` is rendered regardless of its value. -/
def ConstituentParse.alwaysMembers (c : ConstituentParse) : Prop :=
  findVal "sentenceId" c.jsonMembers = some (jnat c.sentence_id) ∧
  findVal "prob" c.jsonMembers = some (Json.num c.prob) ∧
  findVal "scopes" c.jsonMembers = some (Json.arr (c.scopes.map Scope.toJson))

/-- Proof of `ConstituentParse.alwaysMembers` for every value. -/
theorem ConstituentParse_alwaysMembers_holds (c : ConstituentParse) : c.alwaysMembers := by
  unfold ConstituentParse.alwaysMembers
  refine ⟨?_, ?_, ?_⟩ <;> simp [ConstituentParse.jsonMembers]

/-- The rendering of each string field of `ConstituentParse`: skip-if-empty fields render as `strVal` (absent iff empty), required ones are always present. -/
def ConstituentParse.stringMembers (c : ConstituentParse) : Prop :=
  findVal "type" c.jsonMembers = strVal c.ctype ∧
  findVal "labeledBracketing" c.jsonMembers = strVal c.labeled_bracketing

/-- Proof of `ConstituentParse.stringMembers` for every value. -/
theorem ConstituentParse_stringMembers_holds (c : ConstituentParse) : c.stringMembers := by
  unfold ConstituentParse.stringMembers
  refine ⟨?_, ?_⟩ <;> simp [ConstituentParse.jsonMembers, strVal]

/-- A member whose key is not a schema field of `ConstituentParse` does not change the parse. -/
theorem ConstituentParse_fromJson_ignores_unknown (ms₁ ms₂ : List (String × Json)) (k : String) (v : Json)
    (hk : k ∉ ConstituentParse.wireKeys) :
    ConstituentParse.fromJson (.obj (ms₁ ++ (k, v) :: ms₂)) =
      ConstituentParse.fromJson (.obj (ms₁ ++ ms₂)) := by
  unfold ConstituentParse.wireKeys at hk
  simp only [List.mem_cons, List.not_mem_nil, or_false] at hk
  push_neg at hk
  obtain ⟨k1, k2, k3, k4, k5⟩ := hk
  rw [ConstituentParse.fromJson, ConstituentParse.fromJson]
  rw [show asObj (Json.obj (ms₁ ++ (k, v) :: ms₂)) = .ok (ms₁ ++ (k, v) :: ms₂) from rfl]
  rw [show asObj (Json.obj (ms₁ ++ ms₂)) = .ok (ms₁ ++ ms₂) from rfl]
  rw [ebind_ok, ebind_ok]
  rw [reqF_insert_ne _ _ _ _ _ _ k1]
  rw [optF_insert_ne _ _ _ _ _ _ _ k2]
  rw [optF_insert_ne _ _ _ _ _ _ _ k3]
  rw [optF_insert_ne _ _ _ _ _ _ _ k4]
  rw [optF_insert_ne _ _ _ _ _ _ _ k5]

/-- The wire names of the schema fields of `Expression`. -/
def Expression.wireKeys : List String :=
  ["id", "type", "head", "dependency", "tokenFrom", "tokenTo", "tokens", "prob"]

/-- Every non-string field of `Expression` is rendered regardless of its value. -/
def Expression.alwaysMembers (e : Expression) : Prop :=
  findVal "id" e.jsonMembers = some (jnat e.id) ∧
  findVal "head" e.jsonMembers = some (jnat e.head) ∧
  findVal "tokenFrom" e.jsonMembers = some (jnat e.token_from) ∧
  findVal "tokenTo" e.jsonMembers = some (jnat e.token_to) ∧
  findVal "tokens" e.jsonMembers = some (jnats e.tokens) ∧
  findVal "prob" e.jsonMembers = some (Json.num e.prob)

/-- Proof of `Expression.alwaysMembers` for every value. -/
theorem Expression_alwaysMembers_holds (e : Expression) : e.alwaysMembers := by
  unfold Expression.alwaysMembers
  refine ⟨?_, ?_, ?_, ?_, ?_, ?_⟩ <;> simp [Expression.jsonMembers]

/-- The rendering of each string field of `Expression`: skip-if-empty fields render as `strVal` (absent iff empty), required ones are always present. -/
def Expression.stringMembers (e : Expression) : Prop :=
  findVal "type" e.jsonMembers = strVal e.etype ∧
  findVal "dependency" e.jsonMembers = strVal e.dependency

/-- Proof of `Expression.stringMembers` for every value. -/
theorem Expression_stringMembers_holds (e : Expression) : e.stringMembers := by
  unfold Expression.stringMembers
  refine ⟨?_, ?_⟩ <;> simp [Expression.jsonMembers, strVal]

/-- A member whose key is not a schema field of `Expression` does not change the parse. -/
theorem Expression_fromJson_ignores_unknown (ms₁ ms₂ : List (String × Json)) (k : String) (v : Json)
    (hk : k ∉ Expression.wireKeys) :
    Expression.fromJson (.obj (ms₁ ++ (k, v) :: ms₂)) =
      Expression.fromJson (.obj (ms₁ ++ ms₂)) := by
  unfold Expression.wireKeys at hk
  simp only [List.mem_cons, List.not_mem_nil, or_false] at hk
  push_neg at hk
  obtain ⟨k1, k2, k3, k4, k5, k6, k7, k8⟩ := hk
  rw [Expression.fromJson, Expression.fromJson]
  rw [show asObj (Json.obj (ms₁ ++ (k, v) :: ms₂)) = .ok (ms₁ ++ (k, v) :: ms₂) from rfl]
  rw [show asObj (Json.obj (ms₁ ++ ms₂)) = .ok (ms₁ ++ ms₂) from rfl]
  rw [ebind_ok, ebind_ok]
  rw [reqF_insert_ne _ _ _ _ _ _ k1]
  rw [optF_insert_ne _ _ _ _ _ _ _ k2]
  rw [optF_insert_ne _ _ _ _ _ _ _ k3]
  rw [optF_insert_ne _ _ _ _ _ _ _ k4]
  rw [optF_insert_ne _ _ _ _ _ _ _ k5]
  rw [optF_insert_ne _ _ _ _ _ _ _ k6]
  rw [optF_insert_ne _ _ _ _ _ _ _ k7]
  rw [optF_insert_ne _ _ _ _ _ _ _ k8]

/-- The wire names of the schema fields of `Paragraph`. -/
def Paragraph.wireKeys : List String :=
  ["id", "tokenFrom", "tokenTo", "tokens", "sentences"]

/-- Every non-string field of `Paragraph` is rendered regardless of its value. -/
def Paragraph.alwaysMembers (p : Paragraph) : Prop :=
  findVal "id" p.jsonMembers = some (jnat p.id) ∧
  findVal "tokenFrom" p.jsonMembers = some (jnat p.token_from) ∧
  findVal "tokenTo" p.jsonMembers = some (jnat p.token_to) ∧
  findVal "tokens" p.jsonMembers = some (jnats p.tokens) ∧
  findVal "sentences" p.jsonMembers = some (jnats p.sentences)

/-- Proof of `Paragraph.alwaysMembers` for every value. -/
theorem Paragraph_alwaysMembers_holds (p : Paragraph) : p.alwaysMembers := by
  unfold Paragraph.alwaysMembers
  refine ⟨?_, ?_, ?_, ?_, ?_⟩ <;> simp [Paragraph.jsonMembers]

/-- A member whose key is not a schema field of `Paragraph` does not change the parse. -/
theorem Paragraph_fromJson_ignores_unknown (ms₁ ms₂ : List (String × Json)) (k : String) (v : Json)
    (hk : k ∉ Paragraph.wireKeys) :
    Paragraph.fromJson (.obj (ms₁ ++ (k, v) :: ms₂)) =
      Paragraph.fromJson (.obj (ms₁ ++ ms₂)) := by
  unfold Paragraph.wireKeys at hk
  simp only [List.mem_cons, List.not_mem_nil, or_false] at hk
  push_neg at hk
  obtain ⟨k1, k2, k3, k4, k5⟩ := hk
  rw [Paragraph.fromJson, Paragraph.fromJson]
  rw [show asObj (Json.obj (ms₁ ++ (k, v) :: ms₂)) = .ok (ms₁ ++ (k, v) :: ms₂) from rfl]
  rw [show asObj (Json.obj (ms₁ ++ ms₂)) = .ok (ms₁ ++ ms₂) from rfl]
  rw [ebind_ok, ebind_ok]
  rw [reqF_insert_ne _ _ _ _ _ _ k1]
  rw [optF_insert_ne _ _ _ _ _ _ _ k2]
  rw [optF_insert_ne _ _ _ _ _ _ _ k3]
  rw [optF_insert_ne _ _ _ _ _ _ _ k4]
  rw [optF_insert_ne _ _ _ _ _ _ _ k5]

/-- The wire names of the schema fields of `Attribute`. -/
def Attribute.wireKeys : List String :=
  ["lab", "val"]

/-- The rendering of each string field of `Attribute`: skip-if-empty fields render as `strVal` (absent iff empty), required ones are always present. -/
def Attribute.stringMembers (a : Attribute) : Prop :=
  findVal "lab" a.jsonMembers = some (Json.str a.lab) ∧
  findVal "val" a.jsonMembers = some (Json.str a.val)

/-- Proof of `Attribute.stringMembers` for every value. -/
theorem Attribute_stringMembers_holds (a : Attribute) : a.stringMembers := by
  unfold Attribute.stringMembers
  refine ⟨?_, ?_⟩ <;> simp [Attribute.jsonMembers, strVal]

/-- A member whose key is not a schema field of `Attribute` does not change the parse. -/
theorem Attribute_fromJson_ignores_unknown (ms₁ ms₂ : List (String × Json)) (k : String) (v : Json)
    (hk : k ∉ Attribute.wireKeys) :
    Attribute.fromJson (.obj (ms₁ ++ (k, v) :: ms₂)) =
      Attribute.fromJson (.obj (ms₁ ++ ms₂)) := by
  unfold Attribute.wireKeys at hk
  simp only [List.mem_cons, List.not_mem_nil, or_false] at hk
  push_neg at hk
  obtain ⟨k1, k2⟩ := hk
  rw [Attribute.fromJson, Attribute.fromJson]
  rw [show asObj (Json.obj (ms₁ ++ (k, v) :: ms₂)) = .ok (ms₁ ++ (k, v) :: ms₂) from rfl]
  rw [show asObj (Json.obj (ms₁ ++ ms₂)) = .ok (ms₁ ++ ms₂) from rfl]
  rw [ebind_ok, ebind_ok]
  rw [reqF_insert_ne _ _ _ _ _ _ k1]
  rw [reqF_insert_ne _ _ _ _ _ _ k2]

/-- The wire names of the schema fields of `Entity`. -/
def Entity.wireKeys : List String :=
  ["id", "label", "type", "url", "head", "tokenFrom", "tokenTo", "tokens", "tripleID", "sentiment", "sentimentProb", "count", "attributes"]

/-- Every non-string field of `Entity` is rendered regardless of its value. -/
def Entity.alwaysMembers (e : Entity) : Prop :=
  findVal "id" e.jsonMembers = some (jnat e.id) ∧
  findVal "head" e.jsonMembers = some (jnat e.head) ∧
  findVal "tokenFrom" e.jsonMembers = some (jnat e.token_from) ∧
  findVal "tokenTo" e.jsonMembers = some (jnat e.token_to) ∧
  findVal "tokens" e.jsonMembers = some (jnats e.tokens) ∧
  findVal "tripleID" e.jsonMembers = some (jnat e.triple_id) ∧
  findVal "sentimentProb" e.jsonMembers = some (Json.num e.sentiment_prob) ∧
  findVal "count" e.jsonMembers = some (jnat e.count) ∧
  findVal "attributes" e.jsonMembers = some (Json.arr (e.attributes.map Attribute.toJson))

/-- Proof of `Entity.alwaysMembers` for every value. -/
theorem Entity_alwaysMembers_holds (e : Entity) : e.alwaysMembers := by
  unfold Entity.alwaysMembers
  refine ⟨?_, ?_, ?_, ?_, ?_, ?_, ?_, ?_, ?_⟩ <;> simp [Entity.jsonMembers]

/-- The rendering of each string field of `Entity`: skip-if-empty fields render as `strVal` (absent iff empty), required ones are always present. -/
def Entity.stringMembers (e : Entity) : Prop :=
  findVal "label" e.jsonMembers = strVal e.label ∧
  findVal "type" e.jsonMembers = strVal e.etype ∧
  findVal "url" e.jsonMembers = strVal e.url ∧
  findVal "sentiment" e.jsonMembers = strVal e.sentiment

/-- Proof of `Entity.stringMembers` for every value. -/
theorem Entity_stringMembers_holds (e : Entity) : e.stringMembers := by
  unfold Entity.stringMembers
  refine ⟨?_, ?_, ?_, ?_⟩ <;> simp [Entity.jsonMembers, strVal]

/-- A member whose key is not a schema field of `Entity` does not change the parse. -/
theorem Entity_fromJson_ignores_unknown (ms₁ ms₂ : List (String × Json)) (k : String) (v : Json)
    (hk : k ∉ Entity.wireKeys) :
    Entity.fromJson (.obj (ms₁ ++ (k, v) :: ms₂)) =
      Entity.fromJson (.obj (ms₁ ++ ms₂)) := by
  unfold Entity.wireKeys at hk
  simp only [List.mem_cons, List.not_mem_nil, or_false] at hk
  push_neg at hk
  obtain ⟨k1, k2, k3, k4, k5, k6, k7, k8, k9, k10, k11, k12, k13⟩ := hk
  rw [Entity.fromJson, Entity.fromJson]
  rw [show asObj (Json.obj (ms₁ ++ (k, v) :: ms₂)) = .ok (ms₁ ++ (k, v) :: ms₂) from rfl]
  rw [show asObj (Json.obj (ms₁ ++ ms₂)) = .ok (ms₁ ++ ms₂) from rfl]
  rw [ebind_ok, ebind_ok]
  rw [reqF_insert_ne _ _ _ _ _ _ k1]
  rw [optF_insert_ne _ _ _ _ _ _ _ k2]
  rw [optF_insert_ne _ _ _ _ _ _ _ k3]
  rw [optF_insert_ne _ _ _ _ _ _ _ k4]
  rw [optF_insert_ne _ _ _ _ _ _ _ k5]
  rw [optF_insert_ne _ _ _ _ _ _ _ k6]
  rw [optF_insert_ne _ _ _ _ _ _ _ k7]
  rw [optF_insert_ne _ _ _ _ _ _ _ k8]
  rw [optF_insert_ne _ _ _ _ _ _ _ k9]
  rw [optF_insert_ne _ _ _ _ _ _ _ k10]
  rw [optF_insert_ne _ _ _ _ _ _ _ k11]
  rw [optF_insert_ne _ _ _ _ _ _ _ k12]
  rw [optF_insert_ne _ _ _ _ _ _ _ k13]

/-- The wire names of the schema fields of `Relation`. -/
def Relation.wireKeys : List String :=
  ["id", "label", "type", "url", "head", "tokenFrom", "tokenTo", "tokens", "sentiment", "sentimentProb", "count", "attributes"]

/-- Every non-string field of `Relation` is rendered regardless of its value. -/
def Relation.alwaysMembers (r : Relation) : Prop :=
  findVal "id" r.jsonMembers = some (jnat r.id) ∧
  findVal "head" r.jsonMembers = some (jnat r.head) ∧
  findVal "tokenFrom" r.jsonMembers = some (jnat r.token_from) ∧
  findVal "tokenTo" r.jsonMembers = some (jnat r.token_to) ∧
  findVal "tokens" r.jsonMembers = some (jnats r.tokens) ∧
  findVal "sentimentProb" r.jsonMembers = some (Json.num r.sentiment_prob) ∧
  findVal "count" r.jsonMembers = some (jnat r.count) ∧
  findVal "attributes" r.jsonMembers = some (Json.arr (r.attributes.map Attribute.toJson))

/-- Proof of `Relation.alwaysMembers` for every value. -/
theorem Relation_alwaysMembers_holds (r : Relation) : r.alwaysMembers := by
  unfold Relation.alwaysMembers
  refine ⟨?_, ?_, ?_, ?_, ?_, ?_, ?_, ?_⟩ <;> simp [Relation.jsonMembers]

/-- The rendering of each string field of `Relation`: skip-if-empty fields render as `strVal` (absent iff empty), required ones are always present. -/
def Relation.stringMembers (r : Relation) : Prop :=
  findVal "label" r.jsonMembers = strVal r.label ∧
  findVal "type" r.jsonMembers = strVal r.rtype ∧
  findVal "url" r.jsonMembers = strVal r.url ∧
  findVal "sentiment" r.jsonMembers = strVal r.sentiment

/-- Proof of `Relation.stringMembers` for every value. -/
theorem Relation_stringMembers_holds (r : Relation) : r.stringMembers := by
  unfold Relation.stringMembers
  refine ⟨?_, ?_, ?_, ?_⟩ <;> simp [Relation.jsonMembers, strVal]

/-- A member whose key is not a schema field of `Relation` does not change the parse. -/
theorem Relation_fromJson_ignores_unknown (ms₁ ms₂ : List (String × Json)) (k : String) (v : Json)
    (hk : k ∉ Relation.wireKeys) :
    Relation.fromJson (.obj (ms₁ ++ (k, v) :: ms₂)) =
      Relation.fromJson (.obj (ms₁ ++ ms₂)) := by
  unfold Relation.wireKeys at hk
  simp only [List.mem_cons, List.not_mem_nil, or_false] at hk
  push_neg at hk
  obtain ⟨k1, k2, k3, k4, k5, k6, k7, k8, k9, k10, k11, k12⟩ := hk
  rw [Relation.fromJson, Relation.fromJson]
  rw [show asObj (Json.obj (ms₁ ++ (k, v) :: ms₂)) = .ok (ms₁ ++ (k, v) :: ms₂) from rfl]
  rw [show asObj (Json.obj (ms₁ ++ ms₂)) = .ok (ms₁ ++ ms₂) from rfl]
  rw [ebind_ok, ebind_ok]
  rw [reqF_insert_ne _ _ _ _ _ _ k1]
  rw [optF_insert_ne _ _ _ _ _ _ _ k2]
  rw [optF_insert_ne _ _ _ _ _ _ _ k3]
  rw [optF_insert_ne _ _ _ _ _ _ _ k4]
  rw [optF_insert_ne _ _ _ _ _ _ _ k5]
  rw [optF_insert_ne _ _ _ _ _ _ _ k6]
  rw [optF_insert_ne _ _ _ _ _ _ _ k7]
  rw [optF_insert_ne _ _ _ _ _ _ _ k8]
  rw [optF_insert_ne _ _ _ _ _ _ _ k9]
  rw [optF_insert_ne _ _ _ _ _ _ _ k10]
  rw [optF_insert_ne _ _ _ _ _ _ _ k11]
  rw [optF_insert_ne _ _ _ _ _ _ _ k12]

/-- The wire names of the schema fields of `Triple`. -/
def Triple.wireKeys : List String :=
  ["id", "fromEntity", "toEntity", "rel", "clauseID", "sentenceID", "directional", "eventID", "tempSeq", "prob", "syntactic", "implied", "presupposed", "count"]

/-- Every non-string field of `Triple` is rendered regardless of its value. -/
def Triple.alwaysMembers (t : Triple) : Prop :=
  findVal "id" t.jsonMembers = some (jnat t.id) ∧
  findVal "fromEntity" t.jsonMembers = some (jnat t.from_entity) ∧
  findVal "toEntity" t.jsonMembers = some (jnat t.to_entity) ∧
  findVal "rel" t.jsonMembers = some (jnat t.rel) ∧
  findVal "clauseID" t.jsonMembers = some (jnats t.clause_id) ∧
  findVal "sentenceID" t.jsonMembers = some (jnats t.sentence_id) ∧
  findVal "directional" t.jsonMembers = some (Json.bool t.directional) ∧
  findVal "eventID" t.jsonMembers = some (jnat t.event_id) ∧
  findVal "tempSeq" t.jsonMembers = some (jnat t.temp_seq) ∧
  findVal "prob" t.jsonMembers = some (Json.num t.prob) ∧
  findVal "syntactic" t.jsonMembers = some (Json.bool t.syntactic) ∧
  findVal "implied" t.jsonMembers = some (Json.bool t.implied) ∧
  findVal "presupposed" t.jsonMembers = some (Json.bool t.presupposed) ∧
  findVal "count" t.jsonMembers = some (jnat t.count)

/-- Proof of `Triple.alwaysMembers` for every value. -/
theorem Triple_alwaysMembers_holds (t : Triple) : t.alwaysMembers := by
  unfold Triple.alwaysMembers
  refine ⟨?_, ?_, ?_, ?_, ?_, ?_, ?_, ?_, ?_, ?_, ?_, ?_, ?_, ?_⟩ <;> simp [Triple.jsonMembers]

/-- A member whose key is not a schema field of `Triple` does not change the parse. -/
theorem Triple_fromJson_ignores_unknown (ms₁ ms₂ : List (String × Json)) (k : String) (v : Json)
    (hk : k ∉ Triple.wireKeys) :
    Triple.fromJson (.obj (ms₁ ++ (k, v) :: ms₂)) =
      Triple.fromJson (.obj (ms₁ ++ ms₂)) := by
  unfold Triple.wireKeys at hk
  simp only [List.mem_cons, List.not_mem_nil, or_false] at hk
  push_neg at hk
  obtain ⟨k1, k2, k3, k4, k5, k6, k7, k8, k9, k10, k11, k12, k13, k14⟩ := hk
  rw [Triple.fromJson, Triple.fromJson]
  rw [show asObj (Json.obj (ms₁ ++ (k, v) :: ms₂)) = .ok (ms₁ ++ (k, v) :: ms₂) from rfl]
  rw [show asObj (Json.obj (ms₁ ++ ms₂)) = .ok (ms₁ ++ ms₂) from rfl]
  rw [ebind_ok, ebind_ok]
  rw [reqF_insert_ne _ _ _ _ _ _ k1]
  rw [optF_insert_ne _ _ _ _ _ _ _ k2]
  rw [optF_insert_ne _ _ _ _ _ _ _ k3]
  rw [optF_insert_ne _ _ _ _ _ _ _ k4]
  rw [optF_insert_ne _ _ _ _ _ _ _ k5]
  rw [optF_insert_ne _ _ _ _ _ _ _ k6]
  rw [optF_insert_ne _ _ _ _ _ _ _ k7]
  rw [optF_insert_ne _ _ _ _ _ _ _ k8]
  rw [optF_insert_ne _ _ _ _ _ _ _ k9]
  rw [optF_insert_ne _ _ _ _ _ _ _ k10]
  rw [optF_insert_ne _ _ _ _ _ _ _ k11]
  rw [optF_insert_ne _ _ _ _ _ _ _ k12]
  rw [optF_insert_ne _ _ _ _ _ _ _ k13]
  rw [optF_insert_ne _ _ _ _ _ _ _ k14]

/-- The wire names of the schema fields of `Document`. -/
def Document.wireKeys : List String :=
  ["meta", "id", "tokenList", "clauses", "sentences", "paragraphs", "dependencyTrees", "coreferences", "constituents", "expressions", "entities", "relations", "triples"]

/-- Every non-string field of `Document` is rendered regardless of its value. -/
def Document.alwaysMembers (d : Document) : Prop :=
  findVal "meta" d.jsonMembers = some (d.meta.toJson) ∧
  findVal "id" d.jsonMembers = some (jnat d.id) ∧
  findVal "tokenList" d.jsonMembers = some (Json.arr (d.token_list.map Token.toJson)) ∧
  findVal "clauses" d.jsonMembers = some (Json.arr (d.clauses.map Clause.toJson)) ∧
  findVal "sentences" d.jsonMembers = some (Json.arr (d.sentences.map Sentence.toJson)) ∧
  findVal "paragraphs" d.jsonMembers = some (Json.arr (d.paragraphs.map Paragraph.toJson)) ∧
  findVal "dependencyTrees" d.jsonMembers = some (Json.arr (d.dependency_trees.map DependencyTree.toJson)) ∧
  findVal "coreferences" d.jsonMembers = some (Json.arr (d.coreferences.map Coreference.toJson)) ∧
  findVal "constituents" d.jsonMembers = some (Json.arr (d.constituents.map ConstituentParse.toJson)) ∧
  findVal "expressions" d.jsonMembers = some (Json.arr (d.expressions.map Expression.toJson)) ∧
  findVal "entities" d.jsonMembers = some (Json.arr (d.entities.map Entity.toJson)) ∧
  findVal "relations" d.jsonMembers = some (Json.arr (d.relations.map Relation.toJson)) ∧
  findVal "triples" d.jsonMembers = some (Json.arr (d.triples.map Triple.toJson))

/-- Proof of `Document.alwaysMembers` for every value. -/
theorem Document_alwaysMembers_holds (d : Document) : d.alwaysMembers := by
  unfold Document.alwaysMembers
  refine ⟨?_, ?_, ?_, ?_, ?_, ?_, ?_, ?_, ?_, ?_, ?_, ?_, ?_⟩ <;> simp [Document.jsonMembers]

/-- A member whose key is not a schema field of `Document` does not change the parse. -/
theorem Document_fromJson_ignores_unknown (ms₁ ms₂ : List (String × Json)) (k : String) (v : Json)
    (hk : k ∉ Document.wireKeys) :
    Document.fromJson (.obj (ms₁ ++ (k, v) :: ms₂)) =
      Document.fromJson (.obj (ms₁ ++ ms₂)) := by
  unfold Document.wireKeys at hk
  simp only [List.mem_cons, List.not_mem_nil, or_false] at hk
  push_neg at hk
  obtain ⟨k1, k2, k3, k4, k5, k6, k7, k8, k9, k10, k11, k12, k13⟩ := hk
  rw [Document.fromJson, Document.fromJson]
  rw [show asObj (Json.obj (ms₁ ++ (k, v) :: ms₂)) = .ok (ms₁ ++ (k, v) :: ms₂) from rfl]
  rw [show asObj (Json.obj (ms₁ ++ ms₂)) = .ok (ms₁ ++ ms₂) from rfl]
  rw [ebind_ok, ebind_ok]
  rw [reqF_insert_ne _ _ _ _ _ _ k1]
  rw [reqF_insert_ne _ _ _ _ _ _ k2]
  rw [optF_insert_ne _ _ _ _ _ _ _ k3]
  rw [optF_insert_ne _ _ _ _ _ _ _ k4]
  rw [optF_insert_ne _ _ _ _ _ _ _ k5]
  rw [optF_insert_ne _ _ _ _ _ _ _ k6]
  rw [optF_insert_ne _ _ _ _ _ _ _ k7]
  rw [optF_insert_ne _ _ _ _ _ _ _ k8]
  rw [optF_insert_ne _ _ _ _ _ _ _ k9]
  rw [optF_insert_ne _ _ _ _ _ _ _ k10]
  rw [optF_insert_ne _ _ _ _ _ _ _ k11]
  rw [optF_insert_ne _ _ _ _ _ _ _ k12]
  rw [optF_insert_ne _ _ _ _ _ _ _ k13]

/-- The wire names of the schema fields of `JSONNLP`. -/
def JSONNLP.wireKeys : List String :=
  ["meta", "docs"]

/-- Every non-string field of `JSONNLP` is rendered regardless of its value. -/
def JSONNLP.alwaysMembers (j : JSONNLP) : Prop :=
  findVal "meta" j.jsonMembers = some (j.meta.toJson) ∧
  findVal "docs" j.jsonMembers = some (Json.arr (j.docs.map Document.toJson))

/-- Proof of `JSONNLP.alwaysMembers` for every value. -/
theorem JSONNLP_alwaysMembers_holds (j : JSONNLP) : j.alwaysMembers := by
  unfold JSONNLP.alwaysMembers
  refine ⟨?_, ?_⟩ <;> simp [JSONNLP.jsonMembers]

/-- A member whose key is not a schema field of `JSONNLP` does not change the parse. -/
theorem JSONNLP_fromJson_ignores_unknown (ms₁ ms₂ : List (String × Json)) (k : String) (v : Json)
    (hk : k ∉ JSONNLP.wireKeys) :
    JSONNLP.fromJson (.obj (ms₁ ++ (k, v) :: ms₂)) =
      JSONNLP.fromJson (.obj (ms₁ ++ ms₂)) := by
  unfold JSONNLP.wireKeys at hk
  simp only [List.mem_cons, List.not_mem_nil, or_false] at hk
  push_neg at hk
  obtain ⟨k1, k2⟩ := hk
  rw [JSONNLP.fromJson, JSONNLP.fromJson]
  rw [show asObj (Json.obj (ms₁ ++ (k, v) :: ms₂)) = .ok (ms₁ ++ (k, v) :: ms₂) from rfl]
  rw [show asObj (Json.obj (ms₁ ++ ms₂)) = .ok (ms₁ ++ ms₂) from rfl]
  rw [ebind_ok, ebind_ok]
  rw [reqF_insert_ne _ _ _ _ _ _ k1]
  rw [optF_insert_ne _ _ _ _ _ _ _ k2]


/-! ### Requiredness, defaulting and range lemmas -/

/-- Every defaulted field of `Token` absent from the input object equals its zero value in a successful parse. -/
theorem Token_fromJson_defaults (ms : List (String × Json)) (t : Token)
    (h : Token.fromJson (.obj ms) = .ok t) :
    ("xpos" ∉ ms.map Prod.fst → t.xpos = "") ∧
    ("xpos_prob" ∉ ms.map Prod.fst → t.xpos_prob = f64zero) ∧
    ("upos" ∉ ms.map Prod.fst → t.upos = "") ∧
    ("upos_prob" ∉ ms.map Prod.fst → t.upos_prob = f64zero) ∧
    ("entity_iob" ∉ ms.map Prod.fst → t.entity_iob = "") ∧
    ("characterOffsetBegin" ∉ ms.map Prod.fst → t.char_offset_begin = 0) ∧
    ("characterOffsetEnd" ∉ ms.map Prod.fst → t.char_offset_end = 0) ∧
    ("propID" ∉ ms.map Prod.fst → t.prop_id = "") ∧
    ("propIDProbability" ∉ ms.map Prod.fst → t.prop_id_prob = f64zero) ∧
    ("frameID" ∉ ms.map Prod.fst → t.frame_id = 0) ∧
    ("frameIDProb" ∉ ms.map Prod.fst → t.frame_id_prob = f64zero) ∧
    ("wordNetID" ∉ ms.map Prod.fst → t.wordnet_id = 0) ∧
    ("wordNetIDProb" ∉ ms.map Prod.fst → t.wordnet_id_prob = f64zero) ∧
    ("verbNetID" ∉ ms.map Prod.fst → t.verbnet_id = 0) ∧
    ("verbNetIDProb" ∉ ms.map Prod.fst → t.verbnet_id_prob = f64zero) ∧
    ("lang" ∉ ms.map Prod.fst → t.lang = "") ∧
    ("shape" ∉ ms.map Prod.fst → t.shape = "") ∧
    ("entity" ∉ ms.map Prod.fst → t.entity = "") := by
  rw [Token.fromJson] at h
  rw [show asObj (Json.obj ms) = .ok ms from rfl] at h
  rw [ebind_ok] at h
  obtain ⟨a1, h1, h⟩ := bind_ok_inv _ _ _ h
  obtain ⟨a2, h2, h⟩ := bind_ok_inv _ _ _ h
  obtain ⟨a3, h3, h⟩ := bind_ok_inv _ _ _ h
  obtain ⟨a4, h4, h⟩ := bind_ok_inv _ _ _ h
  obtain ⟨a5, h5, h⟩ := bind_ok_inv _ _ _ h
  obtain ⟨a6, h6, h⟩ := bind_ok_inv _ _ _ h
  obtain ⟨a7, h7, h⟩ := bind_ok_inv _ _ _ h
  obtain ⟨a8, h8, h⟩ := bind_ok_inv _ _ _ h
  obtain ⟨a9, h9, h⟩ := bind_ok_inv _ _ _ h
  obtain ⟨a10, h10, h⟩ := bind_ok_inv _ _ _ h
  obtain ⟨a11, h11, h⟩ := bind_ok_inv _ _ _ h
  obtain ⟨a12, h12, h⟩ := bind_ok_inv _ _ _ h
  obtain ⟨a13, h13, h⟩ := bind_ok_inv _ _ _ h
  obtain ⟨a14, h14, h⟩ := bind_ok_inv _ _ _ h
  obtain ⟨a15, h15, h⟩ := bind_ok_inv _ _ _ h
  obtain ⟨a16, h16, h⟩ := bind_ok_inv _ _ _ h
  obtain ⟨a17, h17, h⟩ := bind_ok_inv _ _ _ h
  obtain ⟨a18, h18, h⟩ := bind_ok_inv _ _ _ h
  obtain ⟨a19, h19, h⟩ := bind_ok_inv _ _ _ h
  obtain ⟨a20, h20, h⟩ := bind_ok_inv _ _ _ h
  obtain ⟨a21, h21, h⟩ := bind_ok_inv _ _ _ h
  obtain ⟨a22, h22, h⟩ := bind_ok_inv _ _ _ h
  obtain ⟨a23, h23, h⟩ := bind_ok_inv _ _ _ h
  injection h with hE
  subst hE
  refine ⟨?_, ?_, ?_, ?_, ?_, ?_, ?_, ?_, ?_, ?_, ?_, ?_, ?_, ?_, ?_, ?_, ?_, ?_⟩
  · intro habs
    rw [optF_of_not_mem _ _ _ _ habs] at h5
    injection h5 with hz
    exact hz.symm
  · intro habs
    rw [optF_of_not_mem _ _ _ _ habs] at h6
    injection h6 with hz
    exact hz.symm
  · intro habs
    rw [optF_of_not_mem _ _ _ _ habs] at h7
    injection h7 with hz
    exact hz.symm
  · intro habs
    rw [optF_of_not_mem _ _ _ _ habs] at h8
    injection h8 with hz
    exact hz.symm
  · intro habs
    rw [optF_of_not_mem _ _ _ _ habs] at h9
    injection h9 with hz
    exact hz.symm
  · intro habs
    rw [optF_of_not_mem _ _ _ _ habs] at h10
    injection h10 with hz
    exact hz.symm
  · intro habs
    rw [optF_of_not_mem _ _ _ _ habs] at h11
    injection h11 with hz
    exact hz.symm
  · intro habs
    rw [optF_of_not_mem _ _ _ _ habs] at h12
    injection h12 with hz
    exact hz.symm
  · intro habs
    rw [optF_of_not_mem _ _ _ _ habs] at h13
    injection h13 with hz
    exact hz.symm
  · intro habs
    rw [optF_of_not_mem _ _ _ _ habs] at h14
    injection h14 with hz
    exact hz.symm
  · intro habs
    rw [optF_of_not_mem _ _ _ _ habs] at h15
    injection h15 with hz
    exact hz.symm
  · intro habs
    rw [optF_of_not_mem _ _ _ _ habs] at h16
    injection h16 with hz
    exact hz.symm
  · intro habs
    rw [optF_of_not_mem _ _ _ _ habs] at h17
    injection h17 with hz
    exact hz.symm
  · intro habs
    rw [optF_of_not_mem _ _ _ _ habs] at h18
    injection h18 with hz
    exact hz.symm
  · intro habs
    rw [optF_of_not_mem _ _ _ _ habs] at h19
    injection h19 with hz
    exact hz.symm
  · intro habs
    rw [optF_of_not_mem _ _ _ _ habs] at h20
    injection h20 with hz
    exact hz.symm
  · intro habs
    rw [optF_of_not_mem _ _ _ _ habs] at h22
    injection h22 with hz
    exact hz.symm
  · intro habs
    rw [optF_of_not_mem _ _ _ _ habs] at h23
    injection h23 with hz
    exact hz.symm

/-- Every defaulted field of `Sentence` absent from the input object equals its zero value in a successful parse. -/
theorem Sentence_fromJson_defaults (ms : List (String × Json)) (s : Sentence)
    (h : Sentence.fromJson (.obj ms) = .ok s) :
    ("tokenFrom" ∉ ms.map Prod.fst → s.token_from = 0) ∧
    ("tokenTo" ∉ ms.map Prod.fst → s.token_to = 0) ∧
    ("tokens" ∉ ms.map Prod.fst → s.tokens = []) ∧
    ("clauses" ∉ ms.map Prod.fst → s.clauses = []) ∧
    ("type" ∉ ms.map Prod.fst → s.stype = "") ∧
    ("sentiment" ∉ ms.map Prod.fst → s.sentiment = "") ∧
    ("sentimentProb" ∉ ms.map Prod.fst → s.sentiment_prob = f64zero) := by
  rw [Sentence.fromJson] at h
  rw [show asObj (Json.obj ms) = .ok ms from rfl] at h
  rw [ebind_ok] at h
  obtain ⟨a1, h1, h⟩ := bind_ok_inv _ _ _ h
  obtain ⟨a2, h2, h⟩ := bind_ok_inv _ _ _ h
  obtain ⟨a3, h3, h⟩ := bind_ok_inv _ _ _ h
  obtain ⟨a4, h4, h⟩ := bind_ok_inv _ _ _ h
  obtain ⟨a5, h5, h⟩ := bind_ok_inv _ _ _ h
  obtain ⟨a6, h6, h⟩ := bind_ok_inv _ _ _ h
  obtain ⟨a7, h7, h⟩ := bind_ok_inv _ _ _ h
  obtain ⟨a8, h8, h⟩ := bind_ok_inv _ _ _ h
  injection h with hE
  subst hE
  refine ⟨?_, ?_, ?_, ?_, ?_, ?_, ?_⟩
  · intro habs
    rw [optF_of_not_mem _ _ _ _ habs] at h2
    injection h2 with hz
    exact hz.symm
  · intro habs
    rw [optF_of_not_mem _ _ _ _ habs] at h3
    injection h3 with hz
    exact hz.symm
  · intro habs
    rw [optF_of_not_mem _ _ _ _ habs] at h4
    injection h4 with hz
    exact hz.symm
  · intro habs
    rw [optF_of_not_mem _ _ _ _ habs] at h5
    injection h5 with hz
    exact hz.symm
  · intro habs
    rw [optF_of_not_mem _ _ _ _ habs] at h6
    injection h6 with hz
    exact hz.symm
  · intro habs
    rw [optF_of_not_mem _ _ _ _ habs] at h7
    injection h7 with hz
    exact hz.symm
  · intro habs
    rw [optF_of_not_mem _ _ _ _ habs] at h8
    injection h8 with hz
    exact hz.symm

/-- Every defaulted field of `Meta` absent from the input object
equals its zero value in a successful parse. -/
theorem Meta_fromJson_defaults (ms : List (String × Json)) (m : Meta)
    (h : Meta.fromJson (.obj ms) = .ok m) :
    ("DC.conformsTo" ∉ ms.map Prod.fst → m.conforms_to = "") ∧
    ("DC.author" ∉ ms.map Prod.fst → m.author = "") ∧
    ("DC.created" ∉ ms.map Prod.fst → m.created = "") ∧
    ("DC.date" ∉ ms.map Prod.fst → m.date = "") ∧
    ("DC.source" ∉ ms.map Prod.fst → m.source = "") ∧
    ("DC.language" ∉ ms.map Prod.fst → m.language = "") ∧
    ("DC.creator" ∉ ms.map Prod.fst → m.creator = "") ∧
    ("DC.publisher" ∉ ms.map Prod.fst → m.publisher = "") ∧
    ("DC.title" ∉ ms.map Prod.fst → m.title = "") ∧
    ("DC.description" ∉ ms.map Prod.fst → m.description = "") ∧
    ("DC.identifier" ∉ ms.map Prod.fst → m.identifier = "") := by
  rw [Meta.fromJson] at h
  rw [show asObj (Json.obj ms) = .ok ms from rfl] at h
  rw [ebind_ok] at h
  obtain ⟨a1, h1, h⟩ := bind_ok_inv _ _ _ h
  obtain ⟨a2, h2, h⟩ := bind_ok_inv _ _ _ h
  obtain ⟨a3, h3, h⟩ := bind_ok_inv _ _ _ h
  obtain ⟨a4, h4, h⟩ := bind_ok_inv _ _ _ h
  obtain ⟨a5, h5, h⟩ := bind_ok_inv _ _ _ h
  obtain ⟨a6, h6, h⟩ := bind_ok_inv _ _ _ h
  obtain ⟨a7, h7, h⟩ := bind_ok_inv _ _ _ h
  obtain ⟨a8, h8, h⟩ := bind_ok_inv _ _ _ h
  obtain ⟨a9, h9, h⟩ := bind_ok_inv _ _ _ h
  obtain ⟨a10, h10, h⟩ := bind_ok_inv _ _ _ h
  obtain ⟨a11, h11, h⟩ := bind_ok_inv _ _ _ h
  injection h with hE
  subst hE
  refine ⟨?_, ?_, ?_, ?_, ?_, ?_, ?_, ?_, ?_, ?_, ?_⟩
  · intro habs
    rw [optF_of_not_mem _ _ _ _ habs] at h1
    injection h1 with hz
    exact hz.symm
  · intro habs
    rw [optF_of_not_mem _ _ _ _ habs] at h2
    injection h2 with hz
    exact hz.symm
  · intro habs
    rw [optF_of_not_mem _ _ _ _ habs] at h3
    injection h3 with hz
    exact hz.symm
  · intro habs
    rw [optF_of_not_mem _ _ _ _ habs] at h4
    injection h4 with hz
    exact hz.symm
  · intro habs
    rw [optF_of_not_mem _ _ _ _ habs] at h5
    injection h5 with hz
    exact hz.symm
  · intro habs
    rw [optF_of_not_mem _ _ _ _ habs] at h6
    injection h6 with hz
    exact hz.symm
  · intro habs
    rw [optF_of_not_mem _ _ _ _ habs] at h7
    injection h7 with hz
    exact hz.symm
  · intro habs
    rw [optF_of_not_mem _ _ _ _ habs] at h8
    injection h8 with hz
    exact hz.symm
  · intro habs
    rw [optF_of_not_mem _ _ _ _ habs] at h9
    injection h9 with hz
    exact hz.symm
  · intro habs
    rw [optF_of_not_mem _ _ _ _ habs] at h10
    injection h10 with hz
    exact hz.symm
  · intro habs
    rw [optF_of_not_mem _ _ _ _ habs] at h11
    injection h11 with hz
    exact hz.symm

/-- Every defaulted field of `TokenFeatures` absent from the input object
equals its zero value in a successful parse. -/
theorem TokenFeatures_fromJson_defaults (ms : List (String × Json)) (t : TokenFeatures)
    (h : TokenFeatures.fromJson (.obj ms) = .ok t) :
    ("overt" ∉ ms.map Prod.fst → t.overt = false) ∧
    ("stop" ∉ ms.map Prod.fst → t.stop = false) ∧
    ("alpha" ∉ ms.map Prod.fst → t.alpha = false) ∧
    ("number" ∉ ms.map Prod.fst → t.number = 0) ∧
    ("gender" ∉ ms.map Prod.fst → t.gender = "") ∧
    ("person" ∉ ms.map Prod.fst → t.person = 0) ∧
    ("tense" ∉ ms.map Prod.fst → t.tense = "") ∧
    ("perfect" ∉ ms.map Prod.fst → t.perfect = false) ∧
    ("continuous" ∉ ms.map Prod.fst → t.continuous = false) ∧
    ("progressive" ∉ ms.map Prod.fst → t.progressive = false) ∧
    ("case" ∉ ms.map Prod.fst → t.«case» = "") ∧
    ("human" ∉ ms.map Prod.fst → t.human = false) ∧
    ("animate" ∉ ms.map Prod.fst → t.animate = false) ∧
    ("negated" ∉ ms.map Prod.fst → t.negated = false) ∧
    ("countable" ∉ ms.map Prod.fst → t.countable = false) ∧
    ("factive" ∉ ms.map Prod.fst → t.factive = false) ∧
    ("counterfactive" ∉ ms.map Prod.fst → t.counterfactive = false) ∧
    ("irregular" ∉ ms.map Prod.fst → t.irregular = false) ∧
    ("phrasalVerb" ∉ ms.map Prod.fst → t.phrasalverb = false) ∧
    ("mood" ∉ ms.map Prod.fst → t.mood = "") ∧
    ("foreign" ∉ ms.map Prod.fst → t.foreign = false) ∧
    ("spaceAfter" ∉ ms.map Prod.fst → t.spaceafter = false) := by
  rw [TokenFeatures.fromJson] at h
  rw [show asObj (Json.obj ms) = .ok ms from rfl] at h
  rw [ebind_ok] at h
  obtain ⟨a1, h1, h⟩ := bind_ok_inv _ _ _ h
  obtain ⟨a2, h2, h⟩ := bind_ok_inv _ _ _ h
  obtain ⟨a3, h3, h⟩ := bind_ok_inv _ _ _ h
  obtain ⟨a4, h4, h⟩ := bind_ok_inv _ _ _ h
  obtain ⟨a5, h5, h⟩ := bind_ok_inv _ _ _ h
  obtain ⟨a6, h6, h⟩ := bind_ok_inv _ _ _ h
  obtain ⟨a7, h7, h⟩ := bind_ok_inv _ _ _ h
  obtain ⟨a8, h8, h⟩ := bind_ok_inv _ _ _ h
  obtain ⟨a9, h9, h⟩ := bind_ok_inv _ _ _ h
  obtain ⟨a10, h10, h⟩ := bind_ok_inv _ _ _ h
  obtain ⟨a11, h11, h⟩ := bind_ok_inv _ _ _ h
  obtain ⟨a12, h12, h⟩ := bind_ok_inv _ _ _ h
  obtain ⟨a13, h13, h⟩ := bind_ok_inv _ _ _ h
  obtain ⟨a14, h14, h⟩ := bind_ok_inv _ _ _ h
  obtain ⟨a15, h15, h⟩ := bind_ok_inv _ _ _ h
  obtain ⟨a16, h16, h⟩ := bind_ok_inv _ _ _ h
  obtain ⟨a17, h17, h⟩ := bind_ok_inv _ _ _ h
  obtain ⟨a18, h18, h⟩ := bind_ok_inv _ _ _ h
  obtain ⟨a19, h19, h⟩ := bind_ok_inv _ _ _ h
  obtain ⟨a20, h20, h⟩ := bind_ok_inv _ _ _ h
  obtain ⟨a21, h21, h⟩ := bind_ok_inv _ _ _ h
  obtain ⟨a22, h22, h⟩ := bind_ok_inv _ _ _ h
  injection h with hE
  subst hE
  refine ⟨?_, ?_, ?_, ?_, ?_, ?_, ?_, ?_, ?_, ?_, ?_, ?_, ?_, ?_, ?_, ?_, ?_, ?_, ?_, ?_, ?_, ?_⟩
  · intro habs
    rw [optF_of_not_mem _ _ _ _ habs] at h1
    injection h1 with hz
    exact hz.symm
  · intro habs
    rw [optF_of_not_mem _ _ _ _ habs] at h2
    injection h2 with hz
    exact hz.symm
  · intro habs
    rw [optF_of_not_mem _ _ _ _ habs] at h3
    injection h3 with hz
    exact hz.symm
  · intro habs
    rw [optF_of_not_mem _ _ _ _ habs] at h4
    injection h4 with hz
    exact hz.symm
  · intro habs
    rw [optF_of_not_mem _ _ _ _ habs] at h5
    injection h5 with hz
    exact hz.symm
  · intro habs
    rw [optF_of_not_mem _ _ _ _ habs] at h6
    injection h6 with hz
    exact hz.symm
  · intro habs
    rw [optF_of_not_mem _ _ _ _ habs] at h7
    injection h7 with hz
    exact hz.symm
  · intro habs
    rw [optF_of_not_mem _ _ _ _ habs] at h8
    injection h8 with hz
    exact hz.symm
  · intro habs
    rw [optF_of_not_mem _ _ _ _ habs] at h9
    injection h9 with hz
    exact hz.symm
  · intro habs
    rw [optF_of_not_mem _ _ _ _ habs] at h10
    injection h10 with hz
    exact hz.symm
  · intro habs
    rw [optF_of_not_mem _ _ _ _ habs] at h11
    injection h11 with hz
    exact hz.symm
  · intro habs
    rw [optF_of_not_mem _ _ _ _ habs] at h12
    injection h12 with hz
    exact hz.symm
  · intro habs
    rw [optF_of_not_mem _ _ _ _ habs] at h13
    injection h13 with hz
    exact hz.symm
  · intro habs
    rw [optF_of_not_mem _ _ _ _ habs] at h14
    injection h14 with hz
    exact hz.symm
  · intro habs
    rw [optF_of_not_mem _ _ _ _ habs] at h15
    injection h15 with hz
    exact hz.symm
  · intro habs
    rw [optF_of_not_mem _ _ _ _ habs] at h16
    injection h16 with hz
    exact hz.symm
  · intro habs
    rw [optF_of_not_mem _ _ _ _ habs] at h17
    injection h17 with hz
    exact hz.symm
  · intro habs
    rw [optF_of_not_mem _ _ _ _ habs] at h18
    injection h18 with hz
    exact hz.symm
  · intro habs
    rw [optF_of_not_mem _ _ _ _ habs] at h19
    injection h19 with hz
    exact hz.symm
  · intro habs
    rw [optF_of_not_mem _ _ _ _ habs] at h20
    injection h20 with hz
    exact hz.symm
  · intro habs
    rw [optF_of_not_mem _ _ _ _ habs] at h21
    injection h21 with hz
    exact hz.symm
  · intro habs
    rw [optF_of_not_mem _ _ _ _ habs] at h22
    injection h22 with hz
    exact hz.symm

/-- Every defaulted field of `Clause` absent from the input object
equals its zero value in a successful parse. -/
theorem Clause_fromJson_defaults (ms : List (String × Json)) (c : Clause)
    (h : Clause.fromJson (.obj ms) = .ok c) :
    ("sentenceId" ∉ ms.map Prod.fst → c.sentence_id = 0) ∧
    ("tokenFrom" ∉ ms.map Prod.fst → c.token_from = 0) ∧
    ("tokenTo" ∉ ms.map Prod.fst → c.token_to = 0) ∧
    ("tokens" ∉ ms.map Prod.fst → c.tokens = []) ∧
    ("main" ∉ ms.map Prod.fst → c.main = false) ∧
    ("gov" ∉ ms.map Prod.fst → c.gov = 0) ∧
    ("head" ∉ ms.map Prod.fst → c.head = 0) ∧
    ("neg" ∉ ms.map Prod.fst → c.neg = false) ∧
    ("tense" ∉ ms.map Prod.fst → c.tense = "") ∧
    ("mood" ∉ ms.map Prod.fst → c.mood = "") ∧
    ("perfect" ∉ ms.map Prod.fst → c.perfect = false) ∧
    ("continuous" ∉ ms.map Prod.fst → c.continuous = false) ∧
    ("aspect" ∉ ms.map Prod.fst → c.aspect = "") ∧
    ("voice" ∉ ms.map Prod.fst → c.voice = "") ∧
    ("sentiment" ∉ ms.map Prod.fst → c.sentiment = "") ∧
    ("sentimentProb" ∉ ms.map Prod.fst → c.sentiment_prob = f64zero) := by
  rw [Clause.fromJson] at h
  rw [show asObj (Json.obj ms) = .ok ms from rfl] at h
  rw [ebind_ok] at h
  obtain ⟨a1, h1, h⟩ := bind_ok_inv _ _ _ h
  obtain ⟨a2, h2, h⟩ := bind_ok_inv _ _ _ h
  obtain ⟨a3, h3, h⟩ := bind_ok_inv _ _ _ h
  obtain ⟨a4, h4, h⟩ := bind_ok_inv _ _ _ h
  obtain ⟨a5, h5, h⟩ := bind_ok_inv _ _ _ h
  obtain ⟨a6, h6, h⟩ := bind_ok_inv _ _ _ h
  obtain ⟨a7, h7, h⟩ := bind_ok_inv _ _ _ h
  obtain ⟨a8, h8, h⟩ := bind_ok_inv _ _ _ h
  obtain ⟨a9, h9, h⟩ := bind_ok_inv _ _ _ h
  obtain ⟨a10, h10, h⟩ := bind_ok_inv _ _ _ h
  obtain ⟨a11, h11, h⟩ := bind_ok_inv _ _ _ h
  obtain ⟨a12, h12, h⟩ := bind_ok_inv _ _ _ h
  obtain ⟨a13, h13, h⟩ := bind_ok_inv _ _ _ h
  obtain ⟨a14, h14, h⟩ := bind_ok_inv _ _ _ h
  obtain ⟨a15, h15, h⟩ := bind_ok_inv _ _ _ h
  obtain ⟨a16, h16, h⟩ := bind_ok_inv _ _ _ h
  obtain ⟨a17, h17, h⟩ := bind_ok_inv _ _ _ h
  injection h with hE
  subst hE
  refine ⟨?_, ?_, ?_, ?_, ?_, ?_, ?_, ?_, ?_, ?_, ?_, ?_, ?_, ?_, ?_, ?_⟩
  · intro habs
    rw [optF_of_not_mem _ _ _ _ habs] at h2
    injection h2 with hz
    exact hz.symm
  · intro habs
    rw [optF_of_not_mem _ _ _ _ habs] at h3
    injection h3 with hz
    exact hz.symm
  · intro habs
    rw [optF_of_not_mem _ _ _ _ habs] at h4
    injection h4 with hz
    exact hz.symm
  · intro habs
    rw [optF_of_not_mem _ _ _ _ habs] at h5
    injection h5 with hz
    exact hz.symm
  · intro habs
    rw [optF_of_not_mem _ _ _ _ habs] at h6
    injection h6 with hz
    exact hz.symm
  · intro habs
    rw [optF_of_not_mem _ _ _ _ habs] at h7
    injection h7 with hz
    exact hz.symm
  · intro habs
    rw [optF_of_not_mem _ _ _ _ habs] at h8
    injection h8 with hz
    exact hz.symm
  · intro habs
    rw [optF_of_not_mem _ _ _ _ habs] at h9
    injection h9 with hz
    exact hz.symm
  · intro habs
    rw [optF_of_not_mem _ _ _ _ habs] at h10
    injection h10 with hz
    exact hz.symm
  · intro habs
    rw [optF_of_not_mem _ _ _ _ habs] at h11
    injection h11 with hz
    exact hz.symm
  · intro habs
    rw [optF_of_not_mem _ _ _ _ habs] at h12
    injection h12 with hz
    exact hz.symm
  · intro habs
    rw [optF_of_not_mem _ _ _ _ habs] at h13
    injection h13 with hz
    exact hz.symm
  · intro habs
    rw [optF_of_not_mem _ _ _ _ habs] at h14
    injection h14 with hz
    exact hz.symm
  · intro habs
    rw [optF_of_not_mem _ _ _ _ habs] at h15
    injection h15 with hz
    exact hz.symm
  · intro habs
    rw [optF_of_not_mem _ _ _ _ habs] at h16
    injection h16 with hz
    exact hz.symm
  · intro habs
    rw [optF_of_not_mem _ _ _ _ habs] at h17
    injection h17 with hz
    exact hz.symm

/-- Every defaulted field of `Dependency` absent from the input object
equals its zero value in a successful parse. -/
theorem Dependency_fromJson_defaults (ms : List (String × Json)) (d : Dependency)
    (h : Dependency.fromJson (.obj ms) = .ok d) :
    ("prob" ∉ ms.map Prod.fst → d.prob = f64zero) := by
  rw [Dependency.fromJson] at h
  rw [show asObj (Json.obj ms) = .ok ms from rfl] at h
  rw [ebind_ok] at h
  obtain ⟨a1, h1, h⟩ := bind_ok_inv _ _ _ h
  obtain ⟨a2, h2, h⟩ := bind_ok_inv _ _ _ h
  obtain ⟨a3, h3, h⟩ := bind_ok_inv _ _ _ h
  obtain ⟨a4, h4, h⟩ := bind_ok_inv _ _ _ h
  injection h with hE
  subst hE
  intro habs
  rw [optF_of_not_mem _ _ _ _ habs] at h4
  injection h4 with hz
  exact hz.symm

/-- Every defaulted field of `DependencyTree` absent from the input object
equals its zero value in a successful parse. -/
theorem DependencyTree_fromJson_defaults (ms : List (String × Json)) (d : DependencyTree)
    (h : DependencyTree.fromJson (.obj ms) = .ok d) :
    ("sentenceId" ∉ ms.map Prod.fst → d.sentence_id = 0) ∧
    ("style" ∉ ms.map Prod.fst → d.style = "") ∧
    ("dependencies" ∉ ms.map Prod.fst → d.dependencies = []) ∧
    ("prob" ∉ ms.map Prod.fst → d.prob = f64zero) := by
  rw [DependencyTree.fromJson] at h
  rw [show asObj (Json.obj ms) = .ok ms from rfl] at h
  rw [ebind_ok] at h
  obtain ⟨a1, h1, h⟩ := bind_ok_inv _ _ _ h
  obtain ⟨a2, h2, h⟩ := bind_ok_inv _ _ _ h
  obtain ⟨a3, h3, h⟩ := bind_ok_inv _ _ _ h
  obtain ⟨a4, h4, h⟩ := bind_ok_inv _ _ _ h
  injection h with hE
  subst hE
  refine ⟨?_, ?_, ?_, ?_⟩
  · intro habs
    rw [optF_of_not_mem _ _ _ _ habs] at h1
    injection h1 with hz
    exact hz.symm
  · intro habs
    rw [optF_of_not_mem _ _ _ _ habs] at h2
    injection h2 with hz
    exact hz.symm
  · intro habs
    rw [optF_of_not_mem _ _ _ _ habs] at h3
    injection h3 with hz
    exact hz.symm
  · intro habs
    rw [optF_of_not_mem _ _ _ _ habs] at h4
    injection h4 with hz
    exact hz.symm

/-- Every defaulted field of `CoreferenceReferents` absent from the input object
equals its zero value in a successful parse. -/
theorem CoreferenceReferents_fromJson_defaults (ms : List (String × Json)) (c : CoreferenceReferents)
    (h : CoreferenceReferents.fromJson (.obj ms) = .ok c) :
    ("prob" ∉ ms.map Prod.fst → c.prob = f64zero) := by
  rw [CoreferenceReferents.fromJson] at h
  rw [show asObj (Json.obj ms) = .ok ms from rfl] at h
  rw [ebind_ok] at h
  obtain ⟨a1, h1, h⟩ := bind_ok_inv _ _ _ h
  obtain ⟨a2, h2, h⟩ := bind_ok_inv _ _ _ h
  obtain ⟨a3, h3, h⟩ := bind_ok_inv _ _ _ h
  injection h with hE
  subst hE
  intro habs
  rw [optF_of_not_mem _ _ _ _ habs] at h3
  injection h3 with hz
  exact hz.symm

/-- Every defaulted field of `ConstituentParse` absent from the input object
equals its zero value in a successful parse. -/
theorem ConstituentParse_fromJson_defaults (ms : List (String × Json)) (c : ConstituentParse)
    (h : ConstituentParse.fromJson (.obj ms) = .ok c) :
    ("type" ∉ ms.map Prod.fst → c.ctype = "") ∧
    ("labeledBracketing" ∉ ms.map Prod.fst → c.labeled_bracketing = "") ∧
    ("prob" ∉ ms.map Prod.fst → c.prob = f64zero) ∧
    ("scopes" ∉ ms.map Prod.fst → c.scopes = []) := by
  rw [ConstituentParse.fromJson] at h
  rw [show asObj (Json.obj ms) = .ok ms from rfl] at h
  rw [ebind_ok] at h
  obtain ⟨a1, h1, h⟩ := bind_ok_inv _ _ _ h
  obtain ⟨a2, h2, h⟩ := bind_ok_inv _ _ _ h
  obtain ⟨a3, h3, h⟩ := bind_ok_inv _ _ _ h
  obtain ⟨a4, h4, h⟩ := bind_ok_inv _ _ _ h
  obtain ⟨a5, h5, h⟩ := bind_ok_inv _ _ _ h
  injection h with hE
  subst hE
  refine ⟨?_, ?_, ?_, ?_⟩
  · intro habs
    rw [optF_of_not_mem _ _ _ _ habs] at h2
    injection h2 with hz
    exact hz.symm
  · intro habs
    rw [optF_of_not_mem _ _ _ _ habs] at h3
    injection h3 with hz
    exact hz.symm
  · intro habs
    rw [optF_of_not_mem _ _ _ _ habs] at h4
    injection h4 with hz
    exact hz.symm
  · intro habs
    rw [optF_of_not_mem _ _ _ _ habs] at h5
    injection h5 with hz
    exact hz.symm

/-- Every defaulted field of `Expression` absent from the input object
equals its zero value in a successful parse. -/
theorem Expression_fromJson_defaults (ms : List (String × Json)) (e : Expression)
    (h : Expression.fromJson (.obj ms) = .ok e) :
    ("type" ∉ ms.map Prod.fst → e.etype = "") ∧
    ("head" ∉ ms.map Prod.fst → e.head = 0) ∧
    ("dependency" ∉ ms.map Prod.fst → e.dependency = "") ∧
    ("tokenFrom" ∉ ms.map Prod.fst → e.token_from = 0) ∧
    ("tokenTo" ∉ ms.map Prod.fst → e.token_to = 0) ∧
    ("tokens" ∉ ms.map Prod.fst → e.tokens = []) ∧
    ("prob" ∉ ms.map Prod.fst → e.prob = f64zero) := by
  rw [Expression.fromJson] at h
  rw [show asObj (Json.obj ms) = .ok ms from rfl] at h
  rw [ebind_ok] at h
  obtain ⟨a1, h1, h⟩ := bind_ok_inv _ _ _ h
  obtain ⟨a2, h2, h⟩ := bind_ok_inv _ _ _ h
  obtain ⟨a3, h3, h⟩ := bind_ok_inv _ _ _ h
  obtain ⟨a4, h4, h⟩ := bind_ok_inv _ _ _ h
  obtain ⟨a5, h5, h⟩ := bind_ok_inv _ _ _ h
  obtain ⟨a6, h6, h⟩ := bind_ok_inv _ _ _ h
  obtain ⟨a7, h7, h⟩ := bind_ok_inv _ _ _ h
  obtain ⟨a8, h8, h⟩ := bind_ok_inv _ _ _ h
  injection h with hE
  subst hE
  refine ⟨?_, ?_, ?_, ?_, ?_, ?_, ?_⟩
  · intro habs
    rw [optF_of_not_mem _ _ _ _ habs] at h2
    injection h2 with hz
    exact hz.symm
  · intro habs
    rw [optF_of_not_mem _ _ _ _ habs] at h3
    injection h3 with hz
    exact hz.symm
  · intro habs
    rw [optF_of_not_mem _ _ _ _ habs] at h4
    injection h4 with hz
    exact hz.symm
  · intro habs
    rw [optF_of_not_mem _ _ _ _ habs] at h5
    injection h5 with hz
    exact hz.symm
  · intro habs
    rw [optF_of_not_mem _ _ _ _ habs] at h6
    injection h6 with hz
    exact hz.symm
  · intro habs
    rw [optF_of_not_mem _ _ _ _ habs] at h7
    injection h7 with hz
    exact hz.symm
  · intro habs
    rw [optF_of_not_mem _ _ _ _ habs] at h8
    injection h8 with hz
    exact hz.symm

/-- Every defaulted field of `Paragraph` absent from the input object
equals its zero value in a successful parse. -/
theorem Paragraph_fromJson_defaults (ms : List (String × Json)) (p : Paragraph)
    (h : Paragraph.fromJson (.obj ms) = .ok p) :
    ("tokenFrom" ∉ ms.map Prod.fst → p.token_from = 0) ∧
    ("tokenTo" ∉ ms.map Prod.fst → p.token_to = 0) ∧
    ("tokens" ∉ ms.map Prod.fst → p.tokens = []) ∧
    ("sentences" ∉ ms.map Prod.fst → p.sentences = []) := by
  rw [Paragraph.fromJson] at h
  rw [show asObj (Json.obj ms) = .ok ms from rfl] at h
  rw [ebind_ok] at h
  obtain ⟨a1, h1, h⟩ := bind_ok_inv _ _ _ h
  obtain ⟨a2, h2, h⟩ := bind_ok_inv _ _ _ h
  obtain ⟨a3, h3, h⟩ := bind_ok_inv _ _ _ h
  obtain ⟨a4, h4, h⟩ := bind_ok_inv _ _ _ h
  obtain ⟨a5, h5, h⟩ := bind_ok_inv _ _ _ h
  injection h with hE
  subst hE
  refine ⟨?_, ?_, ?_, ?_⟩
  · intro habs
    rw [optF_of_not_mem _ _ _ _ habs] at h2
    injection h2 with hz
    exact hz.symm
  · intro habs
    rw [optF_of_not_mem _ _ _ _ habs] at h3
    injection h3 with hz
    exact hz.symm
  · intro habs
    rw [optF_of_not_mem _ _ _ _ habs] at h4
    injection h4 with hz
    exact hz.symm
  · intro habs
    rw [optF_of_not_mem _ _ _ _ habs] at h5
    injection h5 with hz
    exact hz.symm

/-- Every defaulted field of `Entity` absent from the input object
equals its zero value in a successful parse. -/
theorem Entity_fromJson_defaults (ms : List (String × Json)) (e : Entity)
    (h : Entity.fromJson (.obj ms) = .ok e) :
    ("label" ∉ ms.map Prod.fst → e.label = "") ∧
    ("type" ∉ ms.map Prod.fst → e.etype = "") ∧
    ("url" ∉ ms.map Prod.fst → e.url = "") ∧
    ("head" ∉ ms.map Prod.fst → e.head = 0) ∧
    ("tokenFrom" ∉ ms.map Prod.fst → e.token_from = 0) ∧
    ("tokenTo" ∉ ms.map Prod.fst → e.token_to = 0) ∧
    ("tokens" ∉ ms.map Prod.fst → e.tokens = []) ∧
    ("tripleID" ∉ ms.map Prod.fst → e.triple_id = 0) ∧
    ("sentiment" ∉ ms.map Prod.fst → e.sentiment = "") ∧
    ("sentimentProb" ∉ ms.map Prod.fst → e.sentiment_prob = f64zero) ∧
    ("count" ∉ ms.map Prod.fst → e.count = 0) ∧
    ("attributes" ∉ ms.map Prod.fst → e.attributes = []) := by
  rw [Entity.fromJson] at h
  rw [show asObj (Json.obj ms) = .ok ms from rfl] at h
  rw [ebind_ok] at h
  obtain ⟨a1, h1, h⟩ := bind_ok_inv _ _ _ h
  obtain ⟨a2, h2, h⟩ := bind_ok_inv _ _ _ h
  obtain ⟨a3, h3, h⟩ := bind_ok_inv _ _ _ h
  obtain ⟨a4, h4, h⟩ := bind_ok_inv _ _ _ h
  obtain ⟨a5, h5, h⟩ := bind_ok_inv _ _ _ h
  obtain ⟨a6, h6, h⟩ := bind_ok_inv _ _ _ h
  obtain ⟨a7, h7, h⟩ := bind_ok_inv _ _ _ h
  obtain ⟨a8, h8, h⟩ := bind_ok_inv _ _ _ h
  obtain ⟨a9, h9, h⟩ := bind_ok_inv _ _ _ h
  obtain ⟨a10, h10, h⟩ := bind_ok_inv _ _ _ h
  obtain ⟨a11, h11, h⟩ := bind_ok_inv _ _ _ h
  obtain ⟨a12, h12, h⟩ := bind_ok_inv _ _ _ h
  obtain ⟨a13, h13, h⟩ := bind_ok_inv _ _ _ h
  injection h with hE
  subst hE
  refine ⟨?_, ?_, ?_, ?_, ?_, ?_, ?_, ?_, ?_, ?_, ?_, ?_⟩
  · intro habs
    rw [optF_of_not_mem _ _ _ _ habs] at h2
    injection h2 with hz
    exact hz.symm
  · intro habs
    rw [optF_of_not_mem _ _ _ _ habs] at h3
    injection h3 with hz
    exact hz.symm
  · intro habs
    rw [optF_of_not_mem _ _ _ _ habs] at h4
    injection h4 with hz
    exact hz.symm
  · intro habs
    rw [optF_of_not_mem _ _ _ _ habs] at h5
    injection h5 with hz
    exact hz.symm
  · intro habs
    rw [optF_of_not_mem _ _ _ _ habs] at h6
    injection h6 with hz
    exact hz.symm
  · intro habs
    rw [optF_of_not_mem _ _ _ _ habs] at h7
    injection h7 with hz
    exact hz.symm
  · intro habs
    rw [optF_of_not_mem _ _ _ _ habs] at h8
    injection h8 with hz
    exact hz.symm
  · intro habs
    rw [optF_of_not_mem _ _ _ _ habs] at h9
    injection h9 with hz
    exact hz.symm
  · intro habs
    rw [optF_of_not_mem _ _ _ _ habs] at h10
    injection h10 with hz
    exact hz.symm
  · intro habs
    rw [optF_of_not_mem _ _ _ _ habs] at h11
    injection h11 with hz
    exact hz.symm
  · intro habs
    rw [optF_of_not_mem _ _ _ _ habs] at h12
    injection h12 with hz
    exact hz.symm
  · intro habs
    rw [optF_of_not_mem _ _ _ _ habs] at h13
    injection h13 with hz
    exact hz.symm

/-- Every defaulted field of `Relation` absent from the input object
equals its zero value in a successful parse. -/
theorem Relation_fromJson_defaults (ms : List (String × Json)) (r : Relation)
    (h : Relation.fromJson (.obj ms) = .ok r) :
    ("label" ∉ ms.map Prod.fst → r.label = "") ∧
    ("type" ∉ ms.map Prod.fst → r.rtype = "") ∧
    ("url" ∉ ms.map Prod.fst → r.url = "") ∧
    ("head" ∉ ms.map Prod.fst → r.head = 0) ∧
    ("tokenFrom" ∉ ms.map Prod.fst → r.token_from = 0) ∧
    ("tokenTo" ∉ ms.map Prod.fst → r.token_to = 0) ∧
    ("tokens" ∉ ms.map Prod.fst → r.tokens = []) ∧
    ("sentiment" ∉ ms.map Prod.fst → r.sentiment = "") ∧
    ("sentimentProb" ∉ ms.map Prod.fst → r.sentiment_prob = f64zero) ∧
    ("count" ∉ ms.map Prod.fst → r.count = 0) ∧
    ("attributes" ∉ ms.map Prod.fst → r.attributes = []) := by
  rw [Relation.fromJson] at h
  rw [show asObj (Json.obj ms) = .ok ms from rfl] at h
  rw [ebind_ok] at h
  obtain ⟨a1, h1, h⟩ := bind_ok_inv _ _ _ h
  obtain ⟨a2, h2, h⟩ := bind_ok_inv _ _ _ h
  obtain ⟨a3, h3, h⟩ := bind_ok_inv _ _ _ h
  obtain ⟨a4, h4, h⟩ := bind_ok_inv _ _ _ h
  obtain ⟨a5, h5, h⟩ := bind_ok_inv _ _ _ h
  obtain ⟨a6, h6, h⟩ := bind_ok_inv _ _ _ h
  obtain ⟨a7, h7, h⟩ := bind_ok_inv _ _ _ h
  obtain ⟨a8, h8, h⟩ := bind_ok_inv _ _ _ h
  obtain ⟨a9, h9, h⟩ := bind_ok_inv _ _ _ h
  obtain ⟨a10, h10, h⟩ := bind_ok_inv _ _ _ h
  obtain ⟨a11, h11, h⟩ := bind_ok_inv _ _ _ h
  obtain ⟨a12, h12, h⟩ := bind_ok_inv _ _ _ h
  injection h with hE
  subst hE
  refine ⟨?_, ?_, ?_, ?_, ?_, ?_, ?_, ?_, ?_, ?_, ?_⟩
  · intro habs
    rw [optF_of_not_mem _ _ _ _ habs] at h2
    injection h2 with hz
    exact hz.symm
  · intro habs
    rw [optF_of_not_mem _ _ _ _ habs] at h3
    injection h3 with hz
    exact hz.symm
  · intro habs
    rw [optF_of_not_mem _ _ _ _ habs] at h4
    injection h4 with hz
    exact hz.symm
  · intro habs
    rw [optF_of_not_mem _ _ _ _ habs] at h5
    injection h5 with hz
    exact hz.symm
  · intro habs
    rw [optF_of_not_mem _ _ _ _ habs] at h6
    injection h6 with hz
    exact hz.symm
  · intro habs
    rw [optF_of_not_mem _ _ _ _ habs] at h7
    injection h7 with hz
    exact hz.symm
  · intro habs
    rw [optF_of_not_mem _ _ _ _ habs] at h8
    injection h8 with hz
    exact hz.symm
  · intro habs
    rw [optF_of_not_mem _ _ _ _ habs] at h9
    injection h9 with hz
    exact hz.symm
  · intro habs
    rw [optF_of_not_mem _ _ _ _ habs] at h10
    injection h10 with hz
    exact hz.symm
  · intro habs
    rw [optF_of_not_mem _ _ _ _ habs] at h11
    injection h11 with hz
    exact hz.symm
  · intro habs
    rw [optF_of_not_mem _ _ _ _ habs] at h12
    injection h12 with hz
    exact hz.symm

/-- Every defaulted field of `Triple` absent from the input object
equals its zero value in a successful parse. -/
theorem Triple_fromJson_defaults (ms : List (String × Json)) (t : Triple)
    (h : Triple.fromJson (.obj ms) = .ok t) :
    ("fromEntity" ∉ ms.map Prod.fst → t.from_entity = 0) ∧
    ("toEntity" ∉ ms.map Prod.fst → t.to_entity = 0) ∧
    ("rel" ∉ ms.map Prod.fst → t.rel = 0) ∧
    ("clauseID" ∉ ms.map Prod.fst → t.clause_id = []) ∧
    ("sentenceID" ∉ ms.map Prod.fst → t.sentence_id = []) ∧
    ("directional" ∉ ms.map Prod.fst → t.directional = false) ∧
    ("eventID" ∉ ms.map Prod.fst → t.event_id = 0) ∧
    ("tempSeq" ∉ ms.map Prod.fst → t.temp_seq = 0) ∧
    ("prob" ∉ ms.map Prod.fst → t.prob = f64zero) ∧
    ("syntactic" ∉ ms.map Prod.fst → t.syntactic = false) ∧
    ("implied" ∉ ms.map Prod.fst → t.implied = false) ∧
    ("presupposed" ∉ ms.map Prod.fst → t.presupposed = false) ∧
    ("count" ∉ ms.map Prod.fst → t.count = 0) := by
  rw [Triple.fromJson] at h
  rw [show asObj (Json.obj ms) = .ok ms from rfl] at h
  rw [ebind_ok] at h
  obtain ⟨a1, h1, h⟩ := bind_ok_inv _ _ _ h
  obtain ⟨a2, h2, h⟩ := bind_ok_inv _ _ _ h
  obtain ⟨a3, h3, h⟩ := bind_ok_inv _ _ _ h
  obtain ⟨a4, h4, h⟩ := bind_ok_inv _ _ _ h
  obtain ⟨a5, h5, h⟩ := bind_ok_inv _ _ _ h
  obtain ⟨a6, h6, h⟩ := bind_ok_inv _ _ _ h
  obtain ⟨a7, h7, h⟩ := bind_ok_inv _ _ _ h
  obtain ⟨a8, h8, h⟩ := bind_ok_inv _ _ _ h
  obtain ⟨a9, h9, h⟩ := bind_ok_inv _ _ _ h
  obtain ⟨a10, h10, h⟩ := bind_ok_inv _ _ _ h
  obtain ⟨a11, h11, h⟩ := bind_ok_inv _ _ _ h
  obtain ⟨a12, h12, h⟩ := bind_ok_inv _ _ _ h
  obtain ⟨a13, h13, h⟩ := bind_ok_inv _ _ _ h
  obtain ⟨a14, h14, h⟩ := bind_ok_inv _ _ _ h
  injection h with hE
  subst hE
  refine ⟨?_, ?_, ?_, ?_, ?_, ?_, ?_, ?_, ?_, ?_, ?_, ?_, ?_⟩
  · intro habs
    rw [optF_of_not_mem _ _ _ _ habs] at h2
    injection h2 with hz
    exact hz.symm
  · intro habs
    rw [optF_of_not_mem _ _ _ _ habs] at h3
    injection h3 with hz
    exact hz.symm
  · intro habs
    rw [optF_of_not_mem _ _ _ _ habs] at h4
    injection h4 with hz
    exact hz.symm
  · intro habs
    rw [optF_of_not_mem _ _ _ _ habs] at h5
    injection h5 with hz
    exact hz.symm
  · intro habs
    rw [optF_of_not_mem _ _ _ _ habs] at h6
    injection h6 with hz
    exact hz.symm
  · intro habs
    rw [optF_of_not_mem _ _ _ _ habs] at h7
    injection h7 with hz
    exact hz.symm
  · intro habs
    rw [optF_of_not_mem _ _ _ _ habs] at h8
    injection h8 with hz
    exact hz.symm
  · intro habs
    rw [optF_of_not_mem _ _ _ _ habs] at h9
    injection h9 with hz
    exact hz.symm
  · intro habs
    rw [optF_of_not_mem _ _ _ _ habs] at h10
    injection h10 with hz
    exact hz.symm
  · intro habs
    rw [optF_of_not_mem _ _ _ _ habs] at h11
    injection h11 with hz
    exact hz.symm
  · intro habs
    rw [optF_of_not_mem _ _ _ _ habs] at h12
    injection h12 with hz
    exact hz.symm
  · intro habs
    rw [optF_of_not_mem _ _ _ _ habs] at h13
    injection h13 with hz
    exact hz.symm
  · intro habs
    rw [optF_of_not_mem _ _ _ _ habs] at h14
    injection h14 with hz
    exact hz.symm

/-- Every defaulted field of `Document` absent from the input object
equals its zero value in a successful parse. -/
theorem Document_fromJson_defaults (ms : List (String × Json)) (d : Document)
    (h : Document.fromJson (.obj ms) = .ok d) :
    ("tokenList" ∉ ms.map Prod.fst → d.token_list = []) ∧
    ("clauses" ∉ ms.map Prod.fst → d.clauses = []) ∧
    ("sentences" ∉ ms.map Prod.fst → d.sentences = []) ∧
    ("paragraphs" ∉ ms.map Prod.fst → d.paragraphs = []) ∧
    ("dependencyTrees" ∉ ms.map Prod.fst → d.dependency_trees = []) ∧
    ("coreferences" ∉ ms.map Prod.fst → d.coreferences = []) ∧
    ("constituents" ∉ ms.map Prod.fst → d.constituents = []) ∧
    ("expressions" ∉ ms.map Prod.fst → d.expressions = []) ∧
    ("entities" ∉ ms.map Prod.fst → d.entities = []) ∧
    ("relations" ∉ ms.map Prod.fst → d.relations = []) ∧
    ("triples" ∉ ms.map Prod.fst → d.triples = []) := by
  rw [Document.fromJson] at h
  rw [show asObj (Json.obj ms) = .ok ms from rfl] at h
  rw [ebind_ok] at h
  obtain ⟨a1, h1, h⟩ := bind_ok_inv _ _ _ h
  obtain ⟨a2, h2, h⟩ := bind_ok_inv _ _ _ h
  obtain ⟨a3, h3, h⟩ := bind_ok_inv _ _ _ h
  obtain ⟨a4, h4, h⟩ := bind_ok_inv _ _ _ h
  obtain ⟨a5, h5, h⟩ := bind_ok_inv _ _ _ h
  obtain ⟨a6, h6, h⟩ := bind_ok_inv _ _ _ h
  obtain ⟨a7, h7, h⟩ := bind_ok_inv _ _ _ h
  obtain ⟨a8, h8, h⟩ := bind_ok_inv _ _ _ h
  obtain ⟨a9, h9, h⟩ := bind_ok_inv _ _ _ h
  obtain ⟨a10, h10, h⟩ := bind_ok_inv _ _ _ h
  obtain ⟨a11, h11, h⟩ := bind_ok_inv _ _ _ h
  obtain ⟨a12, h12, h⟩ := bind_ok_inv _ _ _ h
  obtain ⟨a13, h13, h⟩ := bind_ok_inv _ _ _ h
  injection h with hE
  subst hE
  refine ⟨?_, ?_, ?_, ?_, ?_, ?_, ?_, ?_, ?_, ?_, ?_⟩
  · intro habs
    rw [optF_of_not_mem _ _ _ _ habs] at h3
    injection h3 with hz
    exact hz.symm
  · intro habs
    rw [optF_of_not_mem _ _ _ _ habs] at h4
    injection h4 with hz
    exact hz.symm
  · intro habs
    rw [optF_of_not_mem _ _ _ _ habs] at h5
    injection h5 with hz
    exact hz.symm
  · intro habs
    rw [optF_of_not_mem _ _ _ _ habs] at h6
    injection h6 with hz
    exact hz.symm
  · intro habs
    rw [optF_of_not_mem _ _ _ _ habs] at h7
    injection h7 with hz
    exact hz.symm
  · intro habs
    rw [optF_of_not_mem _ _ _ _ habs] at h8
    injection h8 with hz
    exact hz.symm
  · intro habs
    rw [optF_of_not_mem _ _ _ _ habs] at h9
    injection h9 with hz
    exact hz.symm
  · intro habs
    rw [optF_of_not_mem _ _ _ _ habs] at h10
    injection h10 with hz
    exact hz.symm
  · intro habs
    rw [optF_of_not_mem _ _ _ _ habs] at h11
    injection h11 with hz
    exact hz.symm
  · intro habs
    rw [optF_of_not_mem _ _ _ _ habs] at h12
    injection h12 with hz
    exact hz.symm
  · intro habs
    rw [optF_of_not_mem _ _ _ _ habs] at h13
    injection h13 with hz
    exact hz.symm

/-- Every defaulted field of `JSONNLP` absent from the input object
equals its zero value in a successful parse. -/
theorem JSONNLP_fromJson_defaults (ms : List (String × Json)) (j : JSONNLP)
    (h : JSONNLP.fromJson (.obj ms) = .ok j) :
    ("docs" ∉ ms.map Prod.fst → j.docs = []) := by
  rw [JSONNLP.fromJson] at h
  rw [show asObj (Json.obj ms) = .ok ms from rfl] at h
  rw [ebind_ok] at h
  obtain ⟨a1, h1, h⟩ := bind_ok_inv _ _ _ h
  obtain ⟨a2, h2, h⟩ := bind_ok_inv _ _ _ h
  injection h with hE
  subst hE
  intro habs
  rw [optF_of_not_mem _ _ _ _ habs] at h2
  injection h2 with hz
  exact hz.symm

/-- A Token object without an `id`, `text` or `lemma` member fails to
deserialize. -/
theorem Token.fromJson_missing_required (ms : List (String × Json))
    (h : "id" ∉ ms.map Prod.fst ∨ "text" ∉ ms.map Prod.fst ∨
      "lemma" ∉ ms.map Prod.fst) :
    (Token.fromJson (.obj ms)).isOk = false := by
  rw [Token.fromJson]
  rw [show asObj (Json.obj ms) = .ok ms from rfl]
  rw [ebind_ok]
  rcases h with h | h | h
  · rw [reqF_of_not_mem _ _ _ h]
    rfl
  · refine bind_isOk_false _ _ (fun a1 _ => ?_)
    refine bind_isOk_false _ _ (fun a2 _ => ?_)
    rw [reqF_of_not_mem _ _ _ h]
    rfl
  · refine bind_isOk_false _ _ (fun a1 _ => ?_)
    refine bind_isOk_false _ _ (fun a2 _ => ?_)
    refine bind_isOk_false _ _ (fun a3 _ => ?_)
    rw [reqF_of_not_mem _ _ _ h]
    rfl

/-- A Document whose `tokenList` contains a Token object lacking `id`,
`text` or `lemma` fails to deserialize. -/
theorem Document_fromJson_bad_token (dms : List (String × Json))
    (tl : List Json) (tms : List (String × Json))
    (hget : getOpt dms "tokenList" = .ok (some (Json.arr tl)))
    (hmem : Json.obj tms ∈ tl)
    (hmiss : "id" ∉ tms.map Prod.fst ∨ "text" ∉ tms.map Prod.fst ∨
      "lemma" ∉ tms.map Prod.fst) :
    (Document.fromJson (.obj dms)).isOk = false := by
  rw [Document.fromJson]
  rw [show asObj (Json.obj dms) = .ok dms from rfl]
  rw [ebind_ok]
  refine bind_isOk_false _ _ (fun a1 _ => ?_)
  refine bind_isOk_false _ _ (fun a2 _ => ?_)
  refine bind_isOk_false_left _ _ ?_
  refine optF_err_of_getOpt _ _ _ _ _ hget ?_
  simp only [parseArr]
  exact parseMany_mem_err _ _ _ hmem (Token.fromJson_missing_required tms hmiss)

/-- A JSONNLP document whose `docs` contains a Document whose
`tokenList` contains a Token object lacking `id`, `text` or `lemma` fails
to deserialize. -/
theorem JSONNLP_fromJson_bad_token (ms : List (String × Json))
    (dl : List Json) (dms : List (String × Json)) (tl : List Json)
    (tms : List (String × Json))
    (hdocs : getOpt ms "docs" = .ok (some (Json.arr dl)))
    (hdmem : Json.obj dms ∈ dl)
    (hget : getOpt dms "tokenList" = .ok (some (Json.arr tl)))
    (hmem : Json.obj tms ∈ tl)
    (hmiss : "id" ∉ tms.map Prod.fst ∨ "text" ∉ tms.map Prod.fst ∨
      "lemma" ∉ tms.map Prod.fst) :
    (JSONNLP.fromJson (.obj ms)).isOk = false := by
  rw [JSONNLP.fromJson]
  rw [show asObj (Json.obj ms) = .ok ms from rfl]
  rw [ebind_ok]
  refine bind_isOk_false _ _ (fun a1 _ => ?_)
  refine bind_isOk_false_left _ _ ?_
  refine optF_err_of_getOpt _ _ _ _ _ hdocs ?_
  simp only [parseArr]
  exact parseMany_mem_err _ _ _ hdmem
    (Document_fromJson_bad_token dms tl tms hget hmem hmiss)

/-- A Token object whose `id` member is a negative integer fails to
deserialize. -/
theorem Token.fromJson_negative_id (ms : List (String × Json)) (n : Int)
    (hn : n < 0) (hget : getOpt ms "id" = .ok (some (Json.num (JNum.int n)))) :
    (Token.fromJson (.obj ms)).isOk = false := by
  rw [Token.fromJson]
  rw [show asObj (Json.obj ms) = .ok ms from rfl]
  rw [ebind_ok]
  refine bind_isOk_false_left _ _ ?_
  refine reqF_err_of_getOpt _ _ _ _ hget ?_
  rw [parseU64_neg n hn]
  rfl

/-- A Dependency object whose `gov` member is a negative integer fails
to deserialize. -/
theorem Dependency.fromJson_negative_gov (ms : List (String × Json)) (n : Int)
    (hn : n < 0) (hget : getOpt ms "gov" = .ok (some (Json.num (JNum.int n)))) :
    (Dependency.fromJson (.obj ms)).isOk = false := by
  rw [Dependency.fromJson]
  rw [show asObj (Json.obj ms) = .ok ms from rfl]
  rw [ebind_ok]
  refine bind_isOk_false _ _ (fun a1 _ => ?_)
  refine bind_isOk_false_left _ _ ?_
  refine reqF_err_of_getOpt _ _ _ _ hget ?_
  rw [parseU64_neg n hn]
  rfl

/-- A TokenFeatures object whose `number` member exceeds 255 fails to
deserialize. -/
theorem TokenFeatures.fromJson_number_over (ms : List (String × Json))
    (n : Int) (hn : 255 < n)
    (hget : getOpt ms "number" = .ok (some (Json.num (JNum.int n)))) :
    (TokenFeatures.fromJson (.obj ms)).isOk = false := by
  rw [TokenFeatures.fromJson]
  rw [show asObj (Json.obj ms) = .ok ms from rfl]
  rw [ebind_ok]
  refine bind_isOk_false _ _ (fun a1 _ => ?_)
  refine bind_isOk_false _ _ (fun a2 _ => ?_)
  refine bind_isOk_false _ _ (fun a3 _ => ?_)
  refine bind_isOk_false_left _ _ ?_
  refine optF_err_of_getOpt _ _ _ _ _ hget ?_
  rw [parseU8_over n hn]
  rfl

/-- A TokenFeatures object whose `person` member exceeds 255 fails to
deserialize. -/
theorem TokenFeatures.fromJson_person_over (ms : List (String × Json))
    (n : Int) (hn : 255 < n)
    (hget : getOpt ms "person" = .ok (some (Json.num (JNum.int n)))) :
    (TokenFeatures.fromJson (.obj ms)).isOk = false := by
  rw [TokenFeatures.fromJson]
  rw [show asObj (Json.obj ms) = .ok ms from rfl]
  rw [ebind_ok]
  refine bind_isOk_false _ _ (fun a1 _ => ?_)
  refine bind_isOk_false _ _ (fun a2 _ => ?_)
  refine bind_isOk_false _ _ (fun a3 _ => ?_)
  refine bind_isOk_false _ _ (fun a4 _ => ?_)
  refine bind_isOk_false _ _ (fun a5 _ => ?_)
  refine bind_isOk_false_left _ _ ?_
  refine optF_err_of_getOpt _ _ _ _ _ hget ?_
  rw [parseU8_over n hn]
  rfl

/-! ### Concrete sample values and texts -/

/-- A zero-valued `TokenFeatures` (every field at its serde default). -/
def zeroFeatures : TokenFeatures :=
  ⟨false, false, false, 0, "", 0, "", false, false, false, "", false,
   false, false, false, false, false, false, false, "", false, false⟩

/-- Sample metadata with every string non-empty. -/
def sampleMeta : Meta :=
  ⟨"x", "x", "x", "x", "x", "x", "x", "x", "x", "x", "x"⟩

/-- Sample metadata whose `author` is `"X"`. -/
def sampleMetaX : Meta :=
  ⟨"x", "X", "x", "x", "x", "x", "x", "x", "x", "x", "x"⟩

/-- Sample features with every string non-empty. -/
def sampleFeatures : TokenFeatures :=
  ⟨true, false, true, 2, "f", 3, "past", false, false, false, "nom",
   true, true, false, true, false, false, false, true, "ind", false, true⟩

/-- Sample token with every string non-empty and `prop_id_prob = 0.5`. -/
def sampleToken : Token :=
  ⟨1, 1, "Hi", "hi", "NN", .dec 9 1, "NOUN", .dec 8 1, "O", 0, 2, "p",
   .dec 5 1, 4, .dec 1 1, 5, .dec 2 1, 6, .dec 3 1, "en", sampleFeatures,
   "Xx", "X"⟩

/-- Sample sentence with every string non-empty. -/
def sampleSentence : Sentence :=
  ⟨1, 1, 1, [1], [1], "decl", "pos", .dec 5 1⟩

/-- Sample dependency. -/
def sampleDependency : Dependency := ⟨"root", 0, 1, .dec 5 1⟩

/-- Sample dependency tree. -/
def sampleDepTree : DependencyTree := ⟨1, "uni", [sampleDependency], .dec 5 1⟩

/-- Sample attribute. -/
def sampleAttribute : Attribute := ⟨"k", "v"⟩

/-- Sample entity with every string non-empty. -/
def sampleEntity : Entity :=
  ⟨1, "L", "T", "u", 1, 1, 1, [1], 1, "pos", .dec 5 1, 1, [sampleAttribute]⟩

/-- Sample document exercising tokens, sentences, dependency trees and
entities. -/
def sampleDocument : Document :=
  ⟨sampleMeta, 1, [sampleToken], [], [sampleSentence], [], [sampleDepTree],
   [], [], [], [sampleEntity], [], []⟩

/-- Sample model for concrete round-trip checks. -/
def sampleModel : JSONNLP := ⟨sampleMeta, [sampleDocument]⟩

/-- A document text whose only token lacks `sentence_id`. -/
def tokenNoSentenceIdText : String :=
  "\x7b\"meta\":\x7b\x7d,\"docs\":[\x7b\"meta\":\x7b\x7d,\"id\":1,\"tokenList\":[\x7b\"id\":1,\"text\":\"Hi\",\"lemma\":\"hi\",\"features\":\x7b\x7d\x7d]\x7d]\x7d"

/-- A document text whose only token lacks `lemma`. -/
def tokenNoLemmaText : String :=
  "\x7b\"meta\":\x7b\x7d,\"docs\":[\x7b\"meta\":\x7b\x7d,\"id\":1,\"tokenList\":[\x7b\"id\":1,\"sentence_id\":1,\"text\":\"Hi\",\"features\":\x7b\x7d\x7d]\x7d]\x7d"

/-- The end-to-end scenario input of the specification. -/
def scenarioText : String :=
  "\x7b\"meta\":\x7b\x7d,\"docs\":[\x7b\"meta\":\x7b\x7d,\"id\":1,\"tokenList\":[\x7b\"id\":1,\"sentence_id\":1,\"text\":\"Hi\",\"lemma\":\"hi\",\"features\":\x7b\x7d\x7d]\x7d]\x7d"


/-! ### Claim theorems -/

/-- Helper object: the member list of a Token carrying only the required
fields. -/
def minimalTokenMembers : List (String × Json) :=
  [("id", jnat 7), ("sentence_id", jnat 1), ("text", Json.str "Hi"),
   ("lemma", Json.str "hi"), ("features", Json.obj [])]

/-- The Token value produced from `minimalTokenMembers`: required fields
as given, every other field at its zero value. -/
def minimalToken : Token :=
  ⟨7, 1, "Hi", "hi", "", f64zero, "", f64zero, "", 0, 0, "", f64zero, 0,
   f64zero, 0, f64zero, 0, f64zero, "", zeroFeatures, "", ""⟩

set_option maxRecDepth 100000 in
/-- C1: `from_string` never returns an error value to the caller: on any
input that is not well-formed JSON (here `""`) or violates a required
field (here `"\x7b\x7d"`, well-formed JSON missing the required `meta`),
the underlying decode fails, and the source's `.unwrap()` turns that
failure into a panic (modeled as `none`) instead of the `Err` value the
claim promises.  This evaluates the code at the failing inputs. -/
theorem C1_from_string_panics_on_bad_input :
    from_string "" = none ∧ from_string "\x7b\x7d" = none ∧
    (serde_from_str "").isOk = false ∧
    (serde_from_str "\x7b\x7d").isOk = false :=
  ⟨rfl, rfl, rfl, rfl⟩

set_option maxRecDepth 100000 in
/-- C2 counterexample: a Token object carrying `id`, `text`, `lemma` and
`features` but no `sentence_id` fails to parse (the claim says it parses
with `sentence_id = 0`); a Sentence object without `id` fails as well;
and a full document whose only token lacks `sentence_id` makes
`from_string` fail (panic, modeled `none`). -/
theorem C2_counterexample :
    (Token.fromJson (Json.obj [("id", jnat 1), ("text", Json.str "a"),
      ("lemma", Json.str "a"), ("features", Json.obj [])])).isOk = false ∧
    (Sentence.fromJson (Json.obj [("tokenFrom", jnat 1)])).isOk = false ∧
    from_string tokenNoSentenceIdText = none := by
  refine ⟨rfl, rfl, ?_⟩
  rfl

/-- C2 (amended): for every entity type of the schema, every defaulted
field absent from the input object takes its type's zero value in a
successful parse (CoreferenceRepresentantive, Coreference, Scope and
Attribute have only required fields and hence no conjunct), and the
minimal objects carrying only the code's required fields (`id`,
`sentence_id`, `text`, `lemma`, `features` on Token; `id` on Sentence)
parse with every other field zero-valued. -/
theorem C2_defaulting_of_nonrequired_fields :
    (∀ (ms : List (String × Json)) (m : Meta),
      Meta.fromJson (.obj ms) = .ok m →
      ("DC.conformsTo" ∉ ms.map Prod.fst → m.conforms_to = "") ∧
      ("DC.author" ∉ ms.map Prod.fst → m.author = "") ∧
      ("DC.created" ∉ ms.map Prod.fst → m.created = "") ∧
      ("DC.date" ∉ ms.map Prod.fst → m.date = "") ∧
      ("DC.source" ∉ ms.map Prod.fst → m.source = "") ∧
      ("DC.language" ∉ ms.map Prod.fst → m.language = "") ∧
      ("DC.creator" ∉ ms.map Prod.fst → m.creator = "") ∧
      ("DC.publisher" ∉ ms.map Prod.fst → m.publisher = "") ∧
      ("DC.title" ∉ ms.map Prod.fst → m.title = "") ∧
      ("DC.description" ∉ ms.map Prod.fst → m.description = "") ∧
      ("DC.identifier" ∉ ms.map Prod.fst → m.identifier = "")) ∧
    (∀ (ms : List (String × Json)) (t : TokenFeatures),
      TokenFeatures.fromJson (.obj ms) = .ok t →
      ("overt" ∉ ms.map Prod.fst → t.overt = false) ∧
      ("stop" ∉ ms.map Prod.fst → t.stop = false) ∧
      ("alpha" ∉ ms.map Prod.fst → t.alpha = false) ∧
      ("number" ∉ ms.map Prod.fst → t.number = 0) ∧
      ("gender" ∉ ms.map Prod.fst → t.gender = "") ∧
      ("person" ∉ ms.map Prod.fst → t.person = 0) ∧
      ("tense" ∉ ms.map Prod.fst → t.tense = "") ∧
      ("perfect" ∉ ms.map Prod.fst → t.perfect = false) ∧
      ("continuous" ∉ ms.map Prod.fst → t.continuous = false) ∧
      ("progressive" ∉ ms.map Prod.fst → t.progressive = false) ∧
      ("case" ∉ ms.map Prod.fst → t.«case» = "") ∧
      ("human" ∉ ms.map Prod.fst → t.human = false) ∧
      ("animate" ∉ ms.map Prod.fst → t.animate = false) ∧
      ("negated" ∉ ms.map Prod.fst → t.negated = false) ∧
      ("countable" ∉ ms.map Prod.fst → t.countable = false) ∧
      ("factive" ∉ ms.map Prod.fst → t.factive = false) ∧
      ("counterfactive" ∉ ms.map Prod.fst → t.counterfactive = false) ∧
      ("irregular" ∉ ms.map Prod.fst → t.irregular = false) ∧
      ("phrasalVerb" ∉ ms.map Prod.fst → t.phrasalverb = false) ∧
      ("mood" ∉ ms.map Prod.fst → t.mood = "") ∧
      ("foreign" ∉ ms.map Prod.fst → t.foreign = false) ∧
      ("spaceAfter" ∉ ms.map Prod.fst → t.spaceafter = false)) ∧
    (∀ (ms : List (String × Json)) (t : Token),
      Token.fromJson (.obj ms) = .ok t →
      ("xpos" ∉ ms.map Prod.fst → t.xpos = "") ∧
      ("xpos_prob" ∉ ms.map Prod.fst → t.xpos_prob = f64zero) ∧
      ("upos" ∉ ms.map Prod.fst → t.upos = "") ∧
      ("upos_prob" ∉ ms.map Prod.fst → t.upos_prob = f64zero) ∧
      ("entity_iob" ∉ ms.map Prod.fst → t.entity_iob = "") ∧
      ("characterOffsetBegin" ∉ ms.map Prod.fst → t.char_offset_begin = 0) ∧
      ("characterOffsetEnd" ∉ ms.map Prod.fst → t.char_offset_end = 0) ∧
      ("propID" ∉ ms.map Prod.fst → t.prop_id = "") ∧
      ("propIDProbability" ∉ ms.map Prod.fst → t.prop_id_prob = f64zero) ∧
      ("frameID" ∉ ms.map Prod.fst → t.frame_id = 0) ∧
      ("frameIDProb" ∉ ms.map Prod.fst → t.frame_id_prob = f64zero) ∧
      ("wordNetID" ∉ ms.map Prod.fst → t.wordnet_id = 0) ∧
      ("wordNetIDProb" ∉ ms.map Prod.fst → t.wordnet_id_prob = f64zero) ∧
      ("verbNetID" ∉ ms.map Prod.fst → t.verbnet_id = 0) ∧
      ("verbNetIDProb" ∉ ms.map Prod.fst → t.verbnet_id_prob = f64zero) ∧
      ("lang" ∉ ms.map Prod.fst → t.lang = "") ∧
      ("shape" ∉ ms.map Prod.fst → t.shape = "") ∧
      ("entity" ∉ ms.map Prod.fst → t.entity = "")) ∧
    (∀ (ms : List (String × Json)) (s : Sentence),
      Sentence.fromJson (.obj ms) = .ok s →
      ("tokenFrom" ∉ ms.map Prod.fst → s.token_from = 0) ∧
      ("tokenTo" ∉ ms.map Prod.fst → s.token_to = 0) ∧
      ("tokens" ∉ ms.map Prod.fst → s.tokens = []) ∧
      ("clauses" ∉ ms.map Prod.fst → s.clauses = []) ∧
      ("type" ∉ ms.map Prod.fst → s.stype = "") ∧
      ("sentiment" ∉ ms.map Prod.fst → s.sentiment = "") ∧
      ("sentimentProb" ∉ ms.map Prod.fst → s.sentiment_prob = f64zero)) ∧
    (∀ (ms : List (String × Json)) (c : Clause),
      Clause.fromJson (.obj ms) = .ok c →
      ("sentenceId" ∉ ms.map Prod.fst → c.sentence_id = 0) ∧
      ("tokenFrom" ∉ ms.map Prod.fst → c.token_from = 0) ∧
      ("tokenTo" ∉ ms.map Prod.fst → c.token_to = 0) ∧
      ("tokens" ∉ ms.map Prod.fst → c.tokens = []) ∧
      ("main" ∉ ms.map Prod.fst → c.main = false) ∧
      ("gov" ∉ ms.map Prod.fst → c.gov = 0) ∧
      ("head" ∉ ms.map Prod.fst → c.head = 0) ∧
      ("neg" ∉ ms.map Prod.fst → c.neg = false) ∧
      ("tense" ∉ ms.map Prod.fst → c.tense = "") ∧
      ("mood" ∉ ms.map Prod.fst → c.mood = "") ∧
      ("perfect" ∉ ms.map Prod.fst → c.perfect = false) ∧
      ("continuous" ∉ ms.map Prod.fst → c.continuous = false) ∧
      ("aspect" ∉ ms.map Prod.fst → c.aspect = "") ∧
      ("voice" ∉ ms.map Prod.fst → c.voice = "") ∧
      ("sentiment" ∉ ms.map Prod.fst → c.sentiment = "") ∧
      ("sentimentProb" ∉ ms.map Prod.fst → c.sentiment_prob = f64zero)) ∧
    (∀ (ms : List (String × Json)) (d : Dependency),
      Dependency.fromJson (.obj ms) = .ok d →
      ("prob" ∉ ms.map Prod.fst → d.prob = f64zero)) ∧
    (∀ (ms : List (String × Json)) (d : DependencyTree),
      DependencyTree.fromJson (.obj ms) = .ok d →
      ("sentenceId" ∉ ms.map Prod.fst → d.sentence_id = 0) ∧
      ("style" ∉ ms.map Prod.fst → d.style = "") ∧
      ("dependencies" ∉ ms.map Prod.fst → d.dependencies = []) ∧
      ("prob" ∉ ms.map Prod.fst → d.prob = f64zero)) ∧
    (∀ (ms : List (String × Json)) (c : CoreferenceReferents),
      CoreferenceReferents.fromJson (.obj ms) = .ok c →
      ("prob" ∉ ms.map Prod.fst → c.prob = f64zero)) ∧
    (∀ (ms : List (String × Json)) (c : ConstituentParse),
      ConstituentParse.fromJson (.obj ms) = .ok c →
      ("type" ∉ ms.map Prod.fst → c.ctype = "") ∧
      ("labeledBracketing" ∉ ms.map Prod.fst → c.labeled_bracketing = "") ∧
      ("prob" ∉ ms.map Prod.fst → c.prob = f64zero) ∧
      ("scopes" ∉ ms.map Prod.fst → c.scopes = [])) ∧
    (∀ (ms : List (String × Json)) (e : Expression),
      Expression.fromJson (.obj ms) = .ok e →
      ("type" ∉ ms.map Prod.fst → e.etype = "") ∧
      ("head" ∉ ms.map Prod.fst → e.head = 0) ∧
      ("dependency" ∉ ms.map Prod.fst → e.dependency = "") ∧
      ("tokenFrom" ∉ ms.map Prod.fst → e.token_from = 0) ∧
      ("tokenTo" ∉ ms.map Prod.fst → e.token_to = 0) ∧
      ("tokens" ∉ ms.map Prod.fst → e.tokens = []) ∧
      ("prob" ∉ ms.map Prod.fst → e.prob = f64zero)) ∧
    (∀ (ms : List (String × Json)) (p : Paragraph),
      Paragraph.fromJson (.obj ms) = .ok p →
      ("tokenFrom" ∉ ms.map Prod.fst → p.token_from = 0) ∧
      ("tokenTo" ∉ ms.map Prod.fst → p.token_to = 0) ∧
      ("tokens" ∉ ms.map Prod.fst → p.tokens = []) ∧
      ("sentences" ∉ ms.map Prod.fst → p.sentences = [])) ∧
    (∀ (ms : List (String × Json)) (e : Entity),
      Entity.fromJson (.obj ms) = .ok e →
      ("label" ∉ ms.map Prod.fst → e.label = "") ∧
      ("type" ∉ ms.map Prod.fst → e.etype = "") ∧
      ("url" ∉ ms.map Prod.fst → e.url = "") ∧
      ("head" ∉ ms.map Prod.fst → e.head = 0) ∧
      ("tokenFrom" ∉ ms.map Prod.fst → e.token_from = 0) ∧
      ("tokenTo" ∉ ms.map Prod.fst → e.token_to = 0) ∧
      ("tokens" ∉ ms.map Prod.fst → e.tokens = []) ∧
      ("tripleID" ∉ ms.map Prod.fst → e.triple_id = 0) ∧
      ("sentiment" ∉ ms.map Prod.fst → e.sentiment = "") ∧
      ("sentimentProb" ∉ ms.map Prod.fst → e.sentiment_prob = f64zero) ∧
      ("count" ∉ ms.map Prod.fst → e.count = 0) ∧
      ("attributes" ∉ ms.map Prod.fst → e.attributes = [])) ∧
    (∀ (ms : List (String × Json)) (r : Relation),
      Relation.fromJson (.obj ms) = .ok r →
      ("label" ∉ ms.map Prod.fst → r.label = "") ∧
      ("type" ∉ ms.map Prod.fst → r.rtype = "") ∧
      ("url" ∉ ms.map Prod.fst → r.url = "") ∧
      ("head" ∉ ms.map Prod.fst → r.head = 0) ∧
      ("tokenFrom" ∉ ms.map Prod.fst → r.token_from = 0) ∧
      ("tokenTo" ∉ ms.map Prod.fst → r.token_to = 0) ∧
      ("tokens" ∉ ms.map Prod.fst → r.tokens = []) ∧
      ("sentiment" ∉ ms.map Prod.fst → r.sentiment = "") ∧
      ("sentimentProb" ∉ ms.map Prod.fst → r.sentiment_prob = f64zero) ∧
      ("count" ∉ ms.map Prod.fst → r.count = 0) ∧
      ("attributes" ∉ ms.map Prod.fst → r.attributes = [])) ∧
    (∀ (ms : List (String × Json)) (t : Triple),
      Triple.fromJson (.obj ms) = .ok t →
      ("fromEntity" ∉ ms.map Prod.fst → t.from_entity = 0) ∧
      ("toEntity" ∉ ms.map Prod.fst → t.to_entity = 0) ∧
      ("rel" ∉ ms.map Prod.fst → t.rel = 0) ∧
      ("clauseID" ∉ ms.map Prod.fst → t.clause_id = []) ∧
      ("sentenceID" ∉ ms.map Prod.fst → t.sentence_id = []) ∧
      ("directional" ∉ ms.map Prod.fst → t.directional = false) ∧
      ("eventID" ∉ ms.map Prod.fst → t.event_id = 0) ∧
      ("tempSeq" ∉ ms.map Prod.fst → t.temp_seq = 0) ∧
      ("prob" ∉ ms.map Prod.fst → t.prob = f64zero) ∧
      ("syntactic" ∉ ms.map Prod.fst → t.syntactic = false) ∧
      ("implied" ∉ ms.map Prod.fst → t.implied = false) ∧
      ("presupposed" ∉ ms.map Prod.fst → t.presupposed = false) ∧
      ("count" ∉ ms.map Prod.fst → t.count = 0)) ∧
    (∀ (ms : List (String × Json)) (d : Document),
      Document.fromJson (.obj ms) = .ok d →
      ("tokenList" ∉ ms.map Prod.fst → d.token_list = []) ∧
      ("clauses" ∉ ms.map Prod.fst → d.clauses = []) ∧
      ("sentences" ∉ ms.map Prod.fst → d.sentences = []) ∧
      ("paragraphs" ∉ ms.map Prod.fst → d.paragraphs = []) ∧
      ("dependencyTrees" ∉ ms.map Prod.fst → d.dependency_trees = []) ∧
      ("coreferences" ∉ ms.map Prod.fst → d.coreferences = []) ∧
      ("constituents" ∉ ms.map Prod.fst → d.constituents = []) ∧
      ("expressions" ∉ ms.map Prod.fst → d.expressions = []) ∧
      ("entities" ∉ ms.map Prod.fst → d.entities = []) ∧
      ("relations" ∉ ms.map Prod.fst → d.relations = []) ∧
      ("triples" ∉ ms.map Prod.fst → d.triples = [])) ∧
    (∀ (ms : List (String × Json)) (j : JSONNLP),
      JSONNLP.fromJson (.obj ms) = .ok j →
      ("docs" ∉ ms.map Prod.fst → j.docs = [])) ∧
    Token.fromJson (.obj minimalTokenMembers) = .ok minimalToken ∧
    Sentence.fromJson (Json.obj [("id", jnat 3)]) =
      .ok ⟨3, 0, 0, [], [], "", "", f64zero⟩ :=
  ⟨Meta_fromJson_defaults, TokenFeatures_fromJson_defaults, Token_fromJson_defaults, Sentence_fromJson_defaults, Clause_fromJson_defaults, Dependency_fromJson_defaults, DependencyTree_fromJson_defaults, CoreferenceReferents_fromJson_defaults, ConstituentParse_fromJson_defaults, Expression_fromJson_defaults, Paragraph_fromJson_defaults, Entity_fromJson_defaults, Relation_fromJson_defaults, Triple_fromJson_defaults, Document_fromJson_defaults, JSONNLP_fromJson_defaults, rfl, rfl⟩

/-- C2 witness: the defaulting law applied at the minimal Token object:
its absent `xpos` is `""` and its absent `frameID` is `0`. -/
theorem C2_witness :
    minimalToken.xpos = "" ∧ minimalToken.frame_id = 0 :=
  ⟨(C2_defaulting_of_nonrequired_fields.2.2.1 minimalTokenMembers
      minimalToken rfl).1 (by decide),
   (C2_defaulting_of_nonrequired_fields.2.2.1 minimalTokenMembers
      minimalToken rfl).2.2.2.2.2.2.2.2.2.1 (by decide)⟩

/-- C3 counterexample: `Attribute.lab` and `Attribute.val` carry no
skip-if-empty attribute in the source, so an Attribute with empty `lab`
and `val` still renders both keys (with empty-string values) — the claim
says a string field's key is omitted whenever its value is empty. -/
theorem C3_counterexample :
    findVal "lab" (Attribute.jsonMembers ⟨"", ""⟩) = some (Json.str "") ∧
    findVal "val" (Attribute.jsonMembers ⟨"", ""⟩) = some (Json.str "") ∧
    findVal "text" (Token.jsonMembers
      ⟨1, 1, "", "", "", f64zero, "", f64zero, "", 0, 0, "", f64zero, 0,
       f64zero, 0, f64zero, 0, f64zero, "", zeroFeatures, "", ""⟩) =
      some (Json.str "") :=
  ⟨rfl, rfl, rfl⟩

/-- C3 (amended): for every struct, each skip-if-empty string field is
rendered as `strVal` (key absent exactly when the value is empty, present
with the exact value otherwise), while the required string fields
(`Token.text`, `Token.lemma`, `Dependency.lab`, `Attribute.lab`,
`Attribute.val`) are always present with their exact value. -/
theorem C3_string_field_omission :
    (∀ m : Meta, m.stringMembers) ∧
    (∀ t : TokenFeatures, t.stringMembers) ∧
    (∀ t : Token, t.stringMembers) ∧
    (∀ s : Sentence, s.stringMembers) ∧
    (∀ c : Clause, c.stringMembers) ∧
    (∀ d : Dependency, d.stringMembers) ∧
    (∀ d : DependencyTree, d.stringMembers) ∧
    (∀ c : ConstituentParse, c.stringMembers) ∧
    (∀ e : Expression, e.stringMembers) ∧
    (∀ a : Attribute, a.stringMembers) ∧
    (∀ e : Entity, e.stringMembers) ∧
    (∀ r : Relation, r.stringMembers) :=
  ⟨Meta_stringMembers_holds, TokenFeatures_stringMembers_holds,
   Token_stringMembers_holds, Sentence_stringMembers_holds,
   Clause_stringMembers_holds, Dependency_stringMembers_holds,
   DependencyTree_stringMembers_holds, ConstituentParse_stringMembers_holds,
   Expression_stringMembers_holds, Attribute_stringMembers_holds,
   Entity_stringMembers_holds, Relation_stringMembers_holds⟩

set_option maxRecDepth 100000 in
/-- C4: rendering a model whose string fields are all non-empty (and
whose machine integers are in `u64`/`u8` range, automatic in Rust) and
parsing the result yields the model back, structurally equal; and the
full string-level pipeline (`from_string` after `serde_json::to_string`)
round-trips the concrete `sampleModel`. -/
theorem C4_parse_render_roundtrip :
    (∀ M : JSONNLP, M.inRange → M.nonemptyStrings →
      JSONNLP.fromJson (JSONNLP.toJson M) = .ok M) ∧
    from_string (serde_to_string sampleModel) = some (.ok sampleModel) := by
  refine ⟨JSONNLP_rt, ?_⟩
  rfl

/-- C4 witness: the round trip at the concrete `sampleModel`. -/
theorem C4_witness :
    JSONNLP.fromJson (JSONNLP.toJson sampleModel) = .ok sampleModel :=
  C4_parse_render_roundtrip.1 sampleModel (by decide) (by decide)

/-- C5: every numeric, boolean, list and nested-object field of every
entity type is present in the rendered member list whatever its value
(`Meta` has only string fields and therefore no conjunct). -/
theorem C5_nonstring_fields_always_emitted :
    (∀ t : TokenFeatures, t.alwaysMembers) ∧
    (∀ t : Token, t.alwaysMembers) ∧
    (∀ s : Sentence, s.alwaysMembers) ∧
    (∀ c : Clause, c.alwaysMembers) ∧
    (∀ d : Dependency, d.alwaysMembers) ∧
    (∀ d : DependencyTree, d.alwaysMembers) ∧
    (∀ c : CoreferenceRepresentantive, c.alwaysMembers) ∧
    (∀ c : CoreferenceReferents, c.alwaysMembers) ∧
    (∀ c : Coreference, c.alwaysMembers) ∧
    (∀ s : Scope, s.alwaysMembers) ∧
    (∀ c : ConstituentParse, c.alwaysMembers) ∧
    (∀ e : Expression, e.alwaysMembers) ∧
    (∀ p : Paragraph, p.alwaysMembers) ∧
    (∀ e : Entity, e.alwaysMembers) ∧
    (∀ r : Relation, r.alwaysMembers) ∧
    (∀ t : Triple, t.alwaysMembers) ∧
    (∀ d : Document, d.alwaysMembers) ∧
    (∀ j : JSONNLP, j.alwaysMembers) :=
  ⟨TokenFeatures_alwaysMembers_holds, Token_alwaysMembers_holds,
   Sentence_alwaysMembers_holds, Clause_alwaysMembers_holds,
   Dependency_alwaysMembers_holds, DependencyTree_alwaysMembers_holds,
   CoreferenceRepresentantive_alwaysMembers_holds,
   CoreferenceReferents_alwaysMembers_holds, Coreference_alwaysMembers_holds,
   Scope_alwaysMembers_holds, ConstituentParse_alwaysMembers_holds,
   Expression_alwaysMembers_holds, Paragraph_alwaysMembers_holds,
   Entity_alwaysMembers_holds, Relation_alwaysMembers_holds,
   Triple_alwaysMembers_holds, Document_alwaysMembers_holds,
   JSONNLP_alwaysMembers_holds⟩

set_option maxRecDepth 100000 in
/-- C6: a Token object lacking `id`, `text` or `lemma` fails to
deserialize; a whole document containing such a token anywhere in a
`tokenList` fails to deserialize; and for a concrete such document,
`from_string` yields no model. -/
theorem C6_token_required_fields :
    (∀ ms : List (String × Json),
      ("id" ∉ ms.map Prod.fst ∨ "text" ∉ ms.map Prod.fst ∨
        "lemma" ∉ ms.map Prod.fst) →
      (Token.fromJson (.obj ms)).isOk = false) ∧
    (∀ (ms : List (String × Json)) (dl : List Json)
      (dms : List (String × Json)) (tl : List Json)
      (tms : List (String × Json)),
      getOpt ms "docs" = .ok (some (Json.arr dl)) →
      Json.obj dms ∈ dl →
      getOpt dms "tokenList" = .ok (some (Json.arr tl)) →
      Json.obj tms ∈ tl →
      ("id" ∉ tms.map Prod.fst ∨ "text" ∉ tms.map Prod.fst ∨
        "lemma" ∉ tms.map Prod.fst) →
      (JSONNLP.fromJson (.obj ms)).isOk = false) ∧
    from_string tokenNoLemmaText = none := by
  refine ⟨Token.fromJson_missing_required, JSONNLP_fromJson_bad_token, ?_⟩
  rfl

/-- C6 witness: the empty Token object (which lacks `id`) fails. -/
theorem C6_witness : (Token.fromJson (Json.obj [])).isOk = false :=
  C6_token_required_fields.1 [] (Or.inl (by decide))

/-- C7: a Meta with `author = "X"` renders under the literal wire key
`DC.author` with value `"X"`; a Token with `prop_id_prob = 0.5` (the
numeral `dec 5 1`) renders it under the literal wire key
`propIDProbability`; and that numeral prints as `0.5`. -/
theorem C7_wire_name_fidelity :
    (∀ m : Meta, m.author = "X" →
      findVal "DC.author" m.jsonMembers = some (Json.str "X")) ∧
    (∀ t : Token, t.prop_id_prob = JNum.dec 5 1 →
      findVal "propIDProbability" t.jsonMembers =
        some (Json.num (JNum.dec 5 1))) ∧
    printJNum (JNum.dec 5 1) = "0.5" := by
  refine ⟨?_, ?_, rfl⟩
  · intro m h
    simp [Meta.jsonMembers, h]
  · intro t h
    simp [Token.jsonMembers, h]

/-- C7 witness: the naming law at concrete sample values. -/
theorem C7_witness :
    findVal "DC.author" sampleMetaX.jsonMembers = some (Json.str "X") ∧
    findVal "propIDProbability" sampleToken.jsonMembers =
      some (Json.num (JNum.dec 5 1)) :=
  ⟨C7_wire_name_fidelity.1 sampleMetaX rfl,
   C7_wire_name_fidelity.2.1 sampleToken rfl⟩

/-- C8: for every struct of the schema, inserting a member with a key
outside the struct's wire keys anywhere in the object leaves the parse
result unchanged. -/
theorem C8_unknown_fields_ignored :
    (∀ ms₁ ms₂ k v, k ∉ Meta.wireKeys →
      Meta.fromJson (.obj (ms₁ ++ (k, v) :: ms₂)) =
        Meta.fromJson (.obj (ms₁ ++ ms₂))) ∧
    (∀ ms₁ ms₂ k v, k ∉ TokenFeatures.wireKeys →
      TokenFeatures.fromJson (.obj (ms₁ ++ (k, v) :: ms₂)) =
        TokenFeatures.fromJson (.obj (ms₁ ++ ms₂))) ∧
    (∀ ms₁ ms₂ k v, k ∉ Token.wireKeys →
      Token.fromJson (.obj (ms₁ ++ (k, v) :: ms₂)) =
        Token.fromJson (.obj (ms₁ ++ ms₂))) ∧
    (∀ ms₁ ms₂ k v, k ∉ Sentence.wireKeys →
      Sentence.fromJson (.obj (ms₁ ++ (k, v) :: ms₂)) =
        Sentence.fromJson (.obj (ms₁ ++ ms₂))) ∧
    (∀ ms₁ ms₂ k v, k ∉ Clause.wireKeys →
      Clause.fromJson (.obj (ms₁ ++ (k, v) :: ms₂)) =
        Clause.fromJson (.obj (ms₁ ++ ms₂))) ∧
    (∀ ms₁ ms₂ k v, k ∉ Dependency.wireKeys →
      Dependency.fromJson (.obj (ms₁ ++ (k, v) :: ms₂)) =
        Dependency.fromJson (.obj (ms₁ ++ ms₂))) ∧
    (∀ ms₁ ms₂ k v, k ∉ DependencyTree.wireKeys →
      DependencyTree.fromJson (.obj (ms₁ ++ (k, v) :: ms₂)) =
        DependencyTree.fromJson (.obj (ms₁ ++ ms₂))) ∧
    (∀ ms₁ ms₂ k v, k ∉ CoreferenceRepresentantive.wireKeys →
      CoreferenceRepresentantive.fromJson (.obj (ms₁ ++ (k, v) :: ms₂)) =
        CoreferenceRepresentantive.fromJson (.obj (ms₁ ++ ms₂))) ∧
    (∀ ms₁ ms₂ k v, k ∉ CoreferenceReferents.wireKeys →
      CoreferenceReferents.fromJson (.obj (ms₁ ++ (k, v) :: ms₂)) =
        CoreferenceReferents.fromJson (.obj (ms₁ ++ ms₂))) ∧
    (∀ ms₁ ms₂ k v, k ∉ Coreference.wireKeys →
      Coreference.fromJson (.obj (ms₁ ++ (k, v) :: ms₂)) =
        Coreference.fromJson (.obj (ms₁ ++ ms₂))) ∧
    (∀ ms₁ ms₂ k v, k ∉ Scope.wireKeys →
      Scope.fromJson (.obj (ms₁ ++ (k, v) :: ms₂)) =
        Scope.fromJson (.obj (ms₁ ++ ms₂))) ∧
    (∀ ms₁ ms₂ k v, k ∉ ConstituentParse.wireKeys →
      ConstituentParse.fromJson (.obj (ms₁ ++ (k, v) :: ms₂)) =
        ConstituentParse.fromJson (.obj (ms₁ ++ ms₂))) ∧
    (∀ ms₁ ms₂ k v, k ∉ Expression.wireKeys →
      Expression.fromJson (.obj (ms₁ ++ (k, v) :: ms₂)) =
        Expression.fromJson (.obj (ms₁ ++ ms₂))) ∧
    (∀ ms₁ ms₂ k v, k ∉ Paragraph.wireKeys →
      Paragraph.fromJson (.obj (ms₁ ++ (k, v) :: ms₂)) =
        Paragraph.fromJson (.obj (ms₁ ++ ms₂))) ∧
    (∀ ms₁ ms₂ k v, k ∉ Attribute.wireKeys →
      Attribute.fromJson (.obj (ms₁ ++ (k, v) :: ms₂)) =
        Attribute.fromJson (.obj (ms₁ ++ ms₂))) ∧
    (∀ ms₁ ms₂ k v, k ∉ Entity.wireKeys →
      Entity.fromJson (.obj (ms₁ ++ (k, v) :: ms₂)) =
        Entity.fromJson (.obj (ms₁ ++ ms₂))) ∧
    (∀ ms₁ ms₂ k v, k ∉ Relation.wireKeys →
      Relation.fromJson (.obj (ms₁ ++ (k, v) :: ms₂)) =
        Relation.fromJson (.obj (ms₁ ++ ms₂))) ∧
    (∀ ms₁ ms₂ k v, k ∉ Triple.wireKeys →
      Triple.fromJson (.obj (ms₁ ++ (k, v) :: ms₂)) =
        Triple.fromJson (.obj (ms₁ ++ ms₂))) ∧
    (∀ ms₁ ms₂ k v, k ∉ Document.wireKeys →
      Document.fromJson (.obj (ms₁ ++ (k, v) :: ms₂)) =
        Document.fromJson (.obj (ms₁ ++ ms₂))) ∧
    (∀ ms₁ ms₂ k v, k ∉ JSONNLP.wireKeys →
      JSONNLP.fromJson (.obj (ms₁ ++ (k, v) :: ms₂)) =
        JSONNLP.fromJson (.obj (ms₁ ++ ms₂))) :=
  ⟨Meta_fromJson_ignores_unknown, TokenFeatures_fromJson_ignores_unknown,
   Token_fromJson_ignores_unknown, Sentence_fromJson_ignores_unknown,
   Clause_fromJson_ignores_unknown, Dependency_fromJson_ignores_unknown,
   DependencyTree_fromJson_ignores_unknown,
   CoreferenceRepresentantive_fromJson_ignores_unknown,
   CoreferenceReferents_fromJson_ignores_unknown,
   Coreference_fromJson_ignores_unknown, Scope_fromJson_ignores_unknown,
   ConstituentParse_fromJson_ignores_unknown,
   Expression_fromJson_ignores_unknown, Paragraph_fromJson_ignores_unknown,
   Attribute_fromJson_ignores_unknown, Entity_fromJson_ignores_unknown,
   Relation_fromJson_ignores_unknown, Triple_fromJson_ignores_unknown,
   Document_fromJson_ignores_unknown, JSONNLP_fromJson_ignores_unknown⟩

/-- C8 witness: an unknown key inserted into a Meta object is ignored. -/
theorem C8_witness :
    Meta.fromJson (.obj ([("DC.author", Json.str "a")] ++
      ("unknownField", Json.null) :: [])) =
      Meta.fromJson (.obj ([("DC.author", Json.str "a")] ++ [])) :=
  C8_unknown_fields_ignored.1 [("DC.author", Json.str "a")] []
    "unknownField" Json.null (by decide)

/-- C9: `get_json` is total: for every structurally valid in-memory model
it returns `Ok` of the rendered string; the `serde_json::to_string` call
it unwraps cannot fail for this type (no maps, no fallible `Serialize`
impls), so the model of the function returns a string for every input
and never panics or errors. -/
theorem C9_get_json_total (j : JSONNLP) :
    get_json j = .ok (serde_to_string j) := rfl

/-- C10: `u64`/`u8` deserialization rejects negative integers, `u8`
additionally rejects values above 255; consequently a Token with a
negative `id`, a Dependency with a negative `gov`, and a TokenFeatures
with `number` or `person` above 255 all fail to parse. -/
theorem C10_unsigned_integer_fields :
    (∀ n : Int, n < 0 →
      (parseU64 (Json.num (JNum.int n))).isOk = false) ∧
    (∀ n : Int, n < 0 →
      (parseU8 (Json.num (JNum.int n))).isOk = false) ∧
    (∀ n : Int, 255 < n →
      (parseU8 (Json.num (JNum.int n))).isOk = false) ∧
    (∀ (ms : List (String × Json)) (n : Int), n < 0 →
      getOpt ms "id" = .ok (some (Json.num (JNum.int n))) →
      (Token.fromJson (.obj ms)).isOk = false) ∧
    (∀ (ms : List (String × Json)) (n : Int), n < 0 →
      getOpt ms "gov" = .ok (some (Json.num (JNum.int n))) →
      (Dependency.fromJson (.obj ms)).isOk = false) ∧
    (∀ (ms : List (String × Json)) (n : Int), 255 < n →
      getOpt ms "number" = .ok (some (Json.num (JNum.int n))) →
      (TokenFeatures.fromJson (.obj ms)).isOk = false) ∧
    (∀ (ms : List (String × Json)) (n : Int), 255 < n →
      getOpt ms "person" = .ok (some (Json.num (JNum.int n))) →
      (TokenFeatures.fromJson (.obj ms)).isOk = false) := by
  refine ⟨?_, ?_, ?_, Token.fromJson_negative_id,
    Dependency.fromJson_negative_gov, TokenFeatures.fromJson_number_over,
    TokenFeatures.fromJson_person_over⟩
  · intro n hn
    rw [parseU64_neg n hn]
    rfl
  · intro n hn
    rw [parseU8_neg n hn]
    rfl
  · intro n hn
    rw [parseU8_over n hn]
    rfl

/-- C10 witness: `-1` is rejected by `u64` parsing, and a TokenFeatures
object with `number = 300` fails. -/
theorem C10_witness :
    (parseU64 (Json.num (JNum.int (-1)))).isOk = false ∧
    (TokenFeatures.fromJson
      (Json.obj [("number", Json.num (JNum.int 300))])).isOk = false :=
  ⟨C10_unsigned_integer_fields.1 (-1) (by decide),
   C10_unsigned_integer_fields.2.2.2.2.2.1
     [("number", Json.num (JNum.int 300))] 300 (by decide) rfl⟩

end jsonnlp
